import Mathlib

/-! relaym-server: session state machine and track-end reconciliation.

A shallow embedding of `usecase/session_timer.go` (the transactional
reconciliation routine `UpdateForHandleNextTrackTx` and its callers) over an
explicit world state: the session store, the timer registry and the log of
calls made to the collaborators (store, external player, pusher, timers).

Go pointers become explicit state passing: a method that mutates
`*entity.Session` returns the mutated session, and every call on a
collaborator interface is appended to `World.calls`.
-/

namespace Relaym

/-! ## Go error values -/

/-- A Go `error`. `sentinel` is a package-level `errors.New` value, compared by
identity; the other constructors are the `fmt.Errorf` shapes used in the
source: `fmtV` formats an error with `%v` (text only, not unwrappable), `fmtW`
wraps it with `%w`, `fmtVW` is the `"...: %v: %w"` shape of the deferred
update, which shows the first error and wraps the second. -/
inductive GoError where
  | sentinel (name : String)
  | fmtV (msg : String) (v : GoError)
  | fmtW (msg : String) (w : GoError)
  | fmtVW (msg : String) (v : GoError) (w : GoError)
  deriving DecidableEq, Repr

/-- The method `Unwrap` of an error built by `fmt.Errorf`: the `%w` operand. -/
def GoError.Unwrap : GoError → Option GoError
  | .sentinel _ => none
  | .fmtV _ _ => none
  | .fmtW _ w => some w
  | .fmtVW _ _ w => some w

/-- The function `errors.Is(err, target)`: walks the `Unwrap` chain of `err`
and compares each element with `target`. -/
def errorsIs : GoError → GoError → Bool
  | .sentinel n, target => decide (GoError.sentinel n = target)
  | .fmtV m v, target => decide (GoError.fmtV m v = target)
  | .fmtW m w, target => decide (GoError.fmtW m w = target) || errorsIs w target
  | .fmtVW m v w, target => decide (GoError.fmtVW m v w = target) || errorsIs w target

/-- Whether `target` occurs anywhere in `err`, as a wrapped error or as an
operand that was only formatted into the message. This is the weakest sense in
which an error can be said to be carried by another one. -/
def GoError.carries : GoError → GoError → Bool
  | .sentinel n, target => decide (GoError.sentinel n = target)
  | .fmtV m v, target => decide (GoError.fmtV m v = target) || v.carries target
  | .fmtW m w, target => decide (GoError.fmtW m w = target) || w.carries target
  | .fmtVW m v w, target =>
      decide (GoError.fmtVW m v w = target) || v.carries target || w.carries target

def ErrSessionAllTracksFinished : GoError := .sentinel "ErrSessionAllTracksFinished"
def ErrSessionPlayingDifferentTrack : GoError := .sentinel "ErrSessionPlayingDifferentTrack"
def ErrActiveDeviceNotFound : GoError := .sentinel "ErrActiveDeviceNotFound"
def ErrSessionNotFound : GoError := .sentinel "ErrSessionNotFound"
def ErrChangeSessionStateNotPermit : GoError := .sentinel "ErrChangeSessionStateNotPermit"
def ErrInvalidStateType : GoError := .sentinel "ErrInvalidStateType"
def ErrQueueTrackNotFound : GoError := .sentinel "ErrQueueTrackNotFound"
def ErrUserIsNotSessionCreator : GoError := .sentinel "ErrUserIsNotSessionCreator"

/-! ## Data model (`domain/entity/session.go`) -/

/-- The type `entity.StateType`. `Play`, `Pause` and `Stop` are the constants of
`domain/entity/session.go`; `Archived` is the constant `entity.Archived` read
by `usecase/session_timer.go` and written by `ArchiveSessionsForBatch`. -/
inductive StateType where
  | Play
  | Pause
  | Stop
  | Archived
  deriving DecidableEq, Repr

/-- The method `StateType.String`. -/
def StateType.String : StateType → String
  | .Play => "PLAY"
  | .Pause => "PAUSE"
  | .Stop => "STOP"
  | .Archived => "ARCHIVED"

/-- The struct `entity.QueueTrack`, with the fields filled by
`SessionRepository.toQueueTracks`. -/
structure QueueTrack where
  Index : Int
  URI : String
  SessionID : String
  deriving DecidableEq, Repr

/-- The struct `entity.Session`, with the fields filled by
`SessionRepository.FindByID`. `QueueHead` is a Go `int` that the data model
keeps non-negative; `ExpiredAt` is a timestamp. -/
structure Session where
  ID : String
  Name : String
  CreatorID : String
  DeviceID : String
  StateType : StateType
  QueueHead : Nat
  QueueTracks : List QueueTrack
  ExpiredAt : Int
  deriving DecidableEq, Repr

/-- Modelled from the spec: the struct `entity.CurrentPlayingInfo` is absent
from the sources; the external player's snapshot is
`{trackUri, remainingDuration, device}`, the duration in nanoseconds. -/
structure CurrentPlayingInfo where
  TrackURI : String
  RemainingDuration : Int
  DeviceID : String
  deriving DecidableEq, Repr

/-- Modelled from the spec: the method `CurrentPlayingInfo.Remain` is absent
from the sources; it is the snapshot's reported remaining time. -/
def CurrentPlayingInfo.Remain (p : CurrentPlayingInfo) : Int :=
  p.RemainingDuration

/-- The method `Session.MoveToPlay`. -/
def Session.MoveToPlay (s : Session) : Session × Option GoError :=
  ({ s with StateType := .Play }, none)

/-- The method `Session.MoveToPause`. -/
def Session.MoveToPause (s : Session) : Session × Option GoError :=
  if s.StateType = .Play ∨ s.StateType = .Pause then
    ({ s with StateType := .Pause }, none)
  else
    (s, some (.fmtW ("state type from " ++ s.StateType.String ++ " to Pause")
      ErrChangeSessionStateNotPermit))

/-- Modelled from the spec: the method `Session.MoveToStop` is absent from the
sources; interrupt handling uses it to force the state to `Stop`. -/
def Session.MoveToStop (s : Session) : Session :=
  { s with StateType := .Stop }

/-- Modelled from the spec: the method `Session.GoNextTrack` is absent from the
sources. It increments `queueHead` by one and fails with "all tracks finished"
when the new head would exceed the last queue index, leaving the session
unchanged. -/
def Session.GoNextTrack (s : Session) : Session × Option GoError :=
  if s.QueueTracks.length ≤ s.QueueHead + 1 then
    (s, some ErrSessionAllTracksFinished)
  else
    ({ s with QueueHead := s.QueueHead + 1 }, none)

/-- Modelled from the spec: the method `Session.IsPlayingCorrectTrack` is
absent from the sources. It fails with "playing different track" when the
snapshot's URI or device does not match `queueTracks[queueHead]` or
`deviceId`. -/
def Session.IsPlayingCorrectTrack (s : Session) (playingInfo : CurrentPlayingInfo) :
    Option GoError :=
  match s.QueueTracks.get? s.QueueHead with
  | none => some ErrSessionPlayingDifferentTrack
  | some track =>
    if playingInfo.TrackURI = track.URI ∧ playingInfo.DeviceID = s.DeviceID then none
    else some ErrSessionPlayingDifferentTrack

/-- Modelled from the spec: the method
`Session.TrackURIShouldBeAddedWhenHandleTrackEnd` is absent from the sources.
It is the URI of the entry immediately following the head, the one the
external player's queue has not been loaded with yet, and the empty string
when there is none. -/
def Session.TrackURIShouldBeAddedWhenHandleTrackEnd (s : Session) : String :=
  match s.QueueTracks.get? (s.QueueHead + 1) with
  | none => ""
  | some track => track.URI

/-! ## Collaborators -/

/-- Modelled from the spec: the event kinds of the notification sink
(`entity.Event...`), absent from the sources. -/
inductive Event where
  | AddTrack
  | Play
  | Pause
  | NextTrack (head : Nat)
  | Stop
  | Interrupt
  | Archived
  | Unarchive
  deriving DecidableEq, Repr

/-- The struct `event.PushMessage`. -/
structure PushMessage where
  SessionID : String
  Msg : Event
  deriving DecidableEq, Repr

/-- Modelled from the spec: the struct `entity.SyncCheckTimer` is absent from
the sources; a per-session countdown, `duration` being the deadline set by the
most recent `SetTimer`, if any. -/
structure SyncCheckTimer where
  sessionID : String
  duration : Option Int
  deriving DecidableEq, Repr

/-- One call on a collaborator interface, with its arguments. -/
inductive Call where
  | Push (m : PushMessage)
  | Enqueue (trackURI : String) (deviceID : String)
  | CurrentlyPlaying
  | FindByIDForUpdate (id : String)
  | Update (s : Session)
  | CreateTimer (sessionID : String)
  | SetTimer (sessionID : String) (d : Int)
  | DeleteTimer (sessionID : String)
  | Sleep (d : Int)
  | FindByID (id : String)
  | StopTimer (sessionID : String)
  | StartTrackEndTrigger (sessionID : String)
  | SetRepeatMode (repeatOn : Bool) (deviceID : String)
  | SetShuffleMode (shuffleOn : Bool) (deviceID : String)
  | Play (deviceID : String)
  | PlayWithTracks (deviceID : String) (trackURIs : List String)
  | AddToQueue (trackURI : String) (deviceID : String)
  | Pause (deviceID : String)
  deriving DecidableEq, Repr

/-- The behaviour of the collaborators during one reconciliation cycle: what
the external player answers and whether the store fails. -/
structure Env where
  Enqueue : String → String → Option GoError
  CurrentlyPlaying : Except GoError CurrentPlayingInfo
  Update : Session → Option GoError
  FindFault : Option GoError

/-- The mutable state around the use case: the session store, the timer
registry of the `SyncCheckTimerManager`, and the log of collaborator calls. -/
structure World where
  sessions : String → Option Session
  timers : String → Option SyncCheckTimer
  calls : List Call

def World.log (w : World) (c : Call) : World :=
  { w with calls := w.calls ++ [c] }

/-- The method `Pusher.Push`: fire-and-forget, only recorded. -/
def World.Push (w : World) (m : PushMessage) : World :=
  w.log (.Push m)

/-- Modelled from the spec: `SyncCheckTimerManager.CreateTimer` is absent from
the sources; it replaces any existing timer for the id by a fresh one. -/
def World.CreateTimer (w : World) (sessionID : String) : World × SyncCheckTimer :=
  let timer : SyncCheckTimer := { sessionID := sessionID, duration := none }
  ({ w.log (.CreateTimer sessionID) with
      timers := fun id => if id = sessionID then some timer else w.timers id }, timer)

/-- Modelled from the spec: `SyncCheckTimer.SetTimer` is absent from the
sources; it (re)arms the expiry signal of the timer, which the registry holds
by reference. -/
def World.SetTimer (w : World) (timer : SyncCheckTimer) (d : Int) : World × SyncCheckTimer :=
  let armed : SyncCheckTimer := { timer with duration := some d }
  ({ w.log (.SetTimer timer.sessionID d) with
      timers := fun id => if w.timers id = some timer then some armed else w.timers id }, armed)

/-- Modelled from the spec: `SyncCheckTimerManager.DeleteTimer` is absent from
the sources; a keyed removal. -/
def World.DeleteTimer (w : World) (sessionID : String) : World :=
  { w.log (.DeleteTimer sessionID) with
      timers := fun id => if id = sessionID then none else w.timers id }

/-- Modelled from the spec: `repository.Session.FindByIDForUpdate` is absent
from the sources; `findByIdForUpdate(id) -> Session | NotFound`, with the error
shapes of `SessionRepository.FindByID`. -/
def World.FindByIDForUpdate (env : Env) (w : World) (id : String) :
    World × Except GoError Session :=
  let w1 := w.log (.FindByIDForUpdate id)
  match env.FindFault with
  | some err => (w1, .error (.fmtW "select session" err))
  | none =>
    match w.sessions id with
    | none => (w1, .error (.fmtW "select session" ErrSessionNotFound))
    | some sess => (w1, .ok sess)

/-- Modelled from the spec: `repository.Session.Update` with a context is
absent from the sources; `update(session) -> ok | error`, the record of that id
being replaced when the store does not fail. -/
def World.Update (env : Env) (w : World) (sess : Session) : World × Option GoError :=
  let w1 := w.log (.Update sess)
  match env.Update sess with
  | some err => (w1, some err)
  | none =>
    ({ w1 with sessions := fun id => if id = sess.ID then some sess else w.sessions id }, none)

/-! ## `usecase/session_timer.go` -/

/-- The struct `handleTrackEndResponse`. -/
structure handleTrackEndResponse where
  triggerAfterTrackEnd : Option SyncCheckTimer
  nextTrack : Bool
  err : Option GoError
  deriving DecidableEq, Repr

/-- What a transactional function leaves behind: the world, the session as
mutated in memory, the returned value and the returned error. -/
structure TxResult where
  world : World
  sess : Session
  resp : handleTrackEndResponse
  returnErr : Option GoError

/-- The method `SessionTimerUseCase.handleAllTrackFinish`. -/
def handleAllTrackFinish (w : World) (sess : Session) : World :=
  w.Push { SessionID := sess.ID, Msg := .Stop }

/-- The method `SessionTimerUseCase.handleInterrupt`. -/
def handleInterrupt (w : World) (sess : Session) : World × Session :=
  let sess := sess.MoveToStop
  (w.Push { SessionID := sess.ID, Msg := .Interrupt }, sess)

/-- The body of `SessionTimerUseCase.UpdateForHandleNextTrackTx`, up to its
`return` statements; the deferred update is applied by
`UpdateForHandleNextTrackTx`. -/
def updateForHandleNextTrackBody (env : Env) (w : World) (sess : Session) : TxResult :=
  if sess.StateType = .Archived then
    let w := w.Push { SessionID := sess.ID, Msg := .Archived }
    ⟨w, sess, { triggerAfterTrackEnd := none, nextTrack := false, err := none }, none⟩
  else
    let (sess, goErr) := sess.GoNextTrack
    if (match goErr with
        | some err => errorsIs err ErrSessionAllTracksFinished
        | none => false) then
      let w := handleAllTrackFinish w sess
      ⟨w, sess, { triggerAfterTrackEnd := none, nextTrack := false, err := none }, none⟩
    else
      let track := sess.TrackURIShouldBeAddedWhenHandleTrackEnd
      let enq : World × Option GoError :=
        if track ≠ "" then (w.log (.Enqueue track sess.DeviceID), env.Enqueue track sess.DeviceID)
        else (w, none)
      match enq with
      | (w, some err) =>
        ⟨w, sess, { triggerAfterTrackEnd := none, nextTrack := false,
                    err := some (.fmtW ("call add queue api trackURI=" ++ track) err) }, none⟩
      | (w, none) =>
        let w := w.log .CurrentlyPlaying
        match env.CurrentlyPlaying with
        | .error err =>
          if errorsIs err ErrActiveDeviceNotFound then
            let (w, sess) := handleInterrupt w sess
            ⟨w, sess, { triggerAfterTrackEnd := none, nextTrack := false, err := some err }, none⟩
          else
            ⟨w, sess, { triggerAfterTrackEnd := none, nextTrack := false,
                        err := some (.fmtV ("get currently playing info id=" ++ sess.ID) err) },
              none⟩
        | .ok playingInfo =>
          match sess.IsPlayingCorrectTrack playingInfo with
          | some err =>
            let (w, sess) := handleInterrupt w sess
            ⟨w, sess, { triggerAfterTrackEnd := none, nextTrack := false,
                        err := some (.fmtW "check whether playing correct track" err) }, none⟩
          | none =>
            let w := w.Push { SessionID := sess.ID, Msg := .NextTrack sess.QueueHead }
            let (w, triggerAfterTrackEnd) := w.CreateTimer sess.ID
            let (w, triggerAfterTrackEnd) := w.SetTimer triggerAfterTrackEnd playingInfo.Remain
            ⟨w, sess, { triggerAfterTrackEnd := some triggerAfterTrackEnd, nextTrack := true,
                        err := none }, none⟩

/-- The method `SessionTimerUseCase.UpdateForHandleNextTrackTx`: the body, then
the deferred `sessionRepo.Update`, whose failure replaces the named result
`returnErr`. -/
def UpdateForHandleNextTrackTx (env : Env) (w : World) (sess : Session) : TxResult :=
  let r := updateForHandleNextTrackBody env w sess
  match World.Update env r.world r.sess with
  | (w, some err) =>
    match r.returnErr with
    | some returnErr =>
      { r with world := w,
               returnErr := some (.fmtVW ("update session id=" ++ r.sess.ID) err returnErr) }
    | none =>
      { r with world := w, returnErr := some (.fmtW ("update session id=" ++ r.sess.ID) err) }
  | (w, none) => { r with world := w }

/-- What `DoInTx` and the functions it runs return: a value of type
`interface{}`, here a response or nil, and an error. -/
structure TxReturn where
  world : World
  value : Option handleTrackEndResponse
  err : Option GoError

/-- The method `SessionTimerUseCase.handleTrackEndTx`, applied to the world. -/
def handleTrackEndTx (env : Env) (sessionID : String) (w : World) : TxReturn :=
  match World.FindByIDForUpdate env w sessionID with
  | (w, .error err) =>
    ⟨w, some { triggerAfterTrackEnd := none, nextTrack := false, err := none },
      some (.fmtV ("find session id=" ++ sessionID) err)⟩
  | (w, .ok sess) =>
    let r := UpdateForHandleNextTrackTx env w sess
    ⟨r.world, some r.resp, r.returnErr⟩

/-- The method `SessionTimerUseCase.handleSkipTrackTx`, applied to the world;
the wait of 300 ms is recorded in nanoseconds. -/
def handleSkipTrackTx (env : Env) (sessionID : String) (w : World) : TxReturn :=
  match World.FindByIDForUpdate env w sessionID with
  | (w, .error err) =>
    ⟨w, some { triggerAfterTrackEnd := none, nextTrack := false, err := none },
      some (.fmtV ("find session id=" ++ sessionID) err)⟩
  | (w, .ok sess) =>
    let w := w.log (.Sleep 300000000)
    let r := UpdateForHandleNextTrackTx env w sess
    ⟨r.world, some r.resp, r.returnErr⟩

/-- Modelled from the spec: `repository.Session.DoInTx` is absent from the
sources; `runInTransaction(fn)` executes `fn` and commits or rolls back as a
unit: when `fn` returns an error the store is put back as it was, and the
value and error of `fn` are handed to the caller. -/
def DoInTx (w : World) (f : World → TxReturn) : TxReturn :=
  let r := f w
  match r.err with
  | some err => ⟨{ r.world with sessions := w.sessions }, r.value, some err⟩
  | none => ⟨r.world, r.value, none⟩

/-- The results `(*entity.SyncCheckTimer, bool, error)` of a reconciliation
cycle, with the world it leaves. -/
structure CycleResult where
  world : World
  timer : Option SyncCheckTimer
  nextTrack : Bool
  err : Option GoError

/-- The variable `waitTimeBeforeHandleTrackEnd`, 7 s in nanoseconds. -/
def waitTimeBeforeHandleTrackEnd : Int := 7000000000

/-- The method `SessionTimerUseCase.handleSkipTrack`. -/
def handleSkipTrack (env : Env) (w : World) (sessionID : String) : CycleResult :=
  let w := w.DeleteTimer sessionID
  let r := DoInTx w (handleSkipTrackTx env sessionID)
  match r.value with
  | some v =>
    match r.err with
    | some err => ⟨r.world, none, false, some (.fmtW "handle track end in transaction" err)⟩
    | none => ⟨r.world, v.triggerAfterTrackEnd, v.nextTrack, v.err⟩
  | none =>
    match r.err with
    | some err => ⟨r.world, none, false, some (.fmtW "handle track end in transaction" err)⟩
    | none => ⟨r.world, none, false, none⟩

/-- The method `SessionTimerUseCase.handleTrackEnd`. -/
def handleTrackEnd (env : Env) (w : World) (sessionID : String) : CycleResult :=
  let w := w.DeleteTimer sessionID
  let w := w.log (.Sleep waitTimeBeforeHandleTrackEnd)
  let r := DoInTx w (handleTrackEndTx env sessionID)
  match r.value with
  | some v =>
    match r.err with
    | some err => ⟨r.world, none, false, some (.fmtW "handle track end in transaction" err)⟩
    | none => ⟨r.world, v.triggerAfterTrackEnd, v.nextTrack, v.err⟩
  | none =>
    match r.err with
    | some err => ⟨r.world, none, false, some (.fmtW "handle track end in transaction" err)⟩
    | none => ⟨r.world, none, false, none⟩

/-! ## Reading the call log -/

/-- The calls made since the world `before`. -/
def newCalls (before after : World) : List Call :=
  after.calls.drop before.calls.length

/-- The messages pushed to the notification sink, in order. -/
def pushed : List Call → List PushMessage
  | [] => []
  | .Push m :: cs => m :: pushed cs
  | _ :: cs => pushed cs

/-- The sessions handed to `sessionRepo.Update`, in order. -/
def updated : List Call → List Session
  | [] => []
  | .Update s :: cs => s :: updated cs
  | _ :: cs => updated cs

/-- Whether a call goes to the external player. -/
def Call.isPlayerCall : Call → Bool
  | .Enqueue _ _ => true
  | .CurrentlyPlaying => true
  | .SetRepeatMode _ _ => true
  | .SetShuffleMode _ _ => true
  | .Play _ => true
  | .PlayWithTracks _ _ => true
  | .AddToQueue _ _ => true
  | .Pause _ => true
  | _ => false

/-- Whether a call creates or arms a timer. -/
def Call.isTimerCall : Call → Bool
  | .CreateTimer _ => true
  | .SetTimer _ _ => true
  | _ => false

/-- The empty world: no session stored, no timer, nothing called yet. -/
def World.empty : World :=
  { sessions := fun _ => none, timers := fun _ => none, calls := [] }

/-- A world whose store holds exactly the session `sess`. -/
def World.holding (sess : Session) : World :=
  { sessions := fun id => if id = sess.ID then some sess else none,
    timers := fun _ => none, calls := [] }

/-- The pre-load call of a cycle, if any: the `Enqueue` issued for the session
as advanced by `GoNextTrack`. -/
def preloadCalls (sess : Session) : List Call :=
  if sess.TrackURIShouldBeAddedWhenHandleTrackEnd ≠ "" then
    [.Enqueue sess.TrackURIShouldBeAddedWhenHandleTrackEnd sess.DeviceID]
  else []

/-- The pre-load call of a cycle succeeds, or there is none to make. -/
def preloadSucceeds (env : Env) (sess : Session) : Prop :=
  sess.TrackURIShouldBeAddedWhenHandleTrackEnd = "" ∨
    env.Enqueue sess.TrackURIShouldBeAddedWhenHandleTrackEnd sess.DeviceID = none

/-- The world once the pre-load step of a cycle is over. -/
def afterPreload (w : World) (sess : Session) : World :=
  { w with calls := w.calls ++ preloadCalls sess }

/-- The world in which the transactional function of an expiry cycle runs on
the session it has read: the old timer deleted, the wait of
`waitTimeBeforeHandleTrackEnd` over, the session read under the lock. -/
def lockedWorld (w : World) (sessionID : String) : World :=
  ((w.DeleteTimer sessionID).log (.Sleep waitTimeBeforeHandleTrackEnd)).log
    (.FindByIDForUpdate sessionID)

/-! ## The scheduler loop of `usecase/session_timer.go` -/

/-- The value `time.Second`, in nanoseconds. -/
def second : Int := 1000000000

/-- The value of an `int64` computation: Go integer arithmetic wraps around. -/
def wrapInt64 (x : Int) : Int :=
  (x + 9223372036854775808) % 18446744073709551616 - 9223372036854775808

/-- Whether an integer is an `int64` value, as every `time.Duration` is. -/
def isInt64 (x : Int) : Prop :=
  -9223372036854775808 ≤ x ∧ x < 9223372036854775808

/-- The channel on which the `select` of `startTrackEndTrigger` receives:
`waitPlayTimer.C`, `StopCh()`, `NextCh()` or `ExpireCh()`. -/
inductive Signal where
  | WaitPlay
  | Stop
  | Next
  | Expire
  deriving DecidableEq, Repr

/-- The state of the `time.Timer` held in `waitPlayTimer`, whose channel `C`
buffers one value: not yet expired, expired with its value still in `C`,
expired with the value received from `C`, or stopped before it expired. -/
inductive WaitPlayTimer where
  | pending
  | fired
  | received
  | stopped
  deriving DecidableEq, Repr

/-- The method `time.Timer.Stop`: it stops a pending timer and reports true;
for a timer that has already expired or been stopped it reports false and
changes nothing, a value left in `C` staying there. -/
def WaitPlayTimer.Stop : WaitPlayTimer → WaitPlayTimer × Bool
  | .pending => (.stopped, true)
  | .fired => (.fired, false)
  | .received => (.received, false)
  | .stopped => (.stopped, false)

/-- How one iteration of the `for` loop of `startTrackEndTrigger` ends: the
loop goes on with the timer now held in `triggerAfterTrackEnd` and with
`waitPlayTimer` in the given state, the function returns, or it blocks for
ever in the receive `<-waitPlayTimer.C` of its stop branch. -/
inductive StepResult where
  | goOn (triggerAfterTrackEnd : Option SyncCheckTimer) (waitPlayTimer : WaitPlayTimer)
  | ended
  | blocked
  deriving DecidableEq, Repr

/-- One iteration of the `for` loop of
`SessionTimerUseCase.startTrackEndTrigger`, for the signal received; `env` is
the behaviour of the collaborators during the iteration and `waitPlayTimer`
the state of the timer created before the loop. The `select` receives from
`waitPlayTimer.C` only when the timer is pending, and then expires, or holds
its value; once the value is received or the timer stopped, `C` stays empty
and the iteration receives nothing. In the stop branch
`if !waitPlayTimer.Stop() { <-waitPlayTimer.C }` returns when `Stop` reports
true or `C` holds a value, and blocks for ever on the empty `C` otherwise.
Stopping `waitPlayTimer` calls no collaborator. -/
def triggerStep (env : Env) (w : World) (sessionID : String)
    (triggerAfterTrackEnd : SyncCheckTimer) (waitPlayTimer : WaitPlayTimer) :
    Signal → World × StepResult
  | .WaitPlay =>
    match waitPlayTimer with
    | .received => (w, .goOn (some triggerAfterTrackEnd) .received)
    | .stopped => (w, .goOn (some triggerAfterTrackEnd) .stopped)
    | _ =>
      let w := w.log .CurrentlyPlaying
      match env.CurrentlyPlaying with
      | .error _ => (w, .ended)
      | .ok playingInfo =>
        let remainDuration := wrapInt64 (playingInfo.Remain - wrapInt64 (2 * second))
        let (w, triggerAfterTrackEnd) := w.SetTimer triggerAfterTrackEnd remainDuration
        (w, .goOn (some triggerAfterTrackEnd) .received)
  | .Stop =>
    match waitPlayTimer.Stop with
    | (_, true) => (w, .ended)
    | (.fired, false) => (w, .ended)
    | (_, false) => (w, .blocked)
  | .Next =>
    let waitPlayTimer := waitPlayTimer.Stop.1
    let r := handleSkipTrack env w sessionID
    match r.err with
    | some err =>
      if errorsIs err ErrSessionPlayingDifferentTrack then (r.world, .ended)
      else (r.world, .ended)
    | none =>
      if !r.nextTrack then (r.world, .ended)
      else (r.world, .goOn r.timer waitPlayTimer)
  | .Expire =>
    let waitPlayTimer := waitPlayTimer.Stop.1
    let r := handleTrackEnd env w sessionID
    match r.err with
    | some err =>
      if errorsIs err ErrSessionPlayingDifferentTrack then (r.world, .ended)
      else (r.world, .ended)
    | none =>
      if !r.nextTrack then (r.world, .ended)
      else (r.world, .goOn r.timer waitPlayTimer)

/-- Where a run of the scheduler loop stands once the signals received so far
are handled: waiting in the `select` with its timer, returned, crashed on a
nil timer, or blocked for ever in its stop branch. -/
inductive LoopStatus where
  | waiting (triggerAfterTrackEnd : SyncCheckTimer)
  | returned
  | crashed
  | blocked
  deriving DecidableEq, Repr

/-- The `for` loop of `SessionTimerUseCase.startTrackEndTrigger`, run on the
signals it receives, each with the behaviour of the collaborators at that
time; the expiry of `waitPlayTimer` is its signal `WaitPlay`. -/
def triggerLoop (w : World) (sessionID : String) (triggerAfterTrackEnd : SyncCheckTimer)
    (waitPlayTimer : WaitPlayTimer) : List (Signal × Env) → World × LoopStatus
  | [] => (w, .waiting triggerAfterTrackEnd)
  | (signal, env) :: rest =>
    match triggerStep env w sessionID triggerAfterTrackEnd waitPlayTimer signal with
    | (w, .ended) => (w, .returned)
    | (w, .blocked) => (w, .blocked)
    | (w, .goOn none _) => (w, .crashed)
    | (w, .goOn (some timer) waitPlayTimer) => triggerLoop w sessionID timer waitPlayTimer rest

/-- The method `SessionTimerUseCase.startTrackEndTrigger`: `waitPlayTimer` is
created pending, the timer is created in the registry, then the loop runs. -/
def startTrackEndTrigger (w : World) (sessionID : String) (signals : List (Signal × Env)) :
    World × LoopStatus :=
  let waitPlayTimer := WaitPlayTimer.pending
  let (w, triggerAfterTrackEnd) := w.CreateTimer sessionID
  triggerLoop w sessionID triggerAfterTrackEnd waitPlayTimer signals

/-- The calls of a log without the waits. -/
def withoutSleep : List Call → List Call
  | [] => []
  | .Sleep _ :: cs => withoutSleep cs
  | c :: cs => c :: withoutSleep cs

/-- The waits of a log, in order. -/
def sleeps : List Call → List Int
  | [] => []
  | .Sleep d :: cs => d :: sleeps cs
  | _ :: cs => sleeps cs

/-! ## `usecase/session.go` and the rest of `domain/entity/session.go` -/

/-- The function `entity.NewSession`; `uuid` is the value of
`uuid.New().String()`. The fields the literal leaves out are zero. -/
def NewSession (uuid : String) (name : String) (creatorID : String) :
    Session × Option GoError :=
  ({ ID := uuid, Name := name, CreatorID := creatorID, DeviceID := "", StateType := .Stop,
     QueueHead := 0, QueueTracks := [], ExpiredAt := 0 }, none)

/-- Modelled from the spec: the method `Session.IsPlaying` is absent from the
sources; the session is playing when its state is `Play`. -/
def Session.IsPlaying (s : Session) : Bool :=
  decide (s.StateType = .Play)

/-- Modelled from the spec: the method `Session.IsResume` is absent from the
sources; a transition into `Play` from `Pause` is a resume. -/
def Session.IsResume (s : Session) (nextState : Relaym.StateType) : Bool :=
  decide (s.StateType = .Pause ∧ nextState = .Play)

/-- Modelled from the spec: the method `Session.TrackURIsOnAndAfterQueueHead`
is absent from the sources; the URIs of the queue from the head on. -/
def Session.TrackURIsOnAndAfterQueueHead (s : Session) : List String :=
  (s.QueueTracks.drop s.QueueHead).map (fun track => track.URI)

/-- The variable `syncCheckOffset`, 5 s in nanoseconds. -/
def syncCheckOffset : Int := 5 * second

/-- The behaviour of the collaborators during one request to the
`SessionUseCase`: the store and `CurrentlyPlaying` as in `Env`, and the
commands of the external player. -/
structure RequestEnv extends Env where
  SetRepeatMode : Bool → String → Option GoError
  SetShuffleMode : Bool → String → Option GoError
  Play : String → Option GoError
  PlayWithTracks : String → List String → Option GoError
  AddToQueue : String → String → Option GoError
  Pause : String → Option GoError

/-- The method `repository.Session.FindByID`, on the store of the world, with
the error shapes of `SessionRepository.FindByID`. -/
def World.FindByID (env : Env) (w : World) (id : String) : World × Except GoError Session :=
  let w1 := w.log (.FindByID id)
  match env.FindFault with
  | some err => (w1, .error (.fmtW "select session" err))
  | none =>
    match w.sessions id with
    | none => (w1, .error (.fmtW "select session" ErrSessionNotFound))
    | some sess => (w1, .ok sess)

/-- Modelled from the spec: `SyncCheckTimerManager.GetTimer` is absent from the
sources; a keyed lookup. -/
def World.GetTimer (w : World) (sessionID : String) : Option SyncCheckTimer :=
  w.timers sessionID

/-- Modelled from the spec: `SyncCheckTimerManager.StopTimer` is absent from
the sources; a keyed lookup that fires the stop signal of the timer, which the
world records as a call. -/
def World.StopTimer (w : World) (sessionID : String) : World :=
  w.log (.StopTimer sessionID)

/-- How a Go function ends: it returns its `error` result, or it panics. -/
inductive Exit where
  | returned (err : Option GoError)
  | panicked
  deriving DecidableEq, Repr

/-- The text of a string slice formatted with `%v`. -/
def formatStrings (xs : List String) : String :=
  "[" ++ " ".intercalate xs ++ "]"

/-- The `for` loop of `SessionUseCase.play` over the tracks after the first:
one `AddToQueue` each, until one fails. -/
def addToQueueEach (env : RequestEnv) (w : World) : List String → World × Option GoError
  | [] => (w, none)
  | trackURI :: rest =>
    let w := w.log (.AddToQueue trackURI "")
    match env.AddToQueue trackURI "" with
    | some err => (w, some (.fmtW ("call add queue api trackURI=" ++ trackURI) err))
    | none => addToQueueEach env w rest

/-- The method `SessionUseCase.play`. The slice expression
`TrackURIsOnAndAfterQueueHead()[:1]` panics when there is no track from the
head on; `go s.startTrackEndTrigger` is recorded as a call. -/
def SessionUseCase.play (env : RequestEnv) (w : World) (sessionID : String) : World × Exit :=
  match World.FindByID env.toEnv w sessionID with
  | (w, .error err) => (w, .returned (some (.fmtW ("find session id=" ++ sessionID) err)))
  | (w, .ok sess) =>
    if sess.QueueTracks.length = 0 then
      (w, .returned (some (.fmtW "play" ErrQueueTrackNotFound)))
    else
      let w := w.log (.SetRepeatMode false "")
      match env.SetRepeatMode false "" with
      | some err => (w, .returned (some (.fmtW "call set repeat off api" err)))
      | none =>
        let w := w.log (.SetShuffleMode false "")
        match env.SetShuffleMode false "" with
        | some err => (w, .returned (some (.fmtW "call set repeat off api" err)))
        | none =>
          let started : World × Exit :=
            if sess.IsResume .Play then
              let w := w.log (.Play "")
              match env.Play "" with
              | some err => (w, .returned (some (.fmtW "call play api" err)))
              | none => (w, .returned none)
            else
              match sess.TrackURIsOnAndAfterQueueHead with
              | [] => (w, .panicked)
              | first :: rest =>
                let w := w.log (.PlayWithTracks "" [first])
                match env.PlayWithTracks "" [first] with
                | some err =>
                  (w, .returned (some (.fmtW ("call play api with tracks " ++
                    formatStrings (first :: rest)) err)))
                | none =>
                  match addToQueueEach env w rest with
                  | (w, some err) => (w, .returned (some err))
                  | (w, none) => (w, .returned none)
          match started with
          | (w, .panicked) => (w, .panicked)
          | (w, .returned (some err)) => (w, .returned (some err))
          | (w, .returned none) =>
            match sess.MoveToPlay with
            | (_, some err) =>
              (w, .returned (some (.fmtW ("move to play id=" ++ sessionID) err)))
            | (sess, none) =>
              match World.Update env.toEnv w sess with
              | (w, some err) =>
                (w, .returned (some (.fmtW ("update session id=" ++ sessionID) err)))
              | (w, none) =>
                let w := w.log (.StartTrackEndTrigger sessionID)
                let w := w.Push { SessionID := sessionID, Msg := .Play }
                (w, .returned none)

/-- The method `SessionUseCase.pause`. -/
def SessionUseCase.pause (env : RequestEnv) (w : World) (sessionID : String) :
    World × Option GoError :=
  match World.FindByID env.toEnv w sessionID with
  | (w, .error err) => (w, some (.fmtW ("find session id=" ++ sessionID) err))
  | (w, .ok sess) =>
    let w := w.log (.Pause "")
    let pauseErr := env.Pause ""
    if (match pauseErr with
        | some err => !errorsIs err ErrActiveDeviceNotFound
        | none => false) then
      match pauseErr with
      | some err => (w, some (.fmtW "call pause api" err))
      | none => (w, none)
    else
      let w := w.StopTimer sessionID
      match sess.MoveToPause with
      | (_, some err) => (w, some (.fmtW ("move to pause id=" ++ sessionID) err))
      | (sess, none) =>
        match World.Update env.toEnv w sess with
        | (w, some err) => (w, some (.fmtW ("update session id=" ++ sessionID) err))
        | (w, none) =>
          let w := w.Push { SessionID := sessionID, Msg := .Pause }
          (w, none)

/-- The method `SessionUseCase.ChangePlaybackState`. -/
def SessionUseCase.ChangePlaybackState (env : RequestEnv) (w : World) (sessionID : String)
    (st : StateType) : World × Exit :=
  match st with
  | .Play =>
    match SessionUseCase.play env w sessionID with
    | (w, .panicked) => (w, .panicked)
    | (w, .returned (some err)) =>
      (w, .returned (some (.fmtW ("play sessionID=" ++ sessionID) err)))
    | (w, .returned none) => (w, .returned none)
  | .Pause =>
    match SessionUseCase.pause env w sessionID with
    | (w, some err) => (w, .returned (some (.fmtW ("pause sessionID=" ++ sessionID) err)))
    | (w, none) => (w, .returned none)
  | _ => (w, .returned none)

/-- The method `SessionUseCase.CanConnectToPusher`; `go s.startTrackEndTrigger`
is recorded as a call. -/
def SessionUseCase.CanConnectToPusher (env : RequestEnv) (w : World) (sessionID : String) :
    World × Option GoError :=
  match World.FindByID env.toEnv w sessionID with
  | (w, .error err) => (w, some (.fmtW ("find session id=" ++ sessionID) err))
  | (w, .ok sess) =>
    if (w.GetTimer sessionID).isNone ∧ sess.IsPlaying = true then
      (w.log (.StartTrackEndTrigger sessionID), none)
    else
      (w, none)

/-- The start of `SessionUseCase.startTrackEndTrigger`, up to the creation of
the first timer (`usecase/session.go`, lines 206 to 226). The two-argument
`CreateTimer(sessionID, d)` of this older use case creates the timer armed
with `d`. -/
def SessionUseCase.firstTimer (env : Env) (w : World) (sessionID : String) :
    World × Option SyncCheckTimer :=
  let w := w.log (.Sleep (5 * second))
  let w := w.log .CurrentlyPlaying
  match env.CurrentlyPlaying with
  | .error _ => (w, none)
  | .ok playingInfo =>
    let remainDuration := playingInfo.Remain
    let (w, timer) := w.CreateTimer sessionID
    let (w, timer) := w.SetTimer timer (wrapInt64 (remainDuration + syncCheckOffset))
    (w, some timer)

/-- Modelled from the spec: the method `Session.IsCreator` is absent from the
sources; the device is set by the creator only, the user whose id is the
`creatorId` of the session. -/
def Session.IsCreator (s : Session) (userID : String) : Bool :=
  decide (s.CreatorID = userID)

/-- The method `SessionUseCase.SetDevice`; `ctxUserID` is what
`service.GetUserIDFromContext(ctx)` finds in the context, if anything. -/
def SessionUseCase.SetDevice (env : RequestEnv) (w : World) (ctxUserID : Option String)
    (sessionID : String) (deviceID : String) : World × Option GoError :=
  match ctxUserID with
  | none => (w, some (.sentinel "get user id from context"))
  | some userID =>
    match World.FindByID env.toEnv w sessionID with
    | (w, .error err) => (w, some (.fmtW ("find session id=" ++ sessionID) err))
    | (w, .ok sess) =>
      if !sess.IsCreator userID then
        (w, some (.fmtW ("userID=" ++ userID ++ " creatorID=" ++ sess.CreatorID)
          ErrUserIsNotSessionCreator))
      else
        let sess := { sess with DeviceID := deviceID }
        match World.Update env.toEnv w sess with
        | (w, some err) =>
          (w, some (.fmtW ("update device id: device_id=" ++ deviceID ++ " session_id=" ++
            sess.ID) err))
        | (w, none) => (w, none)

/-- The variable `stateTypes` of `domain/entity/session.go`. -/
def stateTypes : List StateType := [.Play, .Pause, .Stop]

/-- The function `entity.NewStateType`: the first element of `stateTypes` whose
name is the given string; the empty `StateType` returned with the error is
left out. -/
def NewStateType (stateType : String) : Except GoError StateType :=
  match stateTypes.find? (fun st => st.String == stateType) with
  | some st => .ok st
  | none => .error (.fmtW ("stateType = " ++ stateType) ErrInvalidStateType)

/-- Whether a call makes the external player start playing or queue a track:
`Play`, `PlayWithTracks` or `AddToQueue`. -/
def Call.startsPlayback : Call → Bool
  | .Play _ => true
  | .PlayWithTracks _ _ => true
  | .AddToQueue _ _ => true
  | _ => false

/-- Whether a call stops a timer of the registry. -/
def Call.isStopTimer : Call → Bool
  | .StopTimer _ => true
  | _ => false

/-- The calls made by the loop `addToQueueEach`: one `AddToQueue` per track,
up to and including the first that fails. -/
def addToQueueCalls (env : RequestEnv) : List String → List Call
  | [] => []
  | trackURI :: rest =>
    .AddToQueue trackURI "" ::
      (match env.AddToQueue trackURI "" with
       | some _ => []
       | none => addToQueueCalls env rest)

/-- The error returned by the loop `addToQueueEach`: that of the first
`AddToQueue` that fails, wrapped. -/
def addToQueueErr (env : RequestEnv) : List String → Option GoError
  | [] => none
  | trackURI :: rest =>
    match env.AddToQueue trackURI "" with
    | some err => some (.fmtW ("call add queue api trackURI=" ++ trackURI) err)
    | none => addToQueueErr env rest

/-- The sessions for which a scheduler loop was started, in order. -/
def startedLoops : List Call → List String
  | [] => []
  | .StartTrackEndTrigger id :: cs => id :: startedLoops cs
  | _ :: cs => startedLoops cs

/-! ## `database/session.go`: the table `queue_tracks` -/

/-- The struct `queueTrackDTO`, a row of the table `queue_tracks`. -/
structure queueTrackDTO where
  Index : Int
  URI : String
  SessionID : String
  deriving DecidableEq, Repr

/-- The struct `entity.QueueTrackToStore`. -/
structure QueueTrackToStore where
  URI : String
  SessionID : String
  deriving DecidableEq, Repr

/-- The SQL aggregate `MAX`, `NULL` over no row. -/
def sqlMax : List Int → Option Int
  | [] => none
  | x :: xs =>
    match sqlMax xs with
    | none => some x
    | some m => some (max x m)

/-- The rows of a session in the table, in table order. -/
def rowsOf (table : List queueTrackDTO) (sessionID : String) : List queueTrackDTO :=
  table.filter (fun row => decide (row.SessionID = sessionID))

/-- The method `SessionRepository.StoreQueueTrack`: the `INSERT ... SELECT
COALESCE(MAX(index),-1)+1, ?, ? ... WHERE session_id = ?` adds one row; `fault`
is the error of the database, if any. -/
def StoreQueueTrack (fault : Option GoError) (table : List queueTrackDTO)
    (queueTrack : QueueTrackToStore) : List queueTrackDTO × Option GoError :=
  match fault with
  | some err => (table, some (.fmtW "insert queue_tracks" err))
  | none =>
    let index := (sqlMax ((rowsOf table queueTrack.SessionID).map (fun row => row.Index))).getD
      (-1) + 1
    (table ++ [{ Index := index, URI := queueTrack.URI, SessionID := queueTrack.SessionID }],
      none)

/-- The method `SessionRepository.toQueueTracks`. -/
def toQueueTracks (resultQueueTracks : List queueTrackDTO) : List QueueTrack :=
  resultQueueTracks.map (fun rs => { Index := rs.Index, URI := rs.URI, SessionID := rs.SessionID })

/-- The method `SessionRepository.getQueueTracksBySessionID`: the rows of the
session, `ORDER BY index ASC`. -/
def getQueueTracksBySessionID (fault : Option GoError) (table : List queueTrackDTO)
    (id : String) : Except GoError (List QueueTrack) :=
  match fault with
  | some err => .error (.fmtW "select queue_tracks" err)
  | none =>
    .ok (toQueueTracks ((rowsOf table id).insertionSort (fun a b => a.Index ≤ b.Index)))

/-- The table after `StoreQueueTrack` is called for each URI in turn, the
database not failing. -/
def storeEach (table : List queueTrackDTO) (sessionID : String) :
    List String → List queueTrackDTO
  | [] => table
  | uri :: rest =>
    storeEach (StoreQueueTrack none table { URI := uri, SessionID := sessionID }).1 sessionID rest

/-- The rows of a session whose URIs were stored in order, the first one with
the index `first`. -/
def numberedRows (sessionID : String) (first : Nat) : List String → List queueTrackDTO
  | [] => []
  | uri :: rest =>
    { Index := first, URI := uri, SessionID := sessionID } ::
      numberedRows sessionID (first + 1) rest

/-- The world in which the transactional function of a skip cycle runs on the
session it has read: the old timer deleted, the session read under the lock,
the wait of 300 ms over. -/
def skipWorld (w : World) (sessionID : String) : World :=
  ((w.DeleteTimer sessionID).log (.FindByIDForUpdate sessionID)).log (.Sleep 300000000)

/-- What `handleTrackEnd` and `handleSkipTrack` make of the result `r` of the
transactional function, the cycle having started in the world `w`: a
transaction error rolls the store back and is returned wrapped, otherwise the
fields of the response are returned. -/
def cycleOutcome (w : World) (r : TxResult) : CycleResult :=
  match r.returnErr with
  | some err =>
    ⟨{ r.world with sessions := w.sessions }, none, false,
      some (.fmtW "handle track end in transaction" err)⟩
  | none => ⟨r.world, r.resp.triggerAfterTrackEnd, r.resp.nextTrack, r.resp.err⟩

/-- The calls of a reconciliation cycle that follow the read under the lock,
and for the skip path the wait of 300 ms: those of
`UpdateForHandleNextTrackTx` on the session read, its deferred `Update`
included; none when the read fails. -/
def reconcileCalls (env : Env) (w : World) (sessionID : String) : List Call :=
  match (World.FindByIDForUpdate env (w.DeleteTimer sessionID) sessionID).2 with
  | .error _ => []
  | .ok sess =>
    newCalls (w.DeleteTimer sessionID)
      (UpdateForHandleNextTrackTx env (w.DeleteTimer sessionID) sess).world

/-! ## Sample inputs -/

/-- A session in `Play` at head 0 with two queued tracks. -/
def sampleSession : Session :=
  { ID := "s", Name := "n", CreatorID := "u", DeviceID := "d", StateType := .Play,
    QueueHead := 0, QueueTracks := [⟨0, "a", "s"⟩, ⟨1, "b", "s"⟩], ExpiredAt := 0 }

/-- The session `sampleSession` once `GoNextTrack` has advanced it. -/
def sampleAdvanced : Session :=
  { sampleSession with QueueHead := 1 }

/-- A session in `Play` at head 0 with three queued tracks. -/
def sampleSession3 : Session :=
  { sampleSession with QueueTracks := [⟨0, "a", "s"⟩, ⟨1, "b", "s"⟩, ⟨2, "c", "s"⟩] }

/-- A player on device `d` that reports the track `uri` with one second left,
and a store that does not fail. -/
def envPlaying (uri : String) : Env :=
  { Enqueue := fun _ _ => none,
    CurrentlyPlaying := .ok { TrackURI := uri, RemainingDuration := 1000000000, DeviceID := "d" },
    Update := fun _ => none,
    FindFault := none }

/-- A player whose `CurrentlyPlaying` fails with `err`. -/
def envPlayerError (err : GoError) : Env :=
  { envPlaying "b" with CurrentlyPlaying := .error err }

/-- A store whose `Update` fails with the error `db`, all else as in `env`. -/
def withUpdateFailure (env : Env) : Env :=
  { env with Update := fun _ => some (.sentinel "db") }

/-- A player whose `Enqueue` fails with the error `api`, all else as in `env`. -/
def withEnqueueFailure (env : Env) : Env :=
  { env with Enqueue := fun _ _ => some (.sentinel "api") }

/-- A request during which the store and `CurrentlyPlaying` behave as in `env`
and every command of the external player succeeds. -/
def requestEnv (env : Env) : RequestEnv :=
  { toEnv := env,
    SetRepeatMode := fun _ _ => none,
    SetShuffleMode := fun _ _ => none,
    Play := fun _ => none,
    PlayWithTracks := fun _ _ => none,
    AddToQueue := fun _ _ => none,
    Pause := fun _ => none }

/-- A player that reports the track `uri` with `remain` nanoseconds left. -/
def envRemaining (uri : String) (remain : Int) : Env :=
  { envPlaying uri with
    CurrentlyPlaying := .ok { TrackURI := uri, RemainingDuration := remain, DeviceID := "d" } }

/-- The session `sampleSession`, paused. -/
def samplePaused : Session :=
  { sampleSession with StateType := .Pause }

/-- The session `sampleSession3`, stopped. -/
def sampleStopped3 : Session :=
  { sampleSession3 with StateType := .Stop }

/-- A request during which the device is offline: `SetRepeatMode` fails with
`ErrActiveDeviceNotFound`, all else as in `env`. -/
def withRepeatFailure (env : RequestEnv) : RequestEnv :=
  { env with SetRepeatMode := fun _ _ => some ErrActiveDeviceNotFound }

/-- A request during which the external `Pause` fails with `err`, all else as
in `env`. -/
def withPauseFailure (env : RequestEnv) (err : GoError) : RequestEnv :=
  { env with Pause := fun _ => some err }

/-- A request during which `AddToQueue` fails for the track `uri` with the
error `api`, all else as in `env`. -/
def withAddToQueueFailure (env : RequestEnv) (uri : String) : RequestEnv :=
  { env with AddToQueue := fun trackURI _ =>
      if trackURI = uri then some (.sentinel "api") else none }

/-- A request during which `SetRepeatMode` fails with `err`, all else as in
`env`. -/
def withRepeatError (env : RequestEnv) (err : GoError) : RequestEnv :=
  { env with SetRepeatMode := fun _ _ => some err }

/-! ## Lemmas on the reconciliation routine -/

theorem newCalls_of_append (w w1 : World) (cs : List Call) (h : w1.calls = w.calls ++ cs) :
    newCalls w w1 = cs := by
  simp [newCalls, h]

theorem errorsIs_self (e : GoError) : errorsIs e e = true := by
  cases e <;> simp [errorsIs]

theorem isPlayingCorrectTrack_err (s : Session) (p : CurrentPlayingInfo) (err : GoError)
    (h : s.IsPlayingCorrectTrack p = some err) : err = ErrSessionPlayingDifferentTrack := by
  unfold Session.IsPlayingCorrectTrack at h
  split at h
  · simpa using h.symm
  · split at h
    · simp at h
    · simpa using h.symm

theorem goNextTrack_ok (sess sess1 : Session) (h : sess.GoNextTrack = (sess1, none)) :
    sess1 = { sess with QueueHead := sess.QueueHead + 1 } ∧
      sess.QueueHead + 1 < sess.QueueTracks.length := by
  unfold Session.GoNextTrack at h
  split at h
  · simp at h
  · simp at h
    exact ⟨h.symm, by omega⟩

theorem body_archived (env : Env) (w : World) (sess : Session)
    (ha : sess.StateType = .Archived) :
    updateForHandleNextTrackBody env w sess =
      ⟨w.Push ⟨sess.ID, .Archived⟩, sess, ⟨none, false, none⟩, none⟩ := by
  simp [updateForHandleNextTrackBody, ha]

theorem body_finished (env : Env) (w : World) (sess sess1 : Session) (e : GoError)
    (hna : sess.StateType ≠ .Archived) (hgo : sess.GoNextTrack = (sess1, some e))
    (he : errorsIs e ErrSessionAllTracksFinished = true) :
    updateForHandleNextTrackBody env w sess =
      ⟨w.Push ⟨sess1.ID, .Stop⟩, sess1, ⟨none, false, none⟩, none⟩ := by
  simp [updateForHandleNextTrackBody, hna, hgo, he, handleAllTrackFinish]

theorem body_enqueue_fail (env : Env) (w : World) (sess sess1 : Session) (e : GoError)
    (hna : sess.StateType ≠ .Archived) (hgo : sess.GoNextTrack = (sess1, none))
    (ht : sess1.TrackURIShouldBeAddedWhenHandleTrackEnd ≠ "")
    (he : env.Enqueue sess1.TrackURIShouldBeAddedWhenHandleTrackEnd sess1.DeviceID = some e) :
    updateForHandleNextTrackBody env w sess =
      ⟨w.log (.Enqueue sess1.TrackURIShouldBeAddedWhenHandleTrackEnd sess1.DeviceID), sess1,
        ⟨none, false, some (.fmtW ("call add queue api trackURI=" ++
          sess1.TrackURIShouldBeAddedWhenHandleTrackEnd) e)⟩, none⟩ := by
  simp [updateForHandleNextTrackBody, hna, hgo, ht, he]

theorem body_no_device (env : Env) (w : World) (sess sess1 : Session) (e : GoError)
    (hna : sess.StateType ≠ .Archived) (hgo : sess.GoNextTrack = (sess1, none))
    (henq : preloadSucceeds env sess1)
    (hcp : env.CurrentlyPlaying = .error e)
    (he : errorsIs e ErrActiveDeviceNotFound = true) :
    updateForHandleNextTrackBody env w sess =
      ⟨((afterPreload w sess1).log .CurrentlyPlaying).Push ⟨sess1.ID, .Interrupt⟩,
        sess1.MoveToStop, ⟨none, false, some e⟩, none⟩ := by
  rcases henq with h | h
  · simp [updateForHandleNextTrackBody, hna, hgo, h, hcp, he, handleInterrupt, afterPreload,
      preloadCalls, Session.MoveToStop]
  · by_cases ht : sess1.TrackURIShouldBeAddedWhenHandleTrackEnd = ""
    · simp [updateForHandleNextTrackBody, hna, hgo, ht, hcp, he, handleInterrupt, afterPreload,
        preloadCalls, Session.MoveToStop]
    · simp [updateForHandleNextTrackBody, hna, hgo, ht, h, hcp, he, handleInterrupt,
        afterPreload, preloadCalls, Session.MoveToStop, World.log]

theorem body_hard_error (env : Env) (w : World) (sess sess1 : Session) (e : GoError)
    (hna : sess.StateType ≠ .Archived) (hgo : sess.GoNextTrack = (sess1, none))
    (henq : preloadSucceeds env sess1)
    (hcp : env.CurrentlyPlaying = .error e)
    (he : errorsIs e ErrActiveDeviceNotFound = false) :
    updateForHandleNextTrackBody env w sess =
      ⟨(afterPreload w sess1).log .CurrentlyPlaying, sess1,
        ⟨none, false, some (.fmtV ("get currently playing info id=" ++ sess1.ID) e)⟩, none⟩ := by
  rcases henq with h | h
  · simp [updateForHandleNextTrackBody, hna, hgo, h, hcp, he, afterPreload, preloadCalls]
  · by_cases ht : sess1.TrackURIShouldBeAddedWhenHandleTrackEnd = ""
    · simp [updateForHandleNextTrackBody, hna, hgo, ht, hcp, he, afterPreload, preloadCalls]
    · simp [updateForHandleNextTrackBody, hna, hgo, ht, h, hcp, he, afterPreload, preloadCalls,
        World.log]

theorem body_different_track (env : Env) (w : World) (sess sess1 : Session)
    (playingInfo : CurrentPlayingInfo) (e : GoError)
    (hna : sess.StateType ≠ .Archived) (hgo : sess.GoNextTrack = (sess1, none))
    (henq : preloadSucceeds env sess1)
    (hcp : env.CurrentlyPlaying = .ok playingInfo)
    (hbad : sess1.IsPlayingCorrectTrack playingInfo = some e) :
    updateForHandleNextTrackBody env w sess =
      ⟨((afterPreload w sess1).log .CurrentlyPlaying).Push ⟨sess1.ID, .Interrupt⟩,
        sess1.MoveToStop,
        ⟨none, false, some (.fmtW "check whether playing correct track" e)⟩, none⟩ := by
  rcases henq with h | h
  · simp [updateForHandleNextTrackBody, hna, hgo, h, hcp, hbad, handleInterrupt, afterPreload,
      preloadCalls, Session.MoveToStop]
  · by_cases ht : sess1.TrackURIShouldBeAddedWhenHandleTrackEnd = ""
    · simp [updateForHandleNextTrackBody, hna, hgo, ht, hcp, hbad, handleInterrupt, afterPreload,
        preloadCalls, Session.MoveToStop]
    · simp [updateForHandleNextTrackBody, hna, hgo, ht, h, hcp, hbad, handleInterrupt,
        afterPreload, preloadCalls, Session.MoveToStop, World.log]

theorem body_success (env : Env) (w : World) (sess sess1 : Session)
    (playingInfo : CurrentPlayingInfo)
    (hna : sess.StateType ≠ .Archived) (hgo : sess.GoNextTrack = (sess1, none))
    (henq : preloadSucceeds env sess1)
    (hcp : env.CurrentlyPlaying = .ok playingInfo)
    (hok : sess1.IsPlayingCorrectTrack playingInfo = none) :
    updateForHandleNextTrackBody env w sess =
      ⟨((((afterPreload w sess1).log .CurrentlyPlaying).Push
            ⟨sess1.ID, .NextTrack sess1.QueueHead⟩).CreateTimer sess1.ID).1.SetTimer
          ⟨sess1.ID, none⟩ playingInfo.Remain |>.1,
        sess1, ⟨some ⟨sess1.ID, some playingInfo.Remain⟩, true, none⟩, none⟩ := by
  rcases henq with h | h
  · simp [updateForHandleNextTrackBody, hna, hgo, h, hcp, hok, afterPreload,
      preloadCalls, World.CreateTimer, World.SetTimer]
  · by_cases ht : sess1.TrackURIShouldBeAddedWhenHandleTrackEnd = ""
    · simp [updateForHandleNextTrackBody, hna, hgo, ht, hcp, hok, afterPreload,
        preloadCalls, World.CreateTimer, World.SetTimer]
    · simp [updateForHandleNextTrackBody, hna, hgo, ht, h, hcp, hok,
        afterPreload, preloadCalls, World.CreateTimer, World.SetTimer, World.log]

theorem body_returnErr (env : Env) (w : World) (sess : Session) :
    (updateForHandleNextTrackBody env w sess).returnErr = none := by
  unfold updateForHandleNextTrackBody
  dsimp only
  repeat' split
  all_goals rfl

theorem tx_sess (env : Env) (w : World) (sess : Session) :
    (UpdateForHandleNextTrackTx env w sess).sess =
      (updateForHandleNextTrackBody env w sess).sess := by
  unfold UpdateForHandleNextTrackTx
  simp only [World.Update]
  split <;> rename_i h
  · split <;> rfl
  · rfl

theorem tx_resp (env : Env) (w : World) (sess : Session) :
    (UpdateForHandleNextTrackTx env w sess).resp =
      (updateForHandleNextTrackBody env w sess).resp := by
  unfold UpdateForHandleNextTrackTx
  simp only [World.Update]
  split
  · split <;> rfl
  · rfl

theorem tx_calls (env : Env) (w : World) (sess : Session) :
    (UpdateForHandleNextTrackTx env w sess).world.calls =
      (updateForHandleNextTrackBody env w sess).world.calls ++
        [.Update (updateForHandleNextTrackBody env w sess).sess] := by
  unfold UpdateForHandleNextTrackTx
  simp only [World.Update, World.log]
  cases env.Update (updateForHandleNextTrackBody env w sess).sess with
  | none => rfl
  | some e => simp only [body_returnErr]

theorem tx_timers (env : Env) (w : World) (sess : Session) :
    (UpdateForHandleNextTrackTx env w sess).world.timers =
      (updateForHandleNextTrackBody env w sess).world.timers := by
  unfold UpdateForHandleNextTrackTx
  simp only [World.Update, World.log]
  cases env.Update (updateForHandleNextTrackBody env w sess).sess with
  | none => rfl
  | some e => simp only [body_returnErr]

theorem tx_returnErr_ok (env : Env) (w : World) (sess : Session)
    (h : env.Update (updateForHandleNextTrackBody env w sess).sess = none) :
    (UpdateForHandleNextTrackTx env w sess).returnErr = none := by
  unfold UpdateForHandleNextTrackTx
  simp only [World.Update, h]
  exact body_returnErr env w sess

theorem tx_returnErr_fail (env : Env) (w : World) (sess : Session) (e : GoError)
    (h : env.Update (updateForHandleNextTrackBody env w sess).sess = some e) :
    (UpdateForHandleNextTrackTx env w sess).returnErr =
      some (.fmtW ("update session id=" ++ (updateForHandleNextTrackBody env w sess).sess.ID)
        e) := by
  unfold UpdateForHandleNextTrackTx
  simp only [World.Update, h, body_returnErr]

theorem tx_sessions_ok (env : Env) (w : World) (sess : Session)
    (h : env.Update (updateForHandleNextTrackBody env w sess).sess = none) :
    (UpdateForHandleNextTrackTx env w sess).world.sessions =
      fun id => if id = (updateForHandleNextTrackBody env w sess).sess.ID
        then some (updateForHandleNextTrackBody env w sess).sess
        else (updateForHandleNextTrackBody env w sess).world.sessions id := by
  unfold UpdateForHandleNextTrackTx
  simp only [World.Update, h, World.log]

theorem pushed_append (xs ys : List Call) : pushed (xs ++ ys) = pushed xs ++ pushed ys := by
  induction xs with
  | nil => rfl
  | cons c cs ih => cases c <;> simp [pushed, ih]

theorem updated_append (xs ys : List Call) : updated (xs ++ ys) = updated xs ++ updated ys := by
  induction xs with
  | nil => rfl
  | cons c cs ih => cases c <;> simp [updated, ih]

theorem pushed_preloadCalls (sess : Session) : pushed (preloadCalls sess) = [] := by
  unfold preloadCalls
  split <;> rfl

theorem updated_preloadCalls (sess : Session) : updated (preloadCalls sess) = [] := by
  unfold preloadCalls
  split <;> rfl

theorem preloadCalls_no_timer (sess : Session) :
    (preloadCalls sess).all (fun c => !c.isTimerCall) = true := by
  unfold preloadCalls
  split <;> rfl

theorem tx_newCalls (env : Env) (w : World) (sess : Session) (cs : List Call)
    (h : (updateForHandleNextTrackBody env w sess).world.calls = w.calls ++ cs) :
    newCalls w (UpdateForHandleNextTrackTx env w sess).world =
      cs ++ [.Update (updateForHandleNextTrackBody env w sess).sess] := by
  apply newCalls_of_append
  rw [tx_calls, h, List.append_assoc]

/-- C1: when a non-archived session is advanced by `GoNextTrack`, the pre-load
call (if any) succeeds, `CurrentlyPlaying` returns a snapshot and
`IsPlayingCorrectTrack` rejects it against the new head, then
`UpdateForHandleNextTrackTx` moves the session to `Stop`, pushes exactly one
interrupt notification and no other, creates no timer (nil timer,
`nextTrack = false`) and reports an application error `e` with
`errors.Is(e, ErrSessionPlayingDifferentTrack)`. -/
theorem C1_rejected_snapshot_interrupts (env : Env) (w : World) (sess sess1 : Session)
    (playingInfo : CurrentPlayingInfo) (err : GoError)
    (hna : sess.StateType ≠ .Archived)
    (hgo : sess.GoNextTrack = (sess1, none))
    (henq : preloadSucceeds env sess1)
    (hcp : env.CurrentlyPlaying = .ok playingInfo)
    (hbad : sess1.IsPlayingCorrectTrack playingInfo = some err) :
    (UpdateForHandleNextTrackTx env w sess).sess = sess1.MoveToStop ∧
    (UpdateForHandleNextTrackTx env w sess).sess.StateType = .Stop ∧
    newCalls w (UpdateForHandleNextTrackTx env w sess).world =
      preloadCalls sess1 ++
        [.CurrentlyPlaying, .Push ⟨sess.ID, .Interrupt⟩, .Update sess1.MoveToStop] ∧
    pushed (newCalls w (UpdateForHandleNextTrackTx env w sess).world) =
      [⟨sess.ID, .Interrupt⟩] ∧
    (newCalls w (UpdateForHandleNextTrackTx env w sess).world).all
      (fun c => !c.isTimerCall) = true ∧
    (UpdateForHandleNextTrackTx env w sess).world.timers = w.timers ∧
    (UpdateForHandleNextTrackTx env w sess).resp.triggerAfterTrackEnd = none ∧
    (UpdateForHandleNextTrackTx env w sess).resp.nextTrack = false ∧
    ∃ e, (UpdateForHandleNextTrackTx env w sess).resp.err = some e ∧
      errorsIs e ErrSessionPlayingDifferentTrack = true := by
  have hb := body_different_track env w sess sess1 playingInfo err hna hgo henq hcp hbad
  have hid : sess1.ID = sess.ID := by rw [(goNextTrack_ok sess sess1 hgo).1]
  have hcalls : newCalls w (UpdateForHandleNextTrackTx env w sess).world =
      preloadCalls sess1 ++
        [.CurrentlyPlaying, .Push ⟨sess.ID, .Interrupt⟩, .Update sess1.MoveToStop] := by
    rw [tx_newCalls env w sess (preloadCalls sess1 ++
      [.CurrentlyPlaying, .Push ⟨sess.ID, .Interrupt⟩])]
    · simp [hb]
    · simp [hb, World.Push, World.log, afterPreload, hid]
  refine ⟨?_, ?_, hcalls, ?_, ?_, ?_, ?_, ?_, ?_⟩
  · rw [tx_sess, hb]
  · rw [tx_sess, hb]; rfl
  · rw [hcalls, pushed_append, pushed_preloadCalls]; rfl
  · rw [hcalls, List.all_append, preloadCalls_no_timer]; rfl
  · rw [tx_timers, hb]; rfl
  · rw [tx_resp, hb]
  · rw [tx_resp, hb]
  · refine ⟨_, by rw [tx_resp, hb], ?_⟩
    rw [isPlayingCorrectTrack_err sess1 playingInfo err hbad]
    decide

/-- Witness of C1: the session `sampleSession` while the player still reports
the track `a` that has just ended. -/
theorem C1_rejected_snapshot_interrupts_witness :
    (UpdateForHandleNextTrackTx (envPlaying "a") World.empty sampleSession).sess.StateType
        = .Stop ∧
      pushed (newCalls World.empty
        (UpdateForHandleNextTrackTx (envPlaying "a") World.empty sampleSession).world) =
        [⟨"s", .Interrupt⟩] :=
  have h := C1_rejected_snapshot_interrupts (envPlaying "a") World.empty sampleSession
    sampleAdvanced ⟨"a", 1000000000, "d"⟩ ErrSessionPlayingDifferentTrack
    (by decide) (by decide) (Or.inl (by decide)) rfl (by decide)
  ⟨h.2.1, h.2.2.2.1⟩

/-- C3: for a session that is `Archived` when it is read under the lock,
`UpdateForHandleNextTrackTx` pushes exactly one archived notification and no
other, leaves the session as it was (`GoNextTrack` is not called: `QueueHead`
and `StateType` are unchanged), calls neither the external player nor the
timers, and returns no timer, `nextTrack = false` and no application error. -/
theorem C3_archived_is_only_notified (env : Env) (w : World) (sess : Session)
    (ha : sess.StateType = .Archived) :
    newCalls w (UpdateForHandleNextTrackTx env w sess).world =
      [.Push ⟨sess.ID, .Archived⟩, .Update sess] ∧
    pushed (newCalls w (UpdateForHandleNextTrackTx env w sess).world) =
      [⟨sess.ID, .Archived⟩] ∧
    (UpdateForHandleNextTrackTx env w sess).sess = sess ∧
    (UpdateForHandleNextTrackTx env w sess).sess.QueueHead = sess.QueueHead ∧
    (UpdateForHandleNextTrackTx env w sess).sess.StateType = .Archived ∧
    (newCalls w (UpdateForHandleNextTrackTx env w sess).world).all
      (fun c => !c.isPlayerCall && !c.isTimerCall) = true ∧
    (UpdateForHandleNextTrackTx env w sess).world.timers = w.timers ∧
    (UpdateForHandleNextTrackTx env w sess).resp =
      { triggerAfterTrackEnd := none, nextTrack := false, err := none } := by
  have hb := body_archived env w sess ha
  have hcalls : newCalls w (UpdateForHandleNextTrackTx env w sess).world =
      [.Push ⟨sess.ID, .Archived⟩, .Update sess] := by
    rw [tx_newCalls env w sess [.Push ⟨sess.ID, .Archived⟩]]
    · simp [hb]
    · simp [hb, World.Push, World.log]
  refine ⟨hcalls, ?_, ?_, ?_, ?_, ?_, ?_, ?_⟩
  · rw [hcalls]; rfl
  · rw [tx_sess, hb]
  · rw [tx_sess, hb]
  · rw [tx_sess, hb]; exact ha
  · rw [hcalls]; rfl
  · rw [tx_timers, hb]; rfl
  · rw [tx_resp, hb]

/-- Witness of C3: the session `sampleSession` archived while its track was
playing. -/
theorem C3_archived_is_only_notified_witness :
    newCalls World.empty (UpdateForHandleNextTrackTx (envPlaying "b") World.empty
        { sampleSession with StateType := .Archived }).world =
      [.Push ⟨"s", .Archived⟩, .Update { sampleSession with StateType := .Archived }] :=
  (C3_archived_is_only_notified (envPlaying "b") World.empty
    { sampleSession with StateType := .Archived } rfl).1

theorem body_calls (env : Env) (w : World) (sess : Session) :
    (updateForHandleNextTrackBody env w sess).world.calls =
        w.calls ++ newCalls w (updateForHandleNextTrackBody env w sess).world ∧
      updated (newCalls w (updateForHandleNextTrackBody env w sess).world) = [] := by
  unfold updateForHandleNextTrackBody
  dsimp only
  by_cases ht : sess.GoNextTrack.1.TrackURIShouldBeAddedWhenHandleTrackEnd = ""
  · simp only [ht, ne_eq, not_true_eq_false, if_false]
    repeat' split
    all_goals simp_all [newCalls, World.Push, World.log, handleAllTrackFinish, handleInterrupt,
      World.CreateTimer, World.SetTimer, updated]
  · cases he : env.Enqueue sess.GoNextTrack.1.TrackURIShouldBeAddedWhenHandleTrackEnd
        sess.GoNextTrack.1.DeviceID
    all_goals simp only [ht, ne_eq, not_false_eq_true, if_true, he]
    all_goals repeat' split
    all_goals simp_all [newCalls, World.Push, World.log, handleAllTrackFinish, handleInterrupt,
      World.CreateTimer, World.SetTimer, updated]

/-- C5: one run of `UpdateForHandleNextTrackTx` calls `sessionRepo.Update`
exactly once, as the last call of the cycle and with the session as the cycle
has mutated it, whatever the session read under the lock and whatever the
collaborators answer. -/
theorem C5_update_exactly_once_and_last (env : Env) (w : World) (sess : Session) :
    ∃ before : List Call,
      newCalls w (UpdateForHandleNextTrackTx env w sess).world =
        before ++ [.Update (UpdateForHandleNextTrackTx env w sess).sess] ∧
      updated before = [] ∧
      updated (newCalls w (UpdateForHandleNextTrackTx env w sess).world) =
        [(UpdateForHandleNextTrackTx env w sess).sess] := by
  obtain ⟨h1, h2⟩ := body_calls env w sess
  have hcalls := tx_newCalls env w sess _ h1
  refine ⟨_, ?_, h2, ?_⟩
  · rw [hcalls, tx_sess]
  · rw [hcalls, updated_append, h2, tx_sess]; rfl

/-- C7: when a non-archived session is advanced by `GoNextTrack`, the pre-load
call (if any) succeeds and `CurrentlyPlaying` fails with an error `e` such that
`errors.Is(e, ErrActiveDeviceNotFound)`, the cycle moves the session to `Stop`,
pushes exactly one interrupt notification and no other, creates no timer
(`nextTrack = false`) and reports exactly `e` as the application error. -/
theorem C7_no_active_device_interrupts (env : Env) (w : World) (sess sess1 : Session)
    (e : GoError)
    (hna : sess.StateType ≠ .Archived)
    (hgo : sess.GoNextTrack = (sess1, none))
    (henq : preloadSucceeds env sess1)
    (hcp : env.CurrentlyPlaying = .error e)
    (he : errorsIs e ErrActiveDeviceNotFound = true) :
    (UpdateForHandleNextTrackTx env w sess).sess = sess1.MoveToStop ∧
    (UpdateForHandleNextTrackTx env w sess).sess.StateType = .Stop ∧
    newCalls w (UpdateForHandleNextTrackTx env w sess).world =
      preloadCalls sess1 ++
        [.CurrentlyPlaying, .Push ⟨sess.ID, .Interrupt⟩, .Update sess1.MoveToStop] ∧
    pushed (newCalls w (UpdateForHandleNextTrackTx env w sess).world) =
      [⟨sess.ID, .Interrupt⟩] ∧
    (newCalls w (UpdateForHandleNextTrackTx env w sess).world).all
      (fun c => !c.isTimerCall) = true ∧
    (UpdateForHandleNextTrackTx env w sess).world.timers = w.timers ∧
    (UpdateForHandleNextTrackTx env w sess).resp =
      { triggerAfterTrackEnd := none, nextTrack := false, err := some e } := by
  have hb := body_no_device env w sess sess1 e hna hgo henq hcp he
  have hid : sess1.ID = sess.ID := by rw [(goNextTrack_ok sess sess1 hgo).1]
  have hcalls : newCalls w (UpdateForHandleNextTrackTx env w sess).world =
      preloadCalls sess1 ++
        [.CurrentlyPlaying, .Push ⟨sess.ID, .Interrupt⟩, .Update sess1.MoveToStop] := by
    rw [tx_newCalls env w sess (preloadCalls sess1 ++
      [.CurrentlyPlaying, .Push ⟨sess.ID, .Interrupt⟩])]
    · simp [hb]
    · simp [hb, World.Push, World.log, afterPreload, hid]
  refine ⟨?_, ?_, hcalls, ?_, ?_, ?_, ?_⟩
  · rw [tx_sess, hb]
  · rw [tx_sess, hb]; rfl
  · rw [hcalls, pushed_append, pushed_preloadCalls]; rfl
  · rw [hcalls, List.all_append, preloadCalls_no_timer]; rfl
  · rw [tx_timers, hb]; rfl
  · rw [tx_resp, hb]

/-- Witness of C7: the session `sampleSession` when the player answers that no
device is active, the error being wrapped by the client. -/
theorem C7_no_active_device_interrupts_witness :
    (UpdateForHandleNextTrackTx
        (envPlayerError (.fmtW "currently playing" ErrActiveDeviceNotFound))
        World.empty sampleSession).resp =
      { triggerAfterTrackEnd := none, nextTrack := false,
        err := some (.fmtW "currently playing" ErrActiveDeviceNotFound) } :=
  (C7_no_active_device_interrupts
    (envPlayerError (.fmtW "currently playing" ErrActiveDeviceNotFound)) World.empty
    sampleSession sampleAdvanced (.fmtW "currently playing" ErrActiveDeviceNotFound)
    (by decide) (by decide) (Or.inl (by decide)) rfl (by decide)).2.2.2.2.2.2

/-- Counterexample to C8 as stated: every premise holds for `sampleSession` with
a player that reports the new head `b`, yet when the deferred `Update` fails
`UpdateForHandleNextTrackTx` returns an error, and the cycle `handleTrackEnd`
hands neither the timer nor `nextTrack = true` to the scheduler loop. -/
theorem C8_counterexample :
    sampleSession.StateType ≠ .Archived ∧
    sampleSession.GoNextTrack = (sampleAdvanced, none) ∧
    preloadSucceeds (withUpdateFailure (envPlaying "b")) sampleAdvanced ∧
    (withUpdateFailure (envPlaying "b")).CurrentlyPlaying =
      .ok ⟨"b", 1000000000, "d"⟩ ∧
    sampleAdvanced.IsPlayingCorrectTrack ⟨"b", 1000000000, "d"⟩ = none ∧
    (UpdateForHandleNextTrackTx (withUpdateFailure (envPlaying "b")) World.empty
        sampleSession).returnErr =
      some (.fmtW "update session id=s" (.sentinel "db")) ∧
    (handleTrackEnd (withUpdateFailure (envPlaying "b")) (World.holding sampleSession)
        "s").timer = none ∧
    (handleTrackEnd (withUpdateFailure (envPlaying "b")) (World.holding sampleSession)
        "s").nextTrack = false := by
  refine ⟨by decide, by decide, Or.inl (by decide), rfl, by decide, by decide, by decide,
    by decide⟩

/-- C8, amended: when a non-archived session is advanced by `GoNextTrack`, the
pre-load call (if any) succeeds, `CurrentlyPlaying` returns a snapshot and
`IsPlayingCorrectTrack` accepts it, `UpdateForHandleNextTrackTx` pushes exactly
one next-track notification carrying the new `QueueHead`, creates a timer for
the session id armed with exactly the snapshot's remaining duration, and
answers that timer with `nextTrack = true` and no application error; the
session's `StateType` is unchanged; and when the final `Update` succeeds the
function returns no error. -/
theorem C8_accepted_snapshot_rearms (env : Env) (w : World) (sess sess1 : Session)
    (playingInfo : CurrentPlayingInfo)
    (hna : sess.StateType ≠ .Archived)
    (hgo : sess.GoNextTrack = (sess1, none))
    (henq : preloadSucceeds env sess1)
    (hcp : env.CurrentlyPlaying = .ok playingInfo)
    (hok : sess1.IsPlayingCorrectTrack playingInfo = none) :
    newCalls w (UpdateForHandleNextTrackTx env w sess).world =
      preloadCalls sess1 ++
        [.CurrentlyPlaying, .Push ⟨sess.ID, .NextTrack (sess.QueueHead + 1)⟩,
          .CreateTimer sess.ID, .SetTimer sess.ID playingInfo.Remain, .Update sess1] ∧
    pushed (newCalls w (UpdateForHandleNextTrackTx env w sess).world) =
      [⟨sess.ID, .NextTrack sess1.QueueHead⟩] ∧
    sess1.QueueHead = sess.QueueHead + 1 ∧
    (UpdateForHandleNextTrackTx env w sess).world.timers sess.ID =
      some ⟨sess.ID, some playingInfo.Remain⟩ ∧
    (UpdateForHandleNextTrackTx env w sess).resp =
      { triggerAfterTrackEnd := some ⟨sess.ID, some playingInfo.Remain⟩, nextTrack := true,
        err := none } ∧
    (UpdateForHandleNextTrackTx env w sess).sess = sess1 ∧
    (UpdateForHandleNextTrackTx env w sess).sess.StateType = sess.StateType ∧
    (env.Update sess1 = none → (UpdateForHandleNextTrackTx env w sess).returnErr = none) := by
  have hb := body_success env w sess sess1 playingInfo hna hgo henq hcp hok
  have h1 := (goNextTrack_ok sess sess1 hgo).1
  have hid : sess1.ID = sess.ID := by rw [h1]
  have hhead : sess1.QueueHead = sess.QueueHead + 1 := by rw [h1]
  have hcalls : newCalls w (UpdateForHandleNextTrackTx env w sess).world =
      preloadCalls sess1 ++
        [.CurrentlyPlaying, .Push ⟨sess.ID, .NextTrack (sess.QueueHead + 1)⟩,
          .CreateTimer sess.ID, .SetTimer sess.ID playingInfo.Remain, .Update sess1] := by
    rw [tx_newCalls env w sess (preloadCalls sess1 ++
      [.CurrentlyPlaying, .Push ⟨sess.ID, .NextTrack (sess.QueueHead + 1)⟩,
        .CreateTimer sess.ID, .SetTimer sess.ID playingInfo.Remain])]
    · simp [hb]
    · simp [hb, World.Push, World.log, afterPreload, World.CreateTimer, World.SetTimer, hid,
        hhead]
  refine ⟨hcalls, ?_, hhead, ?_, ?_, ?_, ?_, ?_⟩
  · rw [hcalls, pushed_append, pushed_preloadCalls, hhead]; rfl
  · rw [tx_timers, hb]
    simp [World.SetTimer, World.CreateTimer, hid]
  · rw [tx_resp, hb, hid]
  · rw [tx_sess, hb]
  · rw [tx_sess, hb, h1]
  · intro hupd
    apply tx_returnErr_ok
    rw [hb]
    exact hupd

/-- Witness of C8: the session `sampleSession` with a player that reports the
new head `b` and a store that does not fail. -/
theorem C8_accepted_snapshot_rearms_witness :
    (UpdateForHandleNextTrackTx (envPlaying "b") World.empty sampleSession).resp =
        { triggerAfterTrackEnd := some ⟨"s", some 1000000000⟩, nextTrack := true,
          err := none } ∧
      (UpdateForHandleNextTrackTx (envPlaying "b") World.empty sampleSession).returnErr =
        none :=
  have h := C8_accepted_snapshot_rearms (envPlaying "b") World.empty sampleSession
    sampleAdvanced ⟨"b", 1000000000, "d"⟩
    (by decide) (by decide) (Or.inl (by decide)) rfl (by decide)
  ⟨h.2.2.2.2.1, h.2.2.2.2.2.2.2 rfl⟩

/-- Counterexample to C9 as stated: every premise holds for `sampleSession3`
with a player whose `Enqueue` fails, yet when the deferred `Update` fails too
the transactional function returns a non-nil transaction error, so the
transaction does not commit. -/
theorem C9_counterexample :
    sampleSession3.StateType ≠ .Archived ∧
    sampleSession3.GoNextTrack = ({ sampleSession3 with QueueHead := 1 }, none) ∧
    ({ sampleSession3 with QueueHead := 1 } : Session).TrackURIShouldBeAddedWhenHandleTrackEnd
      = "c" ∧
    (withUpdateFailure (withEnqueueFailure (envPlaying "b"))).Enqueue "c" "d" =
      some (.sentinel "api") ∧
    (UpdateForHandleNextTrackTx (withUpdateFailure (withEnqueueFailure (envPlaying "b")))
        World.empty sampleSession3).returnErr =
      some (.fmtW "update session id=s" (.sentinel "db")) ∧
    (handleTrackEndTx (withUpdateFailure (withEnqueueFailure (envPlaying "b"))) "s"
        (World.holding sampleSession3)).err =
      some (.fmtW "update session id=s" (.sentinel "db")) := by
  refine ⟨by decide, by decide, by decide, rfl, by decide, by decide⟩

/-- C9, amended: when a non-archived session is advanced by `GoNextTrack`, there
is a track to pre-load and the external `Enqueue` call fails with `e`, the
response carries an application error wrapping `e`, `Update` is called with the
session at the advanced `QueueHead`, no notification is pushed and no timer is
created (`nextTrack = false`); and when that final `Update` succeeds the
transactional function returns a nil transaction error and the store holds the
advanced session. -/
theorem C9_enqueue_failure_is_reported (env : Env) (w : World) (sess sess1 : Session)
    (e : GoError)
    (hna : sess.StateType ≠ .Archived)
    (hgo : sess.GoNextTrack = (sess1, none))
    (ht : sess1.TrackURIShouldBeAddedWhenHandleTrackEnd ≠ "")
    (he : env.Enqueue sess1.TrackURIShouldBeAddedWhenHandleTrackEnd sess1.DeviceID = some e) :
    newCalls w (UpdateForHandleNextTrackTx env w sess).world =
      [.Enqueue sess1.TrackURIShouldBeAddedWhenHandleTrackEnd sess1.DeviceID,
        .Update sess1] ∧
    sess1.QueueHead = sess.QueueHead + 1 ∧
    (UpdateForHandleNextTrackTx env w sess).sess = sess1 ∧
    pushed (newCalls w (UpdateForHandleNextTrackTx env w sess).world) = [] ∧
    (UpdateForHandleNextTrackTx env w sess).world.timers = w.timers ∧
    (UpdateForHandleNextTrackTx env w sess).resp =
      { triggerAfterTrackEnd := none, nextTrack := false,
        err := some (.fmtW ("call add queue api trackURI=" ++
          sess1.TrackURIShouldBeAddedWhenHandleTrackEnd) e) } ∧
    (∃ a, (UpdateForHandleNextTrackTx env w sess).resp.err = some a ∧ a.Unwrap = some e ∧
      errorsIs a e = true) ∧
    (env.Update sess1 = none →
      (UpdateForHandleNextTrackTx env w sess).returnErr = none ∧
      (UpdateForHandleNextTrackTx env w sess).world.sessions sess.ID = some sess1) := by
  have hb := body_enqueue_fail env w sess sess1 e hna hgo ht he
  have h1 := (goNextTrack_ok sess sess1 hgo).1
  have hid : sess1.ID = sess.ID := by rw [h1]
  have hcalls : newCalls w (UpdateForHandleNextTrackTx env w sess).world =
      [.Enqueue sess1.TrackURIShouldBeAddedWhenHandleTrackEnd sess1.DeviceID,
        .Update sess1] := by
    rw [tx_newCalls env w sess
      [.Enqueue sess1.TrackURIShouldBeAddedWhenHandleTrackEnd sess1.DeviceID]]
    · simp [hb]
    · simp [hb, World.log]
  refine ⟨hcalls, by rw [h1], ?_, ?_, ?_, ?_, ?_, ?_⟩
  · rw [tx_sess, hb]
  · rw [hcalls]; rfl
  · rw [tx_timers, hb]; rfl
  · rw [tx_resp, hb]
  · refine ⟨.fmtW ("call add queue api trackURI=" ++
      sess1.TrackURIShouldBeAddedWhenHandleTrackEnd) e, by rw [tx_resp, hb], rfl, ?_⟩
    simp [errorsIs, errorsIs_self]
  · intro hupd
    have hupd1 : env.Update (updateForHandleNextTrackBody env w sess).sess = none := by
      rw [hb]; exact hupd
    refine ⟨tx_returnErr_ok env w sess hupd1, ?_⟩
    rw [tx_sessions_ok env w sess hupd1, hb]
    simp [hid]

/-- Witness of C9: the session `sampleSession3` with a player whose `Enqueue`
fails and a store that does not fail. -/
theorem C9_enqueue_failure_is_reported_witness :
    (UpdateForHandleNextTrackTx (withEnqueueFailure (envPlaying "b")) World.empty
        sampleSession3).resp =
      { triggerAfterTrackEnd := none, nextTrack := false,
        err := some (.fmtW "call add queue api trackURI=c" (.sentinel "api")) } ∧
    (UpdateForHandleNextTrackTx (withEnqueueFailure (envPlaying "b")) World.empty
        sampleSession3).returnErr = none :=
  have h := C9_enqueue_failure_is_reported (withEnqueueFailure (envPlaying "b")) World.empty
    sampleSession3 { sampleSession3 with QueueHead := 1 } (.sentinel "api")
    (by decide) (by decide) (by decide) rfl
  ⟨h.2.2.2.2.2.1, (h.2.2.2.2.2.2.2 rfl).1⟩

/-- Counterexample to C10 as stated: for `sampleSession` and a player whose
`CurrentlyPlaying` fails with an error other than `ErrActiveDeviceNotFound`, the
record handed to `Update` at the end of the cycle is not the record that was
read under the lock: its `QueueHead` is 1, not 0. -/
theorem C10_counterexample :
    sampleSession.StateType ≠ .Archived ∧
    (envPlayerError (.sentinel "timeout")).CurrentlyPlaying = .error (.sentinel "timeout") ∧
    errorsIs (.sentinel "timeout") ErrActiveDeviceNotFound = false ∧
    updated (newCalls World.empty (UpdateForHandleNextTrackTx
      (envPlayerError (.sentinel "timeout")) World.empty sampleSession).world) =
      [sampleAdvanced] ∧
    sampleAdvanced ≠ sampleSession ∧
    (handleTrackEnd (envPlayerError (.sentinel "timeout")) (World.holding sampleSession)
        "s").world.sessions "s" = some sampleAdvanced := by
  refine ⟨by decide, rfl, by decide, by decide, by decide, by decide⟩

/-- C10, amended: when a non-archived session is advanced by `GoNextTrack`, the
pre-load call (if any) succeeds and `CurrentlyPlaying` fails with an error that
is not `ErrActiveDeviceNotFound`, the cycle reports a hard error, pushes no
notification, creates no timer, and alters the session only by the advance of
`GoNextTrack`: the record handed to `Update` at the end of the cycle is the
record read under the lock with `QueueHead` incremented by one, the
`StateType` and every other field being unchanged. -/
theorem C10_hard_error_keeps_advance (env : Env) (w : World) (sess sess1 : Session)
    (e : GoError)
    (hna : sess.StateType ≠ .Archived)
    (hgo : sess.GoNextTrack = (sess1, none))
    (henq : preloadSucceeds env sess1)
    (hcp : env.CurrentlyPlaying = .error e)
    (he : errorsIs e ErrActiveDeviceNotFound = false) :
    (UpdateForHandleNextTrackTx env w sess).resp =
      { triggerAfterTrackEnd := none, nextTrack := false,
        err := some (.fmtV ("get currently playing info id=" ++ sess.ID) e) } ∧
    newCalls w (UpdateForHandleNextTrackTx env w sess).world =
      preloadCalls sess1 ++ [.CurrentlyPlaying, .Update sess1] ∧
    pushed (newCalls w (UpdateForHandleNextTrackTx env w sess).world) = [] ∧
    (newCalls w (UpdateForHandleNextTrackTx env w sess).world).all
      (fun c => !c.isTimerCall) = true ∧
    (UpdateForHandleNextTrackTx env w sess).world.timers = w.timers ∧
    updated (newCalls w (UpdateForHandleNextTrackTx env w sess).world) =
      [{ sess with QueueHead := sess.QueueHead + 1 }] ∧
    (UpdateForHandleNextTrackTx env w sess).sess =
      { sess with QueueHead := sess.QueueHead + 1 } ∧
    (UpdateForHandleNextTrackTx env w sess).sess.StateType = sess.StateType := by
  have hb := body_hard_error env w sess sess1 e hna hgo henq hcp he
  have h1 := (goNextTrack_ok sess sess1 hgo).1
  have hid : sess1.ID = sess.ID := by rw [h1]
  have hcalls : newCalls w (UpdateForHandleNextTrackTx env w sess).world =
      preloadCalls sess1 ++ [.CurrentlyPlaying, .Update sess1] := by
    rw [tx_newCalls env w sess (preloadCalls sess1 ++ [.CurrentlyPlaying])]
    · simp [hb]
    · simp [hb, World.log, afterPreload]
  refine ⟨?_, hcalls, ?_, ?_, ?_, ?_, ?_, ?_⟩
  · rw [tx_resp, hb, hid]
  · rw [hcalls, pushed_append, pushed_preloadCalls]; rfl
  · rw [hcalls, List.all_append, preloadCalls_no_timer]; rfl
  · rw [tx_timers, hb]; rfl
  · rw [hcalls, updated_append, updated_preloadCalls, h1]; rfl
  · rw [tx_sess, hb, h1]
  · rw [tx_sess, hb, h1]

/-- Witness of C10: the session `sampleSession` with a player whose
`CurrentlyPlaying` times out. -/
theorem C10_hard_error_keeps_advance_witness :
    (UpdateForHandleNextTrackTx (envPlayerError (.sentinel "timeout")) World.empty
        sampleSession).resp =
      { triggerAfterTrackEnd := none, nextTrack := false,
        err := some (.fmtV "get currently playing info id=s" (.sentinel "timeout")) } ∧
    (UpdateForHandleNextTrackTx (envPlayerError (.sentinel "timeout")) World.empty
        sampleSession).sess = { sampleSession with QueueHead := 0 + 1 } :=
  have h := C10_hard_error_keeps_advance (envPlayerError (.sentinel "timeout")) World.empty
    sampleSession sampleAdvanced (.sentinel "timeout")
    (by decide) (by decide) (Or.inl (by decide)) rfl (by decide)
  ⟨h.1, h.2.2.2.2.2.2.1⟩

/-- Counterexample to C2 as stated. (1) `sampleSession` is in `Play` at head 0
and the snapshot reports `b`, which differs from `queueTracks[0] = a`; the
cycle validates against the new head `queueTracks[1] = b`, so it succeeds: the
state stays `Play`, a next-track notification is pushed and a timer is
returned. (2) With a single queued track the cycle ends as "all tracks
finished": a stop notification is pushed, not an interrupted one. (3) With
three tracks and a failing pre-load `Enqueue` the snapshot is never read: the
state stays `Play` and nothing is pushed. -/
theorem C2_counterexample :
    (sampleSession.StateType = .Play ∧ sampleSession.QueueHead = 0 ∧
      sampleSession.QueueTracks.get? 0 = some ⟨0, "a", "s"⟩ ∧
      (envPlaying "b").CurrentlyPlaying = .ok ⟨"b", 1000000000, "d"⟩ ∧
      (UpdateForHandleNextTrackTx (envPlaying "b") World.empty sampleSession).sess.StateType
        = .Play ∧
      pushed (newCalls World.empty
        (UpdateForHandleNextTrackTx (envPlaying "b") World.empty sampleSession).world) =
        [⟨"s", .NextTrack 1⟩] ∧
      (UpdateForHandleNextTrackTx (envPlaying "b") World.empty
        sampleSession).resp.triggerAfterTrackEnd = some ⟨"s", some 1000000000⟩) ∧
    (pushed (newCalls World.empty
        (UpdateForHandleNextTrackTx (envPlaying "b") World.empty
          { sampleSession with QueueTracks := [⟨0, "a", "s"⟩] }).world) =
        [⟨"s", .Stop⟩]) ∧
    ((UpdateForHandleNextTrackTx (withEnqueueFailure (envPlaying "x")) World.empty
        sampleSession3).sess.StateType = .Play ∧
      pushed (newCalls World.empty
        (UpdateForHandleNextTrackTx (withEnqueueFailure (envPlaying "x")) World.empty
          sampleSession3).world) = []) := by
  refine ⟨⟨by decide, by decide, by decide, rfl, by decide, by decide, by decide⟩,
    by decide, by decide, by decide⟩

/-- C2, amended: for every session in state `Play` at `queueHead` 0 with a
second queued track, whose pre-load call (if any) succeeds and whose external
snapshot reports a track URI different from `queueTracks[1]`, the track at the
new head, one run of `UpdateForHandleNextTrackTx` sets the state to `Stop`,
pushes exactly one interrupted notification and no other, and returns no next
timer. -/
theorem C2_snapshot_off_new_head_interrupts (env : Env) (w : World) (sess : Session)
    (track : QueueTrack) (playingInfo : CurrentPlayingInfo)
    (hst : sess.StateType = .Play)
    (hh : sess.QueueHead = 0)
    (ht : sess.QueueTracks.get? 1 = some track)
    (henq : preloadSucceeds env { sess with QueueHead := 1 })
    (hcp : env.CurrentlyPlaying = .ok playingInfo)
    (hne : playingInfo.TrackURI ≠ track.URI) :
    (UpdateForHandleNextTrackTx env w sess).sess.StateType = .Stop ∧
    (UpdateForHandleNextTrackTx env w sess).sess =
      { sess with QueueHead := 1, StateType := .Stop } ∧
    pushed (newCalls w (UpdateForHandleNextTrackTx env w sess).world) =
      [⟨sess.ID, .Interrupt⟩] ∧
    (newCalls w (UpdateForHandleNextTrackTx env w sess).world).all
      (fun c => !c.isTimerCall) = true ∧
    (UpdateForHandleNextTrackTx env w sess).resp.triggerAfterTrackEnd = none ∧
    (UpdateForHandleNextTrackTx env w sess).resp.nextTrack = false := by
  have hna : sess.StateType ≠ .Archived := by rw [hst]; decide
  have hlen : 1 < sess.QueueTracks.length := by
    rcases Nat.lt_or_ge 1 sess.QueueTracks.length with h | h
    · exact h
    · rw [List.get?_eq_none.mpr h] at ht; cases ht
  have hgo : sess.GoNextTrack = ({ sess with QueueHead := 1 }, none) := by
    unfold Session.GoNextTrack
    rw [hh]
    simp [Nat.not_le.mpr hlen]
  have hbad : ({ sess with QueueHead := 1 } : Session).IsPlayingCorrectTrack playingInfo =
      some ErrSessionPlayingDifferentTrack := by
    unfold Session.IsPlayingCorrectTrack
    dsimp only
    rw [ht]
    simp [hne]
  have hb := body_different_track env w sess _ playingInfo _ hna hgo henq hcp hbad
  have hcalls : newCalls w (UpdateForHandleNextTrackTx env w sess).world =
      preloadCalls { sess with QueueHead := 1 } ++
        [.CurrentlyPlaying, .Push ⟨sess.ID, .Interrupt⟩,
          .Update ({ sess with QueueHead := 1 } : Session).MoveToStop] := by
    rw [tx_newCalls env w sess (preloadCalls { sess with QueueHead := 1 } ++
      [.CurrentlyPlaying, .Push ⟨sess.ID, .Interrupt⟩])]
    · simp [hb]
    · simp [hb, World.Push, World.log, afterPreload]
  refine ⟨?_, ?_, ?_, ?_, ?_, ?_⟩
  · rw [tx_sess, hb]; rfl
  · rw [tx_sess, hb]; rfl
  · rw [hcalls, pushed_append, pushed_preloadCalls]; rfl
  · rw [hcalls, List.all_append, preloadCalls_no_timer]; rfl
  · rw [tx_resp, hb]
  · rw [tx_resp, hb]

/-- Witness of C2: the session `sampleSession` while the player still reports
the track `a`, the new head being `b`. -/
theorem C2_snapshot_off_new_head_interrupts_witness :
    (UpdateForHandleNextTrackTx (envPlaying "a") (World.holding sampleSession)
        sampleSession).sess.StateType = .Stop ∧
    pushed (newCalls (World.holding sampleSession)
      (UpdateForHandleNextTrackTx (envPlaying "a") (World.holding sampleSession)
        sampleSession).world) = [⟨"s", .Interrupt⟩] :=
  have h := C2_snapshot_off_new_head_interrupts (envPlaying "a") (World.holding sampleSession)
    sampleSession ⟨1, "b", "s"⟩ ⟨"a", 1000000000, "d"⟩
    (by decide) (by decide) (by decide) (Or.inl (by decide)) rfl (by decide)
  ⟨h.1, h.2.2.1⟩

/-- C6, at the failing input: `sampleSession` is read under the lock, the
player still reports the track `a` and the final `Update` fails with `db`. The
response of the transactional function carries the application error
`ErrSessionPlayingDifferentTrack`, but the error returned by `handleTrackEnd`
and by `handleSkipTrack` is the wrapped persistence error alone: it wraps `db`
and does not carry the application error, not even as text. -/
theorem C6_application_error_is_dropped :
    (∃ e, (UpdateForHandleNextTrackTx (withUpdateFailure (envPlaying "a")) World.empty
        sampleSession).resp.err = some e ∧
      errorsIs e ErrSessionPlayingDifferentTrack = true) ∧
    (handleTrackEnd (withUpdateFailure (envPlaying "a")) (World.holding sampleSession)
        "s").err =
      some (.fmtW "handle track end in transaction"
        (.fmtW "update session id=s" (.sentinel "db"))) ∧
    (handleSkipTrack (withUpdateFailure (envPlaying "a")) (World.holding sampleSession)
        "s").err =
      some (.fmtW "handle track end in transaction"
        (.fmtW "update session id=s" (.sentinel "db"))) ∧
    errorsIs (.fmtW "handle track end in transaction"
      (.fmtW "update session id=s" (.sentinel "db"))) (.sentinel "db") = true ∧
    GoError.carries (.fmtW "handle track end in transaction"
      (.fmtW "update session id=s" (.sentinel "db"))) ErrSessionPlayingDifferentTrack
      = false ∧
    errorsIs (.fmtW "handle track end in transaction"
      (.fmtW "update session id=s" (.sentinel "db"))) ErrSessionPlayingDifferentTrack
      = false := by
  refine ⟨⟨_, rfl, by decide⟩, by decide, by decide, by decide, by decide, by decide⟩

theorem handleTrackEnd_committed (env : Env) (w : World) (id : String) (sess : Session)
    (hf : env.FindFault = none) (hs : w.sessions id = some sess)
    (hr : (UpdateForHandleNextTrackTx env (lockedWorld w id) sess).returnErr = none) :
    handleTrackEnd env w id =
      ⟨(UpdateForHandleNextTrackTx env (lockedWorld w id) sess).world,
        (UpdateForHandleNextTrackTx env (lockedWorld w id) sess).resp.triggerAfterTrackEnd,
        (UpdateForHandleNextTrackTx env (lockedWorld w id) sess).resp.nextTrack,
        (UpdateForHandleNextTrackTx env (lockedWorld w id) sess).resp.err⟩ := by
  have hs1 : ((w.DeleteTimer id).log (.Sleep waitTimeBeforeHandleTrackEnd)).sessions id =
      some sess := hs
  have hw : (World.log ((w.DeleteTimer id).log (.Sleep waitTimeBeforeHandleTrackEnd))
      (.FindByIDForUpdate id)) = lockedWorld w id := rfl
  simp only [handleTrackEnd, DoInTx, handleTrackEndTx, World.FindByIDForUpdate, hf, hs1, hw, hr]

theorem lockedWorld_calls (w : World) (id : String) :
    (lockedWorld w id).calls = w.calls ++
      [.DeleteTimer id, .Sleep waitTimeBeforeHandleTrackEnd, .FindByIDForUpdate id] := by
  simp [lockedWorld, World.DeleteTimer, World.log]

theorem cycle_next (env : Env) (w : World) (sess sess1 : Session)
    (playingInfo : CurrentPlayingInfo)
    (hw : w.sessions sess.ID = some sess) (hf : env.FindFault = none)
    (hupd : env.Update sess1 = none)
    (hna : sess.StateType ≠ .Archived) (hgo : sess.GoNextTrack = (sess1, none))
    (henq : preloadSucceeds env sess1)
    (hcp : env.CurrentlyPlaying = .ok playingInfo)
    (hok : sess1.IsPlayingCorrectTrack playingInfo = none) :
    (handleTrackEnd env w sess.ID).timer = some ⟨sess.ID, some playingInfo.Remain⟩ ∧
    (handleTrackEnd env w sess.ID).nextTrack = true ∧
    (handleTrackEnd env w sess.ID).err = none ∧
    (handleTrackEnd env w sess.ID).world.sessions sess.ID = some sess1 ∧
    pushed (newCalls w (handleTrackEnd env w sess.ID).world) =
      [⟨sess.ID, .NextTrack sess1.QueueHead⟩] := by
  have hb := body_success env (lockedWorld w sess.ID) sess sess1 playingInfo hna hgo henq hcp hok
  have hid : sess1.ID = sess.ID := by rw [(goNextTrack_ok sess sess1 hgo).1]
  have hupd1 : env.Update
      (updateForHandleNextTrackBody env (lockedWorld w sess.ID) sess).sess = none := by
    rw [hb]; exact hupd
  rw [handleTrackEnd_committed env w sess.ID sess hf hw (tx_returnErr_ok _ _ _ hupd1)]
  refine ⟨?_, ?_, ?_, ?_, ?_⟩
  · simp only [tx_resp, hb, hid]
  · simp only [tx_resp, hb]
  · simp only [tx_resp, hb]
  · simp only [tx_sessions_ok env _ sess hupd1, hb, hid, if_true]
  · apply (congrArg pushed (newCalls_of_append w _
      ([.DeleteTimer sess.ID, .Sleep waitTimeBeforeHandleTrackEnd,
          .FindByIDForUpdate sess.ID] ++ preloadCalls sess1 ++
        [.CurrentlyPlaying, .Push ⟨sess.ID, .NextTrack sess1.QueueHead⟩,
          .CreateTimer sess.ID, .SetTimer sess.ID playingInfo.Remain, .Update sess1]) ?_)).trans
    · simp [pushed_append, pushed_preloadCalls, pushed]
    · simp [tx_calls, hb, World.Push, World.log, afterPreload, World.CreateTimer,
        World.SetTimer, hid, lockedWorld_calls]

theorem cycle_finished (env : Env) (w : World) (sess sess1 : Session) (e : GoError)
    (hw : w.sessions sess.ID = some sess) (hf : env.FindFault = none)
    (hupd : env.Update sess1 = none)
    (hna : sess.StateType ≠ .Archived) (hgo : sess.GoNextTrack = (sess1, some e))
    (he : errorsIs e ErrSessionAllTracksFinished = true) (hid : sess1.ID = sess.ID) :
    (handleTrackEnd env w sess.ID).timer = none ∧
    (handleTrackEnd env w sess.ID).nextTrack = false ∧
    (handleTrackEnd env w sess.ID).err = none ∧
    (handleTrackEnd env w sess.ID).world.sessions sess.ID = some sess1 ∧
    pushed (newCalls w (handleTrackEnd env w sess.ID).world) = [⟨sess.ID, .Stop⟩] := by
  have hb := body_finished env (lockedWorld w sess.ID) sess sess1 e hna hgo he
  have hupd1 : env.Update
      (updateForHandleNextTrackBody env (lockedWorld w sess.ID) sess).sess = none := by
    rw [hb]; exact hupd
  rw [handleTrackEnd_committed env w sess.ID sess hf hw (tx_returnErr_ok _ _ _ hupd1)]
  refine ⟨?_, ?_, ?_, ?_, ?_⟩
  · simp only [tx_resp, hb]
  · simp only [tx_resp, hb]
  · simp only [tx_resp, hb]
  · simp only [tx_sessions_ok env _ sess hupd1, hb, hid, if_true]
  · apply (congrArg pushed (newCalls_of_append w _
      [.DeleteTimer sess.ID, .Sleep waitTimeBeforeHandleTrackEnd,
        .FindByIDForUpdate sess.ID, .Push ⟨sess.ID, .Stop⟩, .Update sess1] ?_)).trans
    · rfl
    · simp [tx_calls, hb, World.Push, World.log, hid, lockedWorld_calls]

/-- Counterexample to C4 as stated: `sampleSession3` is in `Play` with three
queued tracks at head 0 and the player reports the expected track `b`, yet the
first expiry cycle fails and returns no timer when the store rejects the
update, when the pre-load call `Enqueue` fails, and when the store cannot read
the session; and with a store and a player that never fail, the third cycle
hands the session to `Update` in state `Play`, not `Stop`. -/
theorem C4_counterexample :
    sampleSession3.StateType = .Play ∧ sampleSession3.QueueHead = 0 ∧
    sampleSession3.QueueTracks.length = 3 ∧
    ((handleTrackEnd (withUpdateFailure (envPlaying "b")) (World.holding sampleSession3)
        "s").err.isSome = true ∧
      (handleTrackEnd (withUpdateFailure (envPlaying "b")) (World.holding sampleSession3)
        "s").timer = none) ∧
    ((handleTrackEnd (withEnqueueFailure (envPlaying "b")) (World.holding sampleSession3)
        "s").err.isSome = true ∧
      (handleTrackEnd (withEnqueueFailure (envPlaying "b")) (World.holding sampleSession3)
        "s").timer = none) ∧
    ((handleTrackEnd { envPlaying "b" with FindFault := some (.sentinel "db") }
        (World.holding sampleSession3) "s").err.isSome = true ∧
      (handleTrackEnd { envPlaying "b" with FindFault := some (.sentinel "db") }
        (World.holding sampleSession3) "s").timer = none) ∧
    updated (newCalls
      (handleTrackEnd (envPlaying "c")
        (handleTrackEnd (envPlaying "b") (World.holding sampleSession3) "s").world "s").world
      (handleTrackEnd (envPlaying "c")
        (handleTrackEnd (envPlaying "c")
          (handleTrackEnd (envPlaying "b") (World.holding sampleSession3) "s").world
          "s").world "s").world) =
      [{ sampleSession3 with QueueHead := 2, StateType := .Play }] := by
  refine ⟨rfl, rfl, rfl, ⟨by decide, by decide⟩, ⟨by decide, by decide⟩,
    ⟨by decide, by decide⟩, by decide⟩

/-- C4, amended: for a session in `Play` with three queued tracks at `queueHead`
0, a player that reports the expected track (the new head, on the session's
device) and whose pre-load call succeeds, and a store that reads the session
and accepts every update, two consecutive expiry cycles `handleTrackEnd`
succeed, each pushing the next-track notification and returning a next timer,
and persist `queueHead` 1 and then 2; a third cycle finds all tracks finished:
it pushes the stop notification, returns no timer, `nextTrack = false` and no
error, and persists the session with `queueHead` 2 and its three tracks. -/
theorem C4_three_tracks_play_out (w : World) (sess : Session) (t0 t1 t2 : QueueTrack)
    (env1 env2 env3 : Env) (p1 p2 : CurrentPlayingInfo)
    (hw : w.sessions sess.ID = some sess)
    (hst : sess.StateType = .Play)
    (hh : sess.QueueHead = 0)
    (hq : sess.QueueTracks = [t0, t1, t2])
    (hcp1 : env1.CurrentlyPlaying = .ok p1)
    (hp1 : p1.TrackURI = t1.URI ∧ p1.DeviceID = sess.DeviceID)
    (hcp2 : env2.CurrentlyPlaying = .ok p2)
    (hp2 : p2.TrackURI = t2.URI ∧ p2.DeviceID = sess.DeviceID)
    (henq1 : ∀ uri device, env1.Enqueue uri device = none)
    (henq2 : ∀ uri device, env2.Enqueue uri device = none)
    (hs1 : env1.FindFault = none ∧ ∀ s, env1.Update s = none)
    (hs2 : env2.FindFault = none ∧ ∀ s, env2.Update s = none)
    (hs3 : env3.FindFault = none ∧ ∀ s, env3.Update s = none) :
    let c1 := handleTrackEnd env1 w sess.ID
    let c2 := handleTrackEnd env2 c1.world sess.ID
    let c3 := handleTrackEnd env3 c2.world sess.ID
    (c1.err = none ∧ c1.nextTrack = true ∧ c1.timer = some ⟨sess.ID, some p1.Remain⟩ ∧
      pushed (newCalls w c1.world) = [⟨sess.ID, .NextTrack 1⟩] ∧
      c1.world.sessions sess.ID = some { sess with QueueHead := 1 }) ∧
    (c2.err = none ∧ c2.nextTrack = true ∧ c2.timer = some ⟨sess.ID, some p2.Remain⟩ ∧
      pushed (newCalls c1.world c2.world) = [⟨sess.ID, .NextTrack 2⟩] ∧
      c2.world.sessions sess.ID = some { sess with QueueHead := 2 }) ∧
    (c3.err = none ∧ c3.nextTrack = false ∧ c3.timer = none ∧
      pushed (newCalls c2.world c3.world) = [⟨sess.ID, .Stop⟩] ∧
      ∃ s, c3.world.sessions sess.ID = some s ∧ s.QueueHead = 2 ∧
        s.QueueTracks = [t0, t1, t2]) := by
  intro c1 c2 c3
  have hna : sess.StateType ≠ .Archived := by rw [hst]; decide
  -- first cycle
  have hgo1 : sess.GoNextTrack = ({ sess with QueueHead := 1 }, none) := by
    simp [Session.GoNextTrack, hq, hh]
  have hok1 : ({ sess with QueueHead := 1 } : Session).IsPlayingCorrectTrack p1 = none := by
    simp [Session.IsPlayingCorrectTrack, hq, hp1.1, hp1.2]
  have k1 := cycle_next env1 w sess { sess with QueueHead := 1 } p1 hw hs1.1 (hs1.2 _) hna hgo1
    (Or.inr (henq1 _ _)) hcp1 hok1
  -- second cycle
  have hgo2 : ({ sess with QueueHead := 1 } : Session).GoNextTrack =
      ({ sess with QueueHead := 2 }, none) := by
    simp [Session.GoNextTrack, hq]
  have hok2 : ({ sess with QueueHead := 2 } : Session).IsPlayingCorrectTrack p2 = none := by
    simp [Session.IsPlayingCorrectTrack, hq, hp2.1, hp2.2]
  have k2 := cycle_next env2 c1.world { sess with QueueHead := 1 } { sess with QueueHead := 2 }
    p2 k1.2.2.2.1 hs2.1 (hs2.2 _) hna hgo2 (Or.inr (henq2 _ _)) hcp2 hok2
  -- third cycle
  have hgo3 : ({ sess with QueueHead := 2 } : Session).GoNextTrack =
      ({ sess with QueueHead := 2 }, some ErrSessionAllTracksFinished) := by
    simp [Session.GoNextTrack, hq]
  have k3 := cycle_finished env3 c2.world { sess with QueueHead := 2 }
    { sess with QueueHead := 2 } ErrSessionAllTracksFinished
    k2.2.2.2.1 hs3.1 (hs3.2 _) hna hgo3 (by decide) rfl
  exact ⟨⟨k1.2.2.1, k1.2.1, k1.1, k1.2.2.2.2, k1.2.2.2.1⟩,
    ⟨k2.2.2.1, k2.2.1, k2.1, k2.2.2.2.2, k2.2.2.2.1⟩,
    ⟨k3.2.2.1, k3.2.1, k3.1, k3.2.2.2.2, _, k3.2.2.2.1, rfl, hq⟩⟩

/-- Witness of C4: the session `sampleSession3` with a player that reports `b`
and then `c`. -/
theorem C4_three_tracks_play_out_witness :
    pushed (newCalls
      (handleTrackEnd (envPlaying "c")
        (handleTrackEnd (envPlaying "b") (World.holding sampleSession3) "s").world "s").world
      (handleTrackEnd (envPlaying "c")
        (handleTrackEnd (envPlaying "c")
          (handleTrackEnd (envPlaying "b") (World.holding sampleSession3) "s").world
          "s").world "s").world) = [⟨"s", .Stop⟩] :=
  (C4_three_tracks_play_out (World.holding sampleSession3) sampleSession3
    ⟨0, "a", "s"⟩ ⟨1, "b", "s"⟩ ⟨2, "c", "s"⟩
    (envPlaying "b") (envPlaying "c") (envPlaying "c")
    ⟨"b", 1000000000, "d"⟩ ⟨"c", 1000000000, "d"⟩
    (by decide) (by decide) (by decide) (by decide) rfl ⟨rfl, rfl⟩ rfl ⟨rfl, rfl⟩
    (fun _ _ => rfl) (fun _ _ => rfl) ⟨rfl, fun _ => rfl⟩ ⟨rfl, fun _ => rfl⟩
    ⟨rfl, fun _ => rfl⟩).2.2.2.2.2.1

theorem body_frame (env : Env) (w : World) (sess : Session) (cs : List Call) :
    (updateForHandleNextTrackBody env { w with calls := cs } sess).sess =
        (updateForHandleNextTrackBody env w sess).sess ∧
      (updateForHandleNextTrackBody env { w with calls := cs } sess).resp =
        (updateForHandleNextTrackBody env w sess).resp ∧
      (updateForHandleNextTrackBody env { w with calls := cs } sess).world.sessions =
        (updateForHandleNextTrackBody env w sess).world.sessions ∧
      (updateForHandleNextTrackBody env { w with calls := cs } sess).world.timers =
        (updateForHandleNextTrackBody env w sess).world.timers ∧
      (updateForHandleNextTrackBody env { w with calls := cs } sess).world.calls =
        cs ++ newCalls w (updateForHandleNextTrackBody env w sess).world := by
  unfold updateForHandleNextTrackBody
  dsimp only
  by_cases ht : sess.GoNextTrack.1.TrackURIShouldBeAddedWhenHandleTrackEnd = ""
  · simp only [ht, ne_eq, not_true_eq_false, if_false]
    repeat' split
    all_goals simp_all [newCalls, World.Push, World.log, handleAllTrackFinish, handleInterrupt,
      World.CreateTimer, World.SetTimer]
  · cases he : env.Enqueue sess.GoNextTrack.1.TrackURIShouldBeAddedWhenHandleTrackEnd
        sess.GoNextTrack.1.DeviceID
    all_goals simp only [ht, ne_eq, not_false_eq_true, if_true, he]
    all_goals repeat' split
    all_goals simp_all [newCalls, World.Push, World.log, handleAllTrackFinish, handleInterrupt,
      World.CreateTimer, World.SetTimer]

theorem tx_returnErr_eq (env : Env) (w : World) (sess : Session) :
    (UpdateForHandleNextTrackTx env w sess).returnErr =
      (env.Update (updateForHandleNextTrackBody env w sess).sess).map
        (GoError.fmtW ("update session id=" ++ (updateForHandleNextTrackBody env w sess).sess.ID)) := by
  cases h : env.Update (updateForHandleNextTrackBody env w sess).sess with
  | none => rw [tx_returnErr_ok env w sess h]; rfl
  | some e => rw [tx_returnErr_fail env w sess e h]; rfl

theorem tx_sessions_eq (env : Env) (w : World) (sess : Session) :
    (UpdateForHandleNextTrackTx env w sess).world.sessions =
      match env.Update (updateForHandleNextTrackBody env w sess).sess with
      | some _ => (updateForHandleNextTrackBody env w sess).world.sessions
      | none => fun id => if id = (updateForHandleNextTrackBody env w sess).sess.ID
          then some (updateForHandleNextTrackBody env w sess).sess
          else (updateForHandleNextTrackBody env w sess).world.sessions id := by
  cases h : env.Update (updateForHandleNextTrackBody env w sess).sess with
  | none => rw [tx_sessions_ok env w sess h]
  | some e =>
    unfold UpdateForHandleNextTrackTx
    simp only [World.Update, h, body_returnErr, World.log]

theorem tx_frame (env : Env) (w : World) (sess : Session) (cs : List Call) :
    (UpdateForHandleNextTrackTx env { w with calls := cs } sess).sess =
        (UpdateForHandleNextTrackTx env w sess).sess ∧
      (UpdateForHandleNextTrackTx env { w with calls := cs } sess).resp =
        (UpdateForHandleNextTrackTx env w sess).resp ∧
      (UpdateForHandleNextTrackTx env { w with calls := cs } sess).returnErr =
        (UpdateForHandleNextTrackTx env w sess).returnErr ∧
      (UpdateForHandleNextTrackTx env { w with calls := cs } sess).world.sessions =
        (UpdateForHandleNextTrackTx env w sess).world.sessions ∧
      (UpdateForHandleNextTrackTx env { w with calls := cs } sess).world.timers =
        (UpdateForHandleNextTrackTx env w sess).world.timers ∧
      (UpdateForHandleNextTrackTx env { w with calls := cs } sess).world.calls =
        cs ++ newCalls w (UpdateForHandleNextTrackTx env w sess).world := by
  obtain ⟨h1, h2, h3, h4, h5⟩ := body_frame env w sess cs
  refine ⟨?_, ?_, ?_, ?_, ?_, ?_⟩
  · rw [tx_sess, tx_sess, h1]
  · rw [tx_resp, tx_resp, h2]
  · rw [tx_returnErr_eq, tx_returnErr_eq, h1]
  · rw [tx_sessions_eq, tx_sessions_eq, h1, h3]
  · rw [tx_timers, tx_timers, h4]
  · rw [tx_calls, h5, h1, tx_newCalls env w sess _ (body_calls env w sess).1,
      List.append_assoc]

theorem sleeps_append (xs ys : List Call) : sleeps (xs ++ ys) = sleeps xs ++ sleeps ys := by
  induction xs with
  | nil => rfl
  | cons c cs ih => cases c <;> simp [sleeps, ih]

theorem withoutSleep_append (xs ys : List Call) :
    withoutSleep (xs ++ ys) = withoutSleep xs ++ withoutSleep ys := by
  induction xs with
  | nil => rfl
  | cons c cs ih => cases c <;> simp [withoutSleep, ih]

theorem body_no_sleep (env : Env) (w : World) (sess : Session) :
    sleeps (newCalls w (updateForHandleNextTrackBody env w sess).world) = [] := by
  unfold updateForHandleNextTrackBody
  dsimp only
  by_cases ht : sess.GoNextTrack.1.TrackURIShouldBeAddedWhenHandleTrackEnd = ""
  · simp only [ht, ne_eq, not_true_eq_false, if_false]
    repeat' split
    all_goals simp_all [newCalls, World.Push, World.log, handleAllTrackFinish, handleInterrupt,
      World.CreateTimer, World.SetTimer, sleeps]
  · cases he : env.Enqueue sess.GoNextTrack.1.TrackURIShouldBeAddedWhenHandleTrackEnd
        sess.GoNextTrack.1.DeviceID
    all_goals simp only [ht, ne_eq, not_false_eq_true, if_true, he]
    all_goals repeat' split
    all_goals simp_all [newCalls, World.Push, World.log, handleAllTrackFinish, handleInterrupt,
      World.CreateTimer, World.SetTimer, sleeps]

theorem tx_no_sleep (env : Env) (w : World) (sess : Session) :
    sleeps (newCalls w (UpdateForHandleNextTrackTx env w sess).world) = [] := by
  rw [tx_newCalls env w sess _ (body_calls env w sess).1, sleeps_append, body_no_sleep]
  rfl

theorem handleTrackEnd_found (env : Env) (w : World) (id : String) (sess : Session)
    (hf : env.FindFault = none) (hs : w.sessions id = some sess) :
    handleTrackEnd env w id =
      cycleOutcome w (UpdateForHandleNextTrackTx env (lockedWorld w id) sess) := by
  have hs1 : ((w.DeleteTimer id).log (.Sleep waitTimeBeforeHandleTrackEnd)).sessions id =
      some sess := hs
  have hw : (World.log ((w.DeleteTimer id).log (.Sleep waitTimeBeforeHandleTrackEnd))
      (.FindByIDForUpdate id)) = lockedWorld w id := rfl
  cases hr : (UpdateForHandleNextTrackTx env (lockedWorld w id) sess).returnErr with
  | none =>
    simp only [handleTrackEnd, DoInTx, handleTrackEndTx, World.FindByIDForUpdate, hf, hs1, hw,
      hr, cycleOutcome]
  | some e =>
    simp only [handleTrackEnd, DoInTx, handleTrackEndTx, World.FindByIDForUpdate, hf, hs1, hw,
      hr, cycleOutcome]
    rfl

theorem handleSkipTrack_found (env : Env) (w : World) (id : String) (sess : Session)
    (hf : env.FindFault = none) (hs : w.sessions id = some sess) :
    handleSkipTrack env w id =
      cycleOutcome w (UpdateForHandleNextTrackTx env (skipWorld w id) sess) := by
  have hs1 : (w.DeleteTimer id).sessions id = some sess := hs
  have hw : (World.log ((w.DeleteTimer id).log (.FindByIDForUpdate id))
      (.Sleep 300000000)) = skipWorld w id := rfl
  cases hr : (UpdateForHandleNextTrackTx env (skipWorld w id) sess).returnErr with
  | none =>
    simp only [handleSkipTrack, DoInTx, handleSkipTrackTx, World.FindByIDForUpdate, hf, hs1, hw,
      hr, cycleOutcome]
  | some e =>
    simp only [handleSkipTrack, DoInTx, handleSkipTrackTx, World.FindByIDForUpdate, hf, hs1, hw,
      hr, cycleOutcome]
    rfl

/-- C12: ignoring the waits, the skip path and the expiry path are the same
function. For every session id and every behaviour of the store, the player
and the pusher, `handleSkipTrack` and `handleTrackEnd` first delete the old
timer, make the same calls in the same order, leave the same store and the
same timer registry, and return the same timer, `nextTrack` and error. The
only difference is the wait of 7 s of the expiry path, made right after the
timer is deleted and before the transaction reads the session, and the wait of
300 ms of the skip path, made right after the session is read under the lock
and before every other call of the transaction, the snapshot
`CurrentlyPlaying` included: the calls of the expiry path are `DeleteTimer`,
`Sleep 7 s`, `FindByIDForUpdate`, then the calls `reconcileCalls` of the
transaction, and those of the skip path are `DeleteTimer`, `FindByIDForUpdate`,
`Sleep 300 ms` when the session was read, then the same `reconcileCalls`, which
hold no wait. -/
theorem C12_skip_and_expiry_agree (env : Env) (w : World) (sessionID : String) :
    (handleSkipTrack env w sessionID).timer = (handleTrackEnd env w sessionID).timer ∧
    (handleSkipTrack env w sessionID).nextTrack = (handleTrackEnd env w sessionID).nextTrack ∧
    (handleSkipTrack env w sessionID).err = (handleTrackEnd env w sessionID).err ∧
    (handleSkipTrack env w sessionID).world.sessions =
      (handleTrackEnd env w sessionID).world.sessions ∧
    (handleSkipTrack env w sessionID).world.timers =
      (handleTrackEnd env w sessionID).world.timers ∧
    withoutSleep (newCalls w (handleSkipTrack env w sessionID).world) =
      withoutSleep (newCalls w (handleTrackEnd env w sessionID).world) ∧
    (newCalls w (handleSkipTrack env w sessionID).world).head? =
      some (.DeleteTimer sessionID) ∧
    (newCalls w (handleTrackEnd env w sessionID).world).head? =
      some (.DeleteTimer sessionID) ∧
    sleeps (newCalls w (handleTrackEnd env w sessionID).world) =
      [waitTimeBeforeHandleTrackEnd] ∧
    (sleeps (newCalls w (handleSkipTrack env w sessionID).world) =
      if env.FindFault = none ∧ (w.sessions sessionID).isSome = true then [300000000]
      else []) ∧
    newCalls w (handleTrackEnd env w sessionID).world =
      [.DeleteTimer sessionID, .Sleep waitTimeBeforeHandleTrackEnd,
        .FindByIDForUpdate sessionID] ++ reconcileCalls env w sessionID ∧
    newCalls w (handleSkipTrack env w sessionID).world =
      [.DeleteTimer sessionID, .FindByIDForUpdate sessionID] ++
        (if env.FindFault = none ∧ (w.sessions sessionID).isSome = true
          then [Call.Sleep 300000000] else []) ++ reconcileCalls env w sessionID ∧
    sleeps (reconcileCalls env w sessionID) = [] := by
  cases hf : env.FindFault with
  | some e =>
    simp [handleSkipTrack, handleTrackEnd, DoInTx, handleSkipTrackTx, handleTrackEndTx,
      World.FindByIDForUpdate, hf, World.DeleteTimer, World.log, newCalls, withoutSleep, sleeps,
      reconcileCalls]
  | none =>
    cases hs : w.sessions sessionID with
    | none =>
      simp [handleSkipTrack, handleTrackEnd, DoInTx, handleSkipTrackTx, handleTrackEndTx,
        World.FindByIDForUpdate, hf, hs, World.DeleteTimer, World.log, newCalls, withoutSleep,
        sleeps, reconcileCalls]
    | some sess =>
      have hs1 : (w.DeleteTimer sessionID).sessions sessionID = some sess := hs
      have hrc : reconcileCalls env w sessionID =
          newCalls (w.DeleteTimer sessionID)
            (UpdateForHandleNextTrackTx env (w.DeleteTimer sessionID) sess).world := by
        simp only [reconcileCalls, World.FindByIDForUpdate, hf, hs1]
      rw [handleTrackEnd_found env w sessionID sess hf hs,
        handleSkipTrack_found env w sessionID sess hf hs, hrc]
      have hE : lockedWorld w sessionID = { w.DeleteTimer sessionID with
          calls := w.calls ++ [.DeleteTimer sessionID, .Sleep waitTimeBeforeHandleTrackEnd,
            .FindByIDForUpdate sessionID] } := by
        simp [lockedWorld, World.log, World.DeleteTimer]
      have hK : skipWorld w sessionID = { w.DeleteTimer sessionID with
          calls := w.calls ++ [.DeleteTimer sessionID, .FindByIDForUpdate sessionID,
            .Sleep 300000000] } := by
        simp [skipWorld, World.log, World.DeleteTimer]
      rw [hE, hK]
      obtain ⟨_, e2, e3, e4, e5, e6⟩ := tx_frame env (w.DeleteTimer sessionID) sess
        (w.calls ++ [.DeleteTimer sessionID, .Sleep waitTimeBeforeHandleTrackEnd,
          .FindByIDForUpdate sessionID])
      obtain ⟨_, k2, k3, k4, k5, k6⟩ := tx_frame env (w.DeleteTimer sessionID) sess
        (w.calls ++ [.DeleteTimer sessionID, .FindByIDForUpdate sessionID, .Sleep 300000000])
      have hns := tx_no_sleep env (w.DeleteTimer sessionID) sess
      cases hR : (UpdateForHandleNextTrackTx env (w.DeleteTimer sessionID) sess).returnErr with
      | none =>
        rw [hR] at e3 k3
        simp only [cycleOutcome, e3, k3]
        simp [newCalls, e2, k2, e4, k4, e5, k5, e6, k6, withoutSleep, withoutSleep_append,
          sleeps, sleeps_append]
        simpa [newCalls] using hns
      | some err =>
        rw [hR] at e3 k3
        simp only [cycleOutcome, e3, k3]
        simp [newCalls, e5, k5, e6, k6, withoutSleep, withoutSleep_append,
          sleeps, sleeps_append]
        simpa [newCalls] using hns

/-- C11: `Session.MoveToPause` returns nil and sets `StateType` to `Pause`, all
other fields unchanged, when the state is `Play` or `Pause`; from every other
state it returns an error wrapping `ErrChangeSessionStateNotPermit` and leaves
the session, its `StateType` included, unchanged. -/
theorem C11_moveToPause_only_from_play_or_pause (s : Session) :
    (s.StateType = .Play ∨ s.StateType = .Pause →
      s.MoveToPause = ({ s with StateType := .Pause }, none)) ∧
    (s.StateType ≠ .Play ∧ s.StateType ≠ .Pause →
      s.MoveToPause.1 = s ∧
      ∃ e, s.MoveToPause.2 = some e ∧ e.Unwrap = some ErrChangeSessionStateNotPermit ∧
        errorsIs e ErrChangeSessionStateNotPermit = true) := by
  constructor
  · intro h
    simp [Session.MoveToPause, h]
  · intro h
    have hn : ¬(s.StateType = .Play ∨ s.StateType = .Pause) := by
      rintro (h1 | h1)
      · exact h.1 h1
      · exact h.2 h1
    simp only [Session.MoveToPause, hn, if_false]
    refine ⟨trivial, _, rfl, rfl, ?_⟩
    simp [errorsIs, ErrChangeSessionStateNotPermit]

/-- Witness of C11: pausing the playing `sampleSession` succeeds, pausing it
once stopped or archived is refused. -/
theorem C11_moveToPause_only_from_play_or_pause_witness :
    sampleSession.MoveToPause = ({ sampleSession with StateType := .Pause }, none) ∧
    ({ sampleSession with StateType := .Stop } : Session).MoveToPause.1 =
      { sampleSession with StateType := .Stop } ∧
    ({ sampleSession with StateType := .Archived } : Session).MoveToPause.1 =
      { sampleSession with StateType := .Archived } :=
  ⟨(C11_moveToPause_only_from_play_or_pause sampleSession).1 (Or.inl rfl),
    ((C11_moveToPause_only_from_play_or_pause { sampleSession with StateType := .Stop }).2
      ⟨by decide, by decide⟩).1,
    ((C11_moveToPause_only_from_play_or_pause { sampleSession with StateType := .Archived }).2
      ⟨by decide, by decide⟩).1⟩

/-- C18: for every name and creator id, `NewSession` returns without error a
session whose `StateType` is `Stop`, whose `QueueHead` is 0, whose queue is
empty, and whose `Name` and `CreatorID` are the given ones. -/
theorem C18_newSession_is_stopped_and_empty (uuid name creatorID : String) :
    (NewSession uuid name creatorID).2 = none ∧
    (NewSession uuid name creatorID).1.StateType = .Stop ∧
    (NewSession uuid name creatorID).1.QueueHead = 0 ∧
    (NewSession uuid name creatorID).1.QueueTracks = [] ∧
    (NewSession uuid name creatorID).1.Name = name ∧
    (NewSession uuid name creatorID).1.CreatorID = creatorID :=
  ⟨rfl, rfl, rfl, rfl, rfl, rfl⟩

/-- C20: `Session.MoveToPlay` succeeds from every state: it returns nil, sets
`StateType` to `Play`, and leaves `ID`, `Name`, `CreatorID`, `QueueHead` and
`QueueTracks` unchanged. -/
theorem C20_moveToPlay_from_every_state (s : Session) :
    s.MoveToPlay.2 = none ∧
    s.MoveToPlay.1.StateType = .Play ∧
    s.MoveToPlay.1.ID = s.ID ∧
    s.MoveToPlay.1.Name = s.Name ∧
    s.MoveToPlay.1.CreatorID = s.CreatorID ∧
    s.MoveToPlay.1.QueueHead = s.QueueHead ∧
    s.MoveToPlay.1.QueueTracks = s.QueueTracks ∧
    s.MoveToPlay.1 = { s with StateType := .Play } :=
  ⟨rfl, rfl, rfl, rfl, rfl, rfl, rfl, rfl⟩

/-- C13, at the failing input: one iteration of the scheduler loop of
`SessionTimerUseCase.startTrackEndTrigger`. On a stop signal the reconciler is
not invoked and the world is untouched, but the loop returns only while
`waitPlayTimer` is pending or holds its value: once that value has been
received, as it is when the loop arms its first timer, or the timer has been
stopped, as it is by every skip or expiry iteration, the stop branch blocks
for ever in `<-waitPlayTimer.C` and the function never returns. So a loop that
has armed its first timer does not end on a stop signal. The rest holds: on a
skip signal the world is the one left by a single `handleSkipTrack`, on an
expiry signal by a single `handleTrackEnd`; the loop goes on if and only if
that call returned no error and `nextTrack = true`, and then with exactly the
timer it returned; in every other case the loop returns, whatever signals
would follow. -/
theorem C13_stop_blocks_after_wait (env : Env) (w : World) (sessionID : String)
    (timer : SyncCheckTimer) (waitPlayTimer : WaitPlayTimer) (rest : List (Signal × Env)) :
    (triggerStep env w sessionID timer .pending .Stop = (w, .ended) ∧
      triggerStep env w sessionID timer .fired .Stop = (w, .ended) ∧
      triggerLoop w sessionID timer .pending ((.Stop, env) :: rest) = (w, .returned) ∧
      triggerLoop w sessionID timer .fired ((.Stop, env) :: rest) = (w, .returned)) ∧
    (triggerStep env w sessionID timer .received .Stop = (w, .blocked) ∧
      triggerStep env w sessionID timer .stopped .Stop = (w, .blocked) ∧
      triggerLoop w sessionID timer .received ((.Stop, env) :: rest) = (w, .blocked) ∧
      triggerLoop w sessionID timer .stopped ((.Stop, env) :: rest) = (w, .blocked)) ∧
    ((startTrackEndTrigger (World.holding sampleSession) "s"
        [(.WaitPlay, envPlaying "a"), (.Stop, envPlaying "a")]).2 = .blocked ∧
      (startTrackEndTrigger (World.holding sampleSession3) "s"
        [(.Next, envPlaying "b"), (.Stop, envPlaying "b")]).2 = .blocked ∧
      (startTrackEndTrigger (World.holding sampleSession) "s"
        [(.Stop, envPlaying "a")]).2 = .returned) ∧
    triggerStep env w sessionID timer waitPlayTimer .Next =
      ((handleSkipTrack env w sessionID).world,
        if (handleSkipTrack env w sessionID).err = none ∧
            (handleSkipTrack env w sessionID).nextTrack = true
        then .goOn (handleSkipTrack env w sessionID).timer waitPlayTimer.Stop.1
        else .ended) ∧
    triggerStep env w sessionID timer waitPlayTimer .Expire =
      ((handleTrackEnd env w sessionID).world,
        if (handleTrackEnd env w sessionID).err = none ∧
            (handleTrackEnd env w sessionID).nextTrack = true
        then .goOn (handleTrackEnd env w sessionID).timer waitPlayTimer.Stop.1
        else .ended) ∧
    triggerLoop w sessionID timer waitPlayTimer ((.Next, env) :: rest) =
      (if (handleSkipTrack env w sessionID).err = none ∧
            (handleSkipTrack env w sessionID).nextTrack = true
        then
          match (handleSkipTrack env w sessionID).timer with
          | some next =>
            triggerLoop (handleSkipTrack env w sessionID).world sessionID next
              waitPlayTimer.Stop.1 rest
          | none => ((handleSkipTrack env w sessionID).world, .crashed)
        else ((handleSkipTrack env w sessionID).world, .returned)) ∧
    triggerLoop w sessionID timer waitPlayTimer ((.Expire, env) :: rest) =
      (if (handleTrackEnd env w sessionID).err = none ∧
            (handleTrackEnd env w sessionID).nextTrack = true
        then
          match (handleTrackEnd env w sessionID).timer with
          | some next =>
            triggerLoop (handleTrackEnd env w sessionID).world sessionID next
              waitPlayTimer.Stop.1 rest
          | none => ((handleTrackEnd env w sessionID).world, .crashed)
        else ((handleTrackEnd env w sessionID).world, .returned)) := by
  have hN : triggerStep env w sessionID timer waitPlayTimer .Next =
      ((handleSkipTrack env w sessionID).world,
        if (handleSkipTrack env w sessionID).err = none ∧
            (handleSkipTrack env w sessionID).nextTrack = true
        then .goOn (handleSkipTrack env w sessionID).timer waitPlayTimer.Stop.1
        else .ended) := by
    simp only [triggerStep]
    cases (handleSkipTrack env w sessionID).err with
    | some e => simp
    | none => cases (handleSkipTrack env w sessionID).nextTrack <;> simp
  have hX : triggerStep env w sessionID timer waitPlayTimer .Expire =
      ((handleTrackEnd env w sessionID).world,
        if (handleTrackEnd env w sessionID).err = none ∧
            (handleTrackEnd env w sessionID).nextTrack = true
        then .goOn (handleTrackEnd env w sessionID).timer waitPlayTimer.Stop.1
        else .ended) := by
    simp only [triggerStep]
    cases (handleTrackEnd env w sessionID).err with
    | some e => simp
    | none => cases (handleTrackEnd env w sessionID).nextTrack <;> simp
  refine ⟨⟨rfl, rfl, rfl, rfl⟩, ⟨rfl, rfl, rfl, rfl⟩, ⟨by decide, by decide, by decide⟩,
    hN, hX, ?_, ?_⟩
  · simp only [triggerLoop, hN]
    split_ifs with h
    · cases (handleSkipTrack env w sessionID).timer <;> rfl
    · rfl
  · simp only [triggerLoop, hX]
    split_ifs with h
    · cases (handleTrackEnd env w sessionID).timer <;> rfl
    · rfl

theorem startedLoops_append (xs ys : List Call) :
    startedLoops (xs ++ ys) = startedLoops xs ++ startedLoops ys := by
  induction xs with
  | nil => rfl
  | cons c cs ih => cases c <;> simp [startedLoops, ih]

/-- C15: for a session id known to the store, `CanConnectToPusher` returns nil
and starts a new scheduler loop for that id if and only if the timer registry
holds no timer for the id and the session is playing; when a timer exists or
the session is not playing it starts nothing. When `FindByID` fails, as it
does for an unknown id, it returns an error wrapping the error of the store
and starts nothing. -/
theorem C15_recovery_starts_loop_iff (env : RequestEnv) (w : World) (sessionID : String) :
    (∀ sess, env.FindFault = none → w.sessions sessionID = some sess →
      (SessionUseCase.CanConnectToPusher env w sessionID).2 = none ∧
      newCalls w (SessionUseCase.CanConnectToPusher env w sessionID).1 =
        (if w.timers sessionID = none ∧ sess.IsPlaying = true
          then [.FindByID sessionID, .StartTrackEndTrigger sessionID]
          else [.FindByID sessionID]) ∧
      startedLoops (newCalls w (SessionUseCase.CanConnectToPusher env w sessionID).1) =
        (if w.timers sessionID = none ∧ sess.StateType = .Play then [sessionID] else [])) ∧
    (∀ e, (World.FindByID env.toEnv w sessionID).2 = .error e →
      (SessionUseCase.CanConnectToPusher env w sessionID).2 =
        some (.fmtW ("find session id=" ++ sessionID) e) ∧
      errorsIs (.fmtW ("find session id=" ++ sessionID) e) e = true ∧
      newCalls w (SessionUseCase.CanConnectToPusher env w sessionID).1 =
        [.FindByID sessionID]) ∧
    (env.FindFault = none → w.sessions sessionID = none →
      (SessionUseCase.CanConnectToPusher env w sessionID).2 =
        some (.fmtW ("find session id=" ++ sessionID)
          (.fmtW "select session" ErrSessionNotFound)) ∧
      startedLoops (newCalls w (SessionUseCase.CanConnectToPusher env w sessionID).1) = []) := by
  refine ⟨?_, ?_, ?_⟩
  · intro sess hf hs
    by_cases h : w.timers sessionID = none ∧ sess.IsPlaying = true
    · have h' : w.timers sessionID = none ∧ sess.StateType = .Play := by
        simpa [Session.IsPlaying] using h
      simp [SessionUseCase.CanConnectToPusher, World.FindByID, hf, hs, World.GetTimer,
        World.log, newCalls, h.1, h.2, h'.2, startedLoops]
    · have h' : ¬(w.timers sessionID = none ∧ sess.StateType = .Play) := by
        simpa [Session.IsPlaying] using h
      simp only [SessionUseCase.CanConnectToPusher, World.FindByID, hf, hs, World.GetTimer,
        World.log, Option.isNone_iff_eq_none, h, h', if_false]
      simp [newCalls, startedLoops]
  · intro e he
    cases hf : env.FindFault with
    | some f =>
      simp only [World.FindByID, hf] at he
      cases he
      simp [SessionUseCase.CanConnectToPusher, World.FindByID, hf, World.log, newCalls,
        errorsIs]
    | none =>
      cases hs : w.sessions sessionID with
      | none =>
        simp only [World.FindByID, hf, hs] at he
        cases he
        simp [SessionUseCase.CanConnectToPusher, World.FindByID, hf, hs, World.log, newCalls,
          errorsIs]
      | some sess =>
        simp [World.FindByID, hf, hs] at he
  · intro hf hs
    simp [SessionUseCase.CanConnectToPusher, World.FindByID, hf, hs, World.log, newCalls,
      startedLoops]

/-- Witness of C15: after a restart the registry is empty; the loop is started
for the playing `sampleSession`, and not once it is paused. -/
theorem C15_recovery_starts_loop_iff_witness :
    startedLoops (newCalls (World.holding sampleSession)
      (SessionUseCase.CanConnectToPusher (requestEnv (envPlaying "a"))
        (World.holding sampleSession) "s").1) = ["s"] ∧
    (SessionUseCase.CanConnectToPusher (requestEnv (envPlaying "a")) World.empty "s").2 =
      some (.fmtW "find session id=s" (.fmtW "select session" ErrSessionNotFound)) :=
  ⟨((C15_recovery_starts_loop_iff (requestEnv (envPlaying "a")) (World.holding sampleSession)
      "s").1 sampleSession rfl (by decide)).2.2,
    ((C15_recovery_starts_loop_iff (requestEnv (envPlaying "a")) World.empty "s").2.2 rfl
      rfl).1⟩

/-- C19: for a session whose queue is empty, a request to change the playback
state to `Play` fails with an error `e` such that
`errors.Is(e, ErrQueueTrackNotFound)`; the only call made is the `FindByID`
that read the session: the store is unchanged, `Update` is not called, no
scheduler loop is started, no notification is pushed and the external player
is not called. -/
theorem C19_play_refuses_empty_queue (env : RequestEnv) (w : World) (sessionID : String)
    (sess : Session)
    (hf : env.FindFault = none)
    (hs : w.sessions sessionID = some sess)
    (hq : sess.QueueTracks = []) :
    (SessionUseCase.ChangePlaybackState env w sessionID .Play).2 =
      .returned (some (.fmtW ("play sessionID=" ++ sessionID)
        (.fmtW "play" ErrQueueTrackNotFound))) ∧
    errorsIs (.fmtW ("play sessionID=" ++ sessionID) (.fmtW "play" ErrQueueTrackNotFound))
      ErrQueueTrackNotFound = true ∧
    newCalls w (SessionUseCase.ChangePlaybackState env w sessionID .Play).1 =
      [.FindByID sessionID] ∧
    (SessionUseCase.ChangePlaybackState env w sessionID .Play).1.sessions = w.sessions ∧
    (SessionUseCase.ChangePlaybackState env w sessionID .Play).1.sessions sessionID =
      some sess ∧
    updated (newCalls w (SessionUseCase.ChangePlaybackState env w sessionID .Play).1) = [] ∧
    startedLoops (newCalls w (SessionUseCase.ChangePlaybackState env w sessionID .Play).1) =
      [] ∧
    pushed (newCalls w (SessionUseCase.ChangePlaybackState env w sessionID .Play).1) = [] := by
  have hp : SessionUseCase.play env w sessionID =
      (w.log (.FindByID sessionID), .returned (some (.fmtW "play" ErrQueueTrackNotFound))) := by
    simp [SessionUseCase.play, World.FindByID, hf, hs, hq]
  have hc : SessionUseCase.ChangePlaybackState env w sessionID .Play =
      (w.log (.FindByID sessionID), .returned (some (.fmtW ("play sessionID=" ++ sessionID)
        (.fmtW "play" ErrQueueTrackNotFound)))) := by
    simp [SessionUseCase.ChangePlaybackState, hp]
  rw [hc]
  refine ⟨rfl, ?_, ?_, rfl, hs, ?_, ?_, ?_⟩
  · simp [errorsIs, ErrQueueTrackNotFound]
  · simp [newCalls, World.log]
  · simp [newCalls, World.log, updated]
  · simp [newCalls, World.log, startedLoops]
  · simp [newCalls, World.log, pushed]

/-- Witness of C19: a play request for a session without any queued track. -/
theorem C19_play_refuses_empty_queue_witness :
    (SessionUseCase.ChangePlaybackState (requestEnv (envPlaying "a"))
      (World.holding { sampleSession with StateType := .Stop, QueueTracks := [] }) "s" .Play).2 =
      .returned (some (.fmtW "play sessionID=s" (.fmtW "play" ErrQueueTrackNotFound))) :=
  (C19_play_refuses_empty_queue (requestEnv (envPlaying "a"))
    (World.holding { sampleSession with StateType := .Stop, QueueTracks := [] }) "s"
    { sampleSession with StateType := .Stop, QueueTracks := [] } rfl (by decide) rfl).1

theorem wrapInt64_of_isInt64 (x : Int) (h : isInt64 x) : wrapInt64 x = x := by
  unfold isInt64 at h
  unfold wrapInt64
  omega

/-- Counterexample to C14 as stated: when the initial `CurrentlyPlaying` query
of `SessionTimerUseCase.startTrackEndTrigger` reports 10 s left, the first
timer is armed for 8 s, that is, with an offset of -2 s: the first expiry
fires before the reported end of the track. -/
theorem C14_counterexample :
    (envRemaining "a" 10000000000).CurrentlyPlaying = .ok ⟨"a", 10000000000, "d"⟩ ∧
    (startTrackEndTrigger World.empty "s" [(.WaitPlay, envRemaining "a" 10000000000)]).2 =
      .waiting ⟨"s", some 8000000000⟩ ∧
    (startTrackEndTrigger World.empty "s"
      [(.WaitPlay, envRemaining "a" 10000000000)]).1.timers "s" =
      some ⟨"s", some 8000000000⟩ ∧
    (8000000000 : Int) < 10000000000 := by
  refine ⟨rfl, by decide, by decide, by decide⟩

/-- C14, amended: when the initial `CurrentlyPlaying` query succeeds with the
remaining duration `r`, `SessionTimerUseCase.startTrackEndTrigger` arms its
timer for `r - 2 s`, a fixed offset of -2 s that does not depend on `r`, so
that the first expiry fires 2 s before the reported end of the track; the
inline `SessionUseCase.startTrackEndTrigger` creates its first timer armed for
`r + syncCheckOffset`, that is `r + 5 s`, which is never before the reported
end. Both hold for the durations whose offset value is an `int64`. -/
theorem C14_first_timer_offset (env : Env) (w : World) (sessionID : String)
    (timer : SyncCheckTimer) (playingInfo : CurrentPlayingInfo)
    (hcp : env.CurrentlyPlaying = .ok playingInfo) :
    (isInt64 (playingInfo.Remain - 2 * second) →
      (triggerStep env w sessionID timer .pending .WaitPlay).2 =
        .goOn (some { timer with duration := some (playingInfo.Remain - 2 * second) })
          .received ∧
      newCalls w (triggerStep env w sessionID timer .pending .WaitPlay).1 =
        [.CurrentlyPlaying, .SetTimer timer.sessionID (playingInfo.Remain - 2 * second)] ∧
      (triggerStep env w sessionID timer .fired .WaitPlay).2 =
        .goOn (some { timer with duration := some (playingInfo.Remain - 2 * second) })
          .received ∧
      newCalls w (triggerStep env w sessionID timer .fired .WaitPlay).1 =
        [.CurrentlyPlaying, .SetTimer timer.sessionID (playingInfo.Remain - 2 * second)] ∧
      playingInfo.Remain - 2 * second < playingInfo.Remain) ∧
    (isInt64 (playingInfo.Remain + syncCheckOffset) →
      (SessionUseCase.firstTimer env w sessionID).2 =
        some ⟨sessionID, some (playingInfo.Remain + syncCheckOffset)⟩ ∧
      (SessionUseCase.firstTimer env w sessionID).1.timers sessionID =
        some ⟨sessionID, some (playingInfo.Remain + syncCheckOffset)⟩ ∧
      syncCheckOffset = 5000000000 ∧
      playingInfo.Remain ≤ playingInfo.Remain + syncCheckOffset) := by
  constructor
  · intro h
    have h2 : wrapInt64 (2 * second) = 2 * second := by decide
    have h3 : wrapInt64 (playingInfo.Remain - 2 * second) = playingInfo.Remain - 2 * second :=
      wrapInt64_of_isInt64 _ h
    refine ⟨?_, ?_, ?_, ?_, ?_⟩
    · simp [triggerStep, hcp, h2, h3, World.SetTimer]
    · simp [triggerStep, hcp, h2, h3, World.SetTimer, World.log, newCalls]
    · simp [triggerStep, hcp, h2, h3, World.SetTimer]
    · simp [triggerStep, hcp, h2, h3, World.SetTimer, World.log, newCalls]
    · simp [second]
  · intro h
    have h3 := wrapInt64_of_isInt64 _ h
    refine ⟨?_, ?_, by decide, ?_⟩
    · simp [SessionUseCase.firstTimer, hcp, h3, World.SetTimer, World.CreateTimer]
    · simp [SessionUseCase.firstTimer, hcp, h3, World.SetTimer, World.CreateTimer, World.log]
    · simp [syncCheckOffset, second]

/-- Witness of C14: a snapshot with 10 s left gives a timer of 8 s in the timer
use case and of 15 s in the inline use case. -/
theorem C14_first_timer_offset_witness :
    (triggerStep (envRemaining "a" 10000000000) World.empty "s" ⟨"s", none⟩ .pending
        .WaitPlay).2 =
      .goOn (some ⟨"s", some (10000000000 - 2 * second)⟩) .received ∧
    (SessionUseCase.firstTimer (envRemaining "a" 10000000000) World.empty "s").2 =
      some ⟨"s", some (10000000000 + syncCheckOffset)⟩ :=
  ⟨((C14_first_timer_offset (envRemaining "a" 10000000000) World.empty "s" ⟨"s", none⟩
      ⟨"a", 10000000000, "d"⟩ rfl).1 (by unfold isInt64; decide)).1,
    ((C14_first_timer_offset (envRemaining "a" 10000000000) World.empty "s" ⟨"s", none⟩
      ⟨"a", 10000000000, "d"⟩ rfl).2 (by unfold isInt64; decide)).1⟩

/-- C16, at the failing inputs. (1) The initial `CurrentlyPlaying` query of
`startTrackEndTrigger` fails: the function returns, yet the registry still
holds the timer created before the loop, so that `CanConnectToPusher` starts no
loop for the session although it is playing. (2) An expiry cycle succeeds but
its final `Update` fails: the function returns on the error, yet the registry
holds the timer the cycle has just created and armed. -/
theorem C16_timer_left_behind :
    ((startTrackEndTrigger (World.holding sampleSession) "s"
        [(.WaitPlay, envPlayerError (.sentinel "timeout"))]).2 = .returned ∧
      (startTrackEndTrigger (World.holding sampleSession) "s"
        [(.WaitPlay, envPlayerError (.sentinel "timeout"))]).1.timers "s" =
        some ⟨"s", none⟩ ∧
      sampleSession.IsPlaying = true ∧
      startedLoops (newCalls
        (startTrackEndTrigger (World.holding sampleSession) "s"
          [(.WaitPlay, envPlayerError (.sentinel "timeout"))]).1
        (SessionUseCase.CanConnectToPusher (requestEnv (envPlaying "a"))
          (startTrackEndTrigger (World.holding sampleSession) "s"
            [(.WaitPlay, envPlayerError (.sentinel "timeout"))]).1 "s").1) = []) ∧
    ((startTrackEndTrigger (World.holding sampleSession) "s"
        [(.WaitPlay, envPlaying "a"), (.Expire, withUpdateFailure (envPlaying "b"))]).2 =
        .returned ∧
      (startTrackEndTrigger (World.holding sampleSession) "s"
        [(.WaitPlay, envPlaying "a"),
          (.Expire, withUpdateFailure (envPlaying "b"))]).1.timers "s" =
        some ⟨"s", some 1000000000⟩) := by
  refine ⟨⟨by decide, by decide, by decide, by decide⟩, by decide, by decide⟩

theorem sqlMax_append_singleton (l : List Int) (x : Int) :
    sqlMax (l ++ [x]) = some (match sqlMax l with
      | none => x
      | some m => max m x) := by
  induction l with
  | nil => rfl
  | cons y ys ih =>
    have h1 : sqlMax (y :: (ys ++ [x])) = (match sqlMax (ys ++ [x]) with
        | none => some y
        | some m => some (max y m)) := rfl
    have h2 : sqlMax (y :: ys) = (match sqlMax ys with
        | none => some y
        | some m => some (max y m)) := rfl
    rw [List.cons_append, h1, ih, h2]
    cases sqlMax ys with
    | none => simp [max_comm]
    | some m => simp [max_assoc]

theorem sqlMax_spec (l : List Int) :
    (sqlMax l = none ↔ l = []) ∧
      ∀ m, sqlMax l = some m → m ∈ l ∧ ∀ x ∈ l, x ≤ m := by
  induction l with
  | nil => simp [sqlMax]
  | cons y ys ih =>
    constructor
    · simp only [sqlMax]
      cases sqlMax ys <;> simp
    · intro m hm
      simp only [sqlMax] at hm
      cases h : sqlMax ys with
      | none =>
        rw [h] at hm
        have hys : ys = [] := ih.1.mp h
        simp at hm
        subst hm hys
        simp
      | some n =>
        rw [h] at hm
        simp at hm
        obtain ⟨hn, hle⟩ := ih.2 n h
        subst hm
        constructor
        · rcases le_total y n with h1 | h1
          · rw [max_eq_right h1]; exact List.mem_cons_of_mem _ hn
          · rw [max_eq_left h1]; exact List.mem_cons_self _ _
        · intro x hx
          rcases List.mem_cons.mp hx with rfl | hx
          · exact le_max_left _ _
          · exact le_trans (hle x hx) (le_max_right _ _)

theorem rowsOf_append_row (table : List queueTrackDTO) (row : queueTrackDTO) (id : String) :
    rowsOf (table ++ [row]) id =
      rowsOf table id ++ (if row.SessionID = id then [row] else []) := by
  unfold rowsOf
  rw [List.filter_append]
  by_cases h : row.SessionID = id <;> simp [h]

theorem storeEach_rows (id : String) (uris : List String) :
    ∀ (table : List queueTrackDTO) (k : Nat),
      (sqlMax ((rowsOf table id).map (fun row => row.Index))).getD (-1) + 1 = (k : Int) →
      rowsOf (storeEach table id uris) id = rowsOf table id ++ numberedRows id k uris ∧
      (∀ other, other ≠ id → rowsOf (storeEach table id uris) other = rowsOf table other) ∧
      table <+: storeEach table id uris := by
  induction uris with
  | nil =>
    intro table k _
    simp [storeEach, numberedRows]
  | cons uri rest ih =>
    intro table k hk
    have hnext : (sqlMax ((rowsOf (table ++ [⟨(k : Int), uri, id⟩]) id).map
        (fun row => row.Index))).getD (-1) + 1 = ((k + 1 : Nat) : Int) := by
      rw [rowsOf_append_row]
      simp only [if_true, List.map_append, List.map_cons, List.map_nil,
        sqlMax_append_singleton]
      cases h : sqlMax ((rowsOf table id).map (fun row => row.Index)) with
      | none => simp
      | some m =>
        rw [h] at hk
        simp at hk
        have : max m (k : Int) = k := max_eq_right (by omega)
        simp [this]
    obtain ⟨h1, h2, h3⟩ := ih (table ++ [⟨(k : Int), uri, id⟩]) (k + 1) hnext
    have hstep : storeEach table id (uri :: rest) =
        storeEach (table ++ [⟨(k : Int), uri, id⟩]) id rest := by
      simp [storeEach, StoreQueueTrack, hk]
    rw [hstep]
    refine ⟨?_, ?_, ?_⟩
    · rw [h1, rowsOf_append_row]
      simp [numberedRows]
    · intro other ho
      rw [h2 other ho, rowsOf_append_row]
      simp [Ne.symm ho]
    · exact (List.prefix_append _ _).trans h3

theorem numberedRows_lower (id : String) (uris : List String) :
    ∀ (k : Nat), ∀ row ∈ numberedRows id k uris, (k : Int) ≤ row.Index := by
  induction uris with
  | nil => intro k row h; simp [numberedRows] at h
  | cons uri rest ih =>
    intro k row h
    simp only [numberedRows, List.mem_cons] at h
    rcases h with rfl | h
    · simp
    · have := ih (k + 1) row h
      omega

theorem numberedRows_sorted (id : String) (uris : List String) :
    ∀ (k : Nat), (numberedRows id k uris).Sorted (fun a b => a.Index ≤ b.Index) := by
  induction uris with
  | nil => intro k; simp [numberedRows]
  | cons uri rest ih =>
    intro k
    simp only [numberedRows, List.sorted_cons]
    refine ⟨?_, ih (k + 1)⟩
    intro row h
    have := numberedRows_lower id rest (k + 1) row h
    show (k : Int) ≤ row.Index
    omega

theorem numberedRows_index (id : String) (uris : List String) :
    ∀ (k : Nat), (numberedRows id k uris).map (fun row => row.Index) =
      (List.range' k uris.length).map Int.ofNat := by
  induction uris with
  | nil => intro k; rfl
  | cons uri rest ih =>
    intro k
    simp [numberedRows, List.range', ih (k + 1)]

theorem numberedRows_uri (id : String) (uris : List String) :
    ∀ (k : Nat), (numberedRows id k uris).map (fun row => row.URI) = uris := by
  induction uris with
  | nil => intro k; rfl
  | cons uri rest ih =>
    intro k
    simp [numberedRows, ih (k + 1)]

/-- C17: the table `queue_tracks` being a list of rows, `StoreQueueTrack` adds
for the given session one row whose index is the maximum index among the rows
of that session plus one, or 0 when the session has none, and leaves every
existing row, of this and of other sessions, in place. Hence the calls for the
URIs `uris`, made one after the other on a session without rows, give exactly
the indices 0 to N-1, without gap or duplicate, in insertion order, and
`getQueueTracksBySessionID` returns them in that order. -/
theorem C17_store_assigns_contiguous_indices (table : List queueTrackDTO)
    (queueTrack : QueueTrackToStore) (sessionID : String) (uris : List String) :
    (∃ index : Int,
      StoreQueueTrack none table queueTrack =
        (table ++ [{ Index := index, URI := queueTrack.URI,
                     SessionID := queueTrack.SessionID }], none) ∧
      (rowsOf table queueTrack.SessionID = [] → index = 0) ∧
      (∀ m, sqlMax ((rowsOf table queueTrack.SessionID).map (fun row => row.Index)) = some m →
        index = m + 1 ∧
        (∃ row ∈ rowsOf table queueTrack.SessionID, row.Index = m) ∧
        ∀ row ∈ rowsOf table queueTrack.SessionID, row.Index ≤ m) ∧
      (rowsOf table queueTrack.SessionID ≠ [] →
        ∃ m, sqlMax ((rowsOf table queueTrack.SessionID).map (fun row => row.Index)) =
          some m)) ∧
    (rowsOf table sessionID = [] →
      rowsOf (storeEach table sessionID uris) sessionID = numberedRows sessionID 0 uris ∧
      (numberedRows sessionID 0 uris).map (fun row => row.Index) =
        (List.range uris.length).map Int.ofNat ∧
      (numberedRows sessionID 0 uris).map (fun row => row.URI) = uris ∧
      getQueueTracksBySessionID none (storeEach table sessionID uris) sessionID =
        .ok (toQueueTracks (numberedRows sessionID 0 uris)) ∧
      (∀ other, other ≠ sessionID →
        rowsOf (storeEach table sessionID uris) other = rowsOf table other) ∧
      table <+: storeEach table sessionID uris) := by
  constructor
  · refine ⟨_, rfl, ?_, ?_, ?_⟩
    · intro h
      simp [h, sqlMax]
    · intro m hm
      obtain ⟨hmem, hle⟩ :=
        (sqlMax_spec ((rowsOf table queueTrack.SessionID).map (fun row => row.Index))).2 m hm
      refine ⟨by simp [hm], ?_, ?_⟩
      · obtain ⟨row, hrow, hidx⟩ := List.mem_map.mp hmem
        exact ⟨row, hrow, hidx⟩
      · intro row hrow
        exact hle _ (List.mem_map.mpr ⟨row, hrow, rfl⟩)
    · intro hne
      cases h : sqlMax ((rowsOf table queueTrack.SessionID).map (fun row => row.Index)) with
      | some m => exact ⟨m, rfl⟩
      | none =>
        have := (sqlMax_spec _).1.mp h
        simp at this
        exact absurd this hne
  · intro hempty
    have hk : (sqlMax ((rowsOf table sessionID).map (fun row => row.Index))).getD (-1) + 1 =
        ((0 : Nat) : Int) := by
      simp [hempty, sqlMax]
    obtain ⟨h1, h2, h3⟩ := storeEach_rows sessionID uris table 0 hk
    rw [hempty, List.nil_append] at h1
    refine ⟨h1, ?_, numberedRows_uri sessionID uris 0, ?_, h2, h3⟩
    · rw [numberedRows_index, List.range_eq_range']
    · simp only [getQueueTracksBySessionID, h1]
      rw [List.Sorted.insertionSort_eq (numberedRows_sorted sessionID uris 0)]

/-- Witness of C17: three tracks stored for the session `s` in a table that
holds a row of another session. -/
theorem C17_store_assigns_contiguous_indices_witness :
    getQueueTracksBySessionID none (storeEach [⟨0, "x", "t"⟩] "s" ["a", "b", "c"]) "s" =
      .ok [⟨0, "a", "s"⟩, ⟨1, "b", "s"⟩, ⟨2, "c", "s"⟩] ∧
    ((StoreQueueTrack none [⟨0, "x", "t"⟩, ⟨4, "y", "s"⟩] ⟨"z", "s"⟩).1.map
      (fun row => row.Index)) = [0, 4, 5] :=
  ⟨((C17_store_assigns_contiguous_indices [⟨0, "x", "t"⟩] ⟨"a", "s"⟩ "s"
      ["a", "b", "c"]).2 (by decide)).2.2.2.1,
    by
      obtain ⟨index, h, _, hm, _⟩ :=
        (C17_store_assigns_contiguous_indices [⟨0, "x", "t"⟩, ⟨4, "y", "s"⟩] ⟨"z", "s"⟩ "s"
          []).1
      rw [h, (hm 4 (by decide)).1]
      rfl⟩

theorem errorsIs_fmtW (msg : String) (e target : GoError) (h : errorsIs e target = true) :
    errorsIs (.fmtW msg e) target = true := by
  simp [errorsIs, h]

/-- C26: when `FindByID` fails with an error `e` such that
`errors.Is(e, ErrSessionNotFound)`, as it does for an id unknown to the store,
`ChangePlaybackState` with `Play` and with `Pause` returns an error for which
`errors.Is(_, ErrSessionNotFound)` still holds after the two wrappings, and the
only call made is that `FindByID`: no call to the external player, no `Update`,
no timer operation and no push. -/
theorem C26_unknown_session_is_reported (env : RequestEnv) (w : World) (sessionID : String)
    (e : GoError)
    (hfind : (World.FindByID env.toEnv w sessionID).2 = .error e)
    (he : errorsIs e ErrSessionNotFound = true) :
    (∃ err, (SessionUseCase.ChangePlaybackState env w sessionID .Play).2 =
        .returned (some err) ∧ errorsIs err ErrSessionNotFound = true) ∧
    newCalls w (SessionUseCase.ChangePlaybackState env w sessionID .Play).1 =
      [.FindByID sessionID] ∧
    (∃ err, (SessionUseCase.ChangePlaybackState env w sessionID .Pause).2 =
        .returned (some err) ∧ errorsIs err ErrSessionNotFound = true) ∧
    newCalls w (SessionUseCase.ChangePlaybackState env w sessionID .Pause).1 =
      [.FindByID sessionID] ∧
    (SessionUseCase.ChangePlaybackState env w sessionID .Play).1.sessions = w.sessions ∧
    (SessionUseCase.ChangePlaybackState env w sessionID .Pause).1.sessions = w.sessions ∧
    (SessionUseCase.ChangePlaybackState env w sessionID .Play).1.timers = w.timers ∧
    (SessionUseCase.ChangePlaybackState env w sessionID .Pause).1.timers = w.timers := by
  have hw : (World.FindByID env.toEnv w sessionID).1 = w.log (.FindByID sessionID) := by
    unfold World.FindByID
    cases env.FindFault with
    | some f => rfl
    | none => cases w.sessions sessionID <;> rfl
  have hfull : World.FindByID env.toEnv w sessionID =
      (w.log (.FindByID sessionID), .error e) := by
    rw [← hw, ← hfind]
  have hplay : SessionUseCase.ChangePlaybackState env w sessionID .Play =
      (w.log (.FindByID sessionID), .returned (some (.fmtW ("play sessionID=" ++ sessionID)
        (.fmtW ("find session id=" ++ sessionID) e)))) := by
    simp [SessionUseCase.ChangePlaybackState, SessionUseCase.play, hfull]
  have hpause : SessionUseCase.ChangePlaybackState env w sessionID .Pause =
      (w.log (.FindByID sessionID), .returned (some (.fmtW ("pause sessionID=" ++ sessionID)
        (.fmtW ("find session id=" ++ sessionID) e)))) := by
    simp [SessionUseCase.ChangePlaybackState, SessionUseCase.pause, hfull]
  rw [hplay, hpause]
  refine ⟨⟨_, rfl, errorsIs_fmtW _ _ _ (errorsIs_fmtW _ _ _ he)⟩, ?_,
    ⟨_, rfl, errorsIs_fmtW _ _ _ (errorsIs_fmtW _ _ _ he)⟩, ?_, rfl, rfl, rfl, rfl⟩
  · simp [newCalls, World.log]
  · simp [newCalls, World.log]

/-- Witness of C26: a play request for the id `s` on an empty store. -/
theorem C26_unknown_session_is_reported_witness :
    newCalls World.empty (SessionUseCase.ChangePlaybackState (requestEnv (envPlaying "a"))
      World.empty "s" .Play).1 = [.FindByID "s"] ∧
    newCalls World.empty (SessionUseCase.ChangePlaybackState (requestEnv (envPlaying "a"))
      World.empty "s" .Pause).1 = [.FindByID "s"] :=
  have h := C26_unknown_session_is_reported (requestEnv (envPlaying "a")) World.empty "s"
    (.fmtW "select session" ErrSessionNotFound) rfl (by decide)
  ⟨h.2.1, h.2.2.2.1⟩

/-- C27, at the failing input: the name `"ARCHIVED"` of the state `Archived` is
not in `stateTypes`, so `NewStateType` rejects it with `ErrInvalidStateType`
instead of returning `Archived`. For the three other states the round trip
`NewStateType(st.String()) = st` holds, and `"INVALID"` is rejected. -/
theorem C27_archived_name_is_rejected :
    StateType.Archived.String = "ARCHIVED" ∧
    NewStateType "ARCHIVED" =
      .error (.fmtW "stateType = ARCHIVED" ErrInvalidStateType) ∧
    NewStateType StateType.Play.String = .ok .Play ∧
    NewStateType StateType.Pause.String = .ok .Pause ∧
    NewStateType StateType.Stop.String = .ok .Stop ∧
    NewStateType "INVALID" = .error (.fmtW "stateType = INVALID" ErrInvalidStateType) := by
  refine ⟨rfl, rfl, rfl, rfl, rfl, rfl⟩

/-- C28, at the failing input: `ChangePlaybackState` with the state `Stop` falls
through its `switch`: it returns nil and calls nothing, whatever the session,
so a request to stop a playing session is not rejected. -/
theorem C28_stop_request_is_not_rejected (env : RequestEnv) (w : World) (sessionID : String) :
    SessionUseCase.ChangePlaybackState env w sessionID .Stop = (w, .returned none) ∧
    (SessionUseCase.ChangePlaybackState (requestEnv (envPlaying "a"))
      (World.holding sampleSession) "s" .Stop).2 = .returned none ∧
    sampleSession.StateType = .Play :=
  ⟨rfl, rfl, rfl⟩

/-- C30: for a session whose state is neither `Play` nor `Pause`, when the
external `Pause` call succeeds or fails with `ErrActiveDeviceNotFound`,
`SessionUseCase.pause` returns an error wrapping
`ErrChangeSessionStateNotPermit`, calls no `Update` and pushes no notification,
but has by then issued the external `Pause` call and stopped the timer of the
session: the calls are `FindByID`, `Pause`, `StopTimer`. -/
theorem C30_refused_pause_has_side_effects (env : RequestEnv) (w : World) (sessionID : String)
    (sess : Session)
    (hf : env.FindFault = none)
    (hs : w.sessions sessionID = some sess)
    (hst : sess.StateType ≠ .Play ∧ sess.StateType ≠ .Pause)
    (hp : env.Pause "" = none ∨
      ∃ e, env.Pause "" = some e ∧ errorsIs e ErrActiveDeviceNotFound = true) :
    (∃ err, (SessionUseCase.pause env w sessionID).2 = some err ∧
      errorsIs err ErrChangeSessionStateNotPermit = true) ∧
    newCalls w (SessionUseCase.pause env w sessionID).1 =
      [.FindByID sessionID, .Pause "", .StopTimer sessionID] ∧
    updated (newCalls w (SessionUseCase.pause env w sessionID).1) = [] ∧
    pushed (newCalls w (SessionUseCase.pause env w sessionID).1) = [] ∧
    (SessionUseCase.pause env w sessionID).1.sessions = w.sessions := by
  have hn : ¬(sess.StateType = .Play ∨ sess.StateType = .Pause) := by
    rintro (h | h)
    · exact hst.1 h
    · exact hst.2 h
  have hval : SessionUseCase.pause env w sessionID =
      (((w.log (.FindByID sessionID)).log (.Pause "")).StopTimer sessionID,
        some (.fmtW ("move to pause id=" ++ sessionID)
          (.fmtW ("state type from " ++ sess.StateType.String ++ " to Pause")
            ErrChangeSessionStateNotPermit))) := by
    rcases hp with h | ⟨e, h, he⟩
    · simp [SessionUseCase.pause, World.FindByID, hf, hs, h, Session.MoveToPause, hn]
    · simp [SessionUseCase.pause, World.FindByID, hf, hs, h, he, Session.MoveToPause, hn]
  rw [hval]
  refine ⟨⟨_, rfl, ?_⟩, ?_, ?_, ?_, rfl⟩
  · exact errorsIs_fmtW _ _ _ (errorsIs_fmtW _ _ _ (by decide))
  · simp [newCalls, World.log, World.StopTimer]
  · simp [newCalls, World.log, World.StopTimer, updated]
  · simp [newCalls, World.log, World.StopTimer, pushed]

/-- Witness of C30: a pause request for the stopped session `sampleStopped3`
while its device is offline. -/
theorem C30_refused_pause_has_side_effects_witness :
    newCalls (World.holding sampleStopped3)
      (SessionUseCase.pause (withPauseFailure (requestEnv (envPlaying "a"))
        ErrActiveDeviceNotFound) (World.holding sampleStopped3) "s").1 =
      [.FindByID "s", .Pause "", .StopTimer "s"] :=
  (C30_refused_pause_has_side_effects
    (withPauseFailure (requestEnv (envPlaying "a")) ErrActiveDeviceNotFound)
    (World.holding sampleStopped3) "s" sampleStopped3 rfl (by decide)
    ⟨by decide, by decide⟩ (Or.inr ⟨_, rfl, by decide⟩)).2.1

/-- C21: `SetDevice` changes the device of a session only for its creator. When
the user id of the context is the `CreatorID` of the session, `Update` is
called once, with the session whose `DeviceID` is the given device and whose
other fields are unchanged, and when the store accepts it the call returns nil
and the store holds that session. When the user id differs from `CreatorID`,
the call fails with an error wrapping `ErrUserIsNotSessionCreator`, `Update` is
never called and the store is unchanged. -/
theorem C21_setDevice_only_for_creator (env : RequestEnv) (w : World) (userID : String)
    (sessionID deviceID : String) (sess : Session)
    (hf : env.FindFault = none)
    (hs : w.sessions sessionID = some sess) :
    (sess.CreatorID = userID →
      newCalls w (SessionUseCase.SetDevice env w (some userID) sessionID deviceID).1 =
        [.FindByID sessionID, .Update { sess with DeviceID := deviceID }] ∧
      updated (newCalls w (SessionUseCase.SetDevice env w (some userID) sessionID deviceID).1) =
        [{ sess with DeviceID := deviceID }] ∧
      (env.Update { sess with DeviceID := deviceID } = none →
        (SessionUseCase.SetDevice env w (some userID) sessionID deviceID).2 = none ∧
        (SessionUseCase.SetDevice env w (some userID) sessionID deviceID).1.sessions sess.ID =
          some { sess with DeviceID := deviceID })) ∧
    (sess.CreatorID ≠ userID →
      (∃ err, (SessionUseCase.SetDevice env w (some userID) sessionID deviceID).2 = some err ∧
        err.Unwrap = some ErrUserIsNotSessionCreator ∧
        errorsIs err ErrUserIsNotSessionCreator = true) ∧
      newCalls w (SessionUseCase.SetDevice env w (some userID) sessionID deviceID).1 =
        [.FindByID sessionID] ∧
      updated (newCalls w (SessionUseCase.SetDevice env w (some userID) sessionID deviceID).1) =
        [] ∧
      (SessionUseCase.SetDevice env w (some userID) sessionID deviceID).1.sessions =
        w.sessions) := by
  constructor
  · intro hc
    subst hc
    cases hu : env.Update { sess with DeviceID := deviceID } with
    | none =>
      simp [SessionUseCase.SetDevice, World.FindByID, hf, hs, Session.IsCreator,
        World.Update, hu, World.log, newCalls, updated]
    | some e =>
      simp [SessionUseCase.SetDevice, World.FindByID, hf, hs, Session.IsCreator,
        World.Update, hu, World.log, newCalls, updated]
  · intro hc
    have hval : SessionUseCase.SetDevice env w (some userID) sessionID deviceID =
        (w.log (.FindByID sessionID),
          some (.fmtW ("userID=" ++ userID ++ " creatorID=" ++ sess.CreatorID)
            ErrUserIsNotSessionCreator)) := by
      simp [SessionUseCase.SetDevice, World.FindByID, hf, hs, Session.IsCreator, hc]
    rw [hval]
    refine ⟨⟨_, rfl, rfl, errorsIs_fmtW _ _ _ (by decide)⟩, ?_, ?_, rfl⟩
    · simp [newCalls, World.log]
    · simp [newCalls, World.log, updated]

/-- Witness of C21: the creator `u` of `sampleSession` sets the device `d2`;
the user `v` is refused. -/
theorem C21_setDevice_only_for_creator_witness :
    (SessionUseCase.SetDevice (requestEnv (envPlaying "a")) (World.holding sampleSession)
        (some "u") "s" "d2").1.sessions "s" = some { sampleSession with DeviceID := "d2" } ∧
    (SessionUseCase.SetDevice (requestEnv (envPlaying "a")) (World.holding sampleSession)
        (some "v") "s" "d2").1.sessions = (World.holding sampleSession).sessions :=
  ⟨(((C21_setDevice_only_for_creator (requestEnv (envPlaying "a"))
      (World.holding sampleSession) "u" "s" "d2" sampleSession rfl (by decide)).1
      (by decide)).2.2 rfl).2,
    ((C21_setDevice_only_for_creator (requestEnv (envPlaying "a"))
      (World.holding sampleSession) "v" "s" "d2" sampleSession rfl (by decide)).2
      (by decide)).2.2.2⟩

/-- Counterexample to C22 as stated: `sampleSession` is in state `Play` and the
external `Pause` call succeeds, yet when `Update` fails the pause request
fails and no pause notification is pushed. -/
theorem C22_counterexample :
    sampleSession.StateType = .Play ∧
    (requestEnv (withUpdateFailure (envPlaying "a"))).Pause "" = none ∧
    (SessionUseCase.ChangePlaybackState (requestEnv (withUpdateFailure (envPlaying "a")))
      (World.holding sampleSession) "s" .Pause).2 =
      .returned (some (.fmtW "pause sessionID=s"
        (.fmtW "update session id=s" (.sentinel "db")))) ∧
    pushed (newCalls (World.holding sampleSession)
      (SessionUseCase.ChangePlaybackState (requestEnv (withUpdateFailure (envPlaying "a")))
        (World.holding sampleSession) "s" .Pause).1) = [] := by
  refine ⟨rfl, rfl, by decide, by decide⟩

/-- C22, amended: for a session in state `Play` or `Pause`, when the external
`Pause` call succeeds or fails with `ErrActiveDeviceNotFound`, the pause
request calls `Update` exactly once, with the session in state `Pause` and all
other fields unchanged, and when that `Update` succeeds the request succeeds
and exactly one pause notification is pushed; when the external `Pause` call
fails with any other error the request fails, the session is not updated and
no notification is pushed. -/
theorem C22_pause_tolerates_offline_device (env : RequestEnv) (w : World)
    (sessionID : String) (sess : Session)
    (hf : env.FindFault = none)
    (hs : w.sessions sessionID = some sess)
    (hst : sess.StateType = .Play ∨ sess.StateType = .Pause) :
    ((env.Pause "" = none ∨
        ∃ e, env.Pause "" = some e ∧ errorsIs e ErrActiveDeviceNotFound = true) →
      updated (newCalls w (SessionUseCase.pause env w sessionID).1) =
        [{ sess with StateType := .Pause }] ∧
      (env.Update { sess with StateType := .Pause } = none →
        (SessionUseCase.pause env w sessionID).2 = none ∧
        (SessionUseCase.ChangePlaybackState env w sessionID .Pause).2 = .returned none ∧
        newCalls w (SessionUseCase.pause env w sessionID).1 =
          [.FindByID sessionID, .Pause "", .StopTimer sessionID,
            .Update { sess with StateType := .Pause },
            .Push ⟨sessionID, .Pause⟩] ∧
        pushed (newCalls w (SessionUseCase.pause env w sessionID).1) =
          [⟨sessionID, .Pause⟩] ∧
        (SessionUseCase.pause env w sessionID).1.sessions sess.ID =
          some { sess with StateType := .Pause })) ∧
    (∀ e, env.Pause "" = some e → errorsIs e ErrActiveDeviceNotFound = false →
      (SessionUseCase.pause env w sessionID).2 = some (.fmtW "call pause api" e) ∧
      (SessionUseCase.ChangePlaybackState env w sessionID .Pause).2 =
        .returned (some (.fmtW ("pause sessionID=" ++ sessionID)
          (.fmtW "call pause api" e))) ∧
      newCalls w (SessionUseCase.pause env w sessionID).1 =
        [.FindByID sessionID, .Pause ""] ∧
      updated (newCalls w (SessionUseCase.pause env w sessionID).1) = [] ∧
      pushed (newCalls w (SessionUseCase.pause env w sessionID).1) = [] ∧
      (SessionUseCase.pause env w sessionID).1.sessions = w.sessions) := by
  constructor
  · intro hp
    cases hu : env.Update { sess with StateType := .Pause } with
    | none =>
      rcases hp with h | ⟨e, h, he⟩
      · simp [SessionUseCase.ChangePlaybackState, SessionUseCase.pause, World.FindByID, hf, hs,
          h, Session.MoveToPause, hst, World.Update, hu, World.log, World.StopTimer,
          World.Push, newCalls, updated, pushed]
      · simp [SessionUseCase.ChangePlaybackState, SessionUseCase.pause, World.FindByID, hf, hs,
          h, he, Session.MoveToPause, hst, World.Update, hu, World.log, World.StopTimer,
          World.Push, newCalls, updated, pushed]
    | some u =>
      rcases hp with h | ⟨e, h, he⟩
      · simp [SessionUseCase.pause, World.FindByID, hf, hs,
          h, Session.MoveToPause, hst, World.Update, hu, World.log, World.StopTimer,
          newCalls, updated]
      · simp [SessionUseCase.pause, World.FindByID, hf, hs,
          h, he, Session.MoveToPause, hst, World.Update, hu, World.log, World.StopTimer,
          newCalls, updated]
  · intro e h he
    simp [SessionUseCase.ChangePlaybackState, SessionUseCase.pause, World.FindByID, hf, hs, h,
      he, World.log, newCalls, updated, pushed]

/-- Witness of C22: pausing the playing `sampleSession` while its device is
offline, with a store that does not fail. -/
theorem C22_pause_tolerates_offline_device_witness :
    pushed (newCalls (World.holding sampleSession)
      (SessionUseCase.pause (withPauseFailure (requestEnv (envPlaying "a"))
        ErrActiveDeviceNotFound) (World.holding sampleSession) "s").1) = [⟨"s", .Pause⟩] ∧
    (SessionUseCase.pause (withPauseFailure (requestEnv (envPlaying "a")) (.sentinel "api"))
      (World.holding sampleSession) "s").2 =
      some (.fmtW "call pause api" (.sentinel "api")) :=
  ⟨(((C22_pause_tolerates_offline_device
      (withPauseFailure (requestEnv (envPlaying "a")) ErrActiveDeviceNotFound)
      (World.holding sampleSession) "s" sampleSession rfl (by decide) (Or.inl rfl)).1
      (Or.inr ⟨_, rfl, by decide⟩)).2 rfl).2.2.2.1,
    ((C22_pause_tolerates_offline_device
      (withPauseFailure (requestEnv (envPlaying "a")) (.sentinel "api"))
      (World.holding sampleSession) "s" sampleSession rfl (by decide) (Or.inl rfl)).2
      _ rfl (by decide)).1⟩

theorem body_resp_shape (env : Env) (w : World) (sess : Session) :
    ((updateForHandleNextTrackBody env w sess).resp.triggerAfterTrackEnd.isSome =
        (updateForHandleNextTrackBody env w sess).resp.nextTrack) ∧
      ((updateForHandleNextTrackBody env w sess).resp.nextTrack = true →
        (updateForHandleNextTrackBody env w sess).resp.err = none) := by
  unfold updateForHandleNextTrackBody
  dsimp only
  by_cases ht : sess.GoNextTrack.1.TrackURIShouldBeAddedWhenHandleTrackEnd = ""
  · simp only [ht, ne_eq, not_true_eq_false, if_false]
    repeat' split
    all_goals simp_all [handleInterrupt, World.CreateTimer, World.SetTimer]
  · cases he : env.Enqueue sess.GoNextTrack.1.TrackURIShouldBeAddedWhenHandleTrackEnd
        sess.GoNextTrack.1.DeviceID
    all_goals simp only [ht, ne_eq, not_false_eq_true, if_true, he]
    all_goals repeat' split
    all_goals simp_all [handleInterrupt, World.CreateTimer, World.SetTimer]

theorem cycleOutcome_shape (w : World) (env : Env) (w1 : World) (sess : Session) :
    ((cycleOutcome w (UpdateForHandleNextTrackTx env w1 sess)).timer.isSome =
        (cycleOutcome w (UpdateForHandleNextTrackTx env w1 sess)).nextTrack) ∧
      ((cycleOutcome w (UpdateForHandleNextTrackTx env w1 sess)).nextTrack = true →
        (cycleOutcome w (UpdateForHandleNextTrackTx env w1 sess)).err = none ∧
        (UpdateForHandleNextTrackTx env w1 sess).returnErr = none) := by
  obtain ⟨h1, h2⟩ := body_resp_shape env w1 sess
  cases hr : (UpdateForHandleNextTrackTx env w1 sess).returnErr with
  | none =>
    simp only [cycleOutcome, hr, tx_resp]
    exact ⟨h1, fun h => ⟨h2 h, trivial⟩⟩
  | some e =>
    simp [cycleOutcome, hr]

theorem skipWorld_calls (w : World) (id : String) :
    (skipWorld w id).calls = w.calls ++
      [.DeleteTimer id, .FindByIDForUpdate id, .Sleep 300000000] := by
  simp [skipWorld, World.DeleteTimer, World.log]

theorem cycle_committed (env : Env) (w w1 : World) (sess : Session) (before : List Call)
    (hcalls : w1.calls = w.calls ++ before) (hbefore : updated before = [])
    (hr : (UpdateForHandleNextTrackTx env w1 sess).returnErr = none) :
    updated (newCalls w (UpdateForHandleNextTrackTx env w1 sess).world) =
        [(UpdateForHandleNextTrackTx env w1 sess).sess] ∧
      (UpdateForHandleNextTrackTx env w1 sess).world.sessions
        (UpdateForHandleNextTrackTx env w1 sess).sess.ID =
        some (UpdateForHandleNextTrackTx env w1 sess).sess := by
  have hu : env.Update (updateForHandleNextTrackBody env w1 sess).sess = none := by
    rw [tx_returnErr_eq] at hr
    cases h : env.Update (updateForHandleNextTrackBody env w1 sess).sess with
    | none => rfl
    | some e => rw [h] at hr; simp at hr
  obtain ⟨b1, b2⟩ := body_calls env w1 sess
  constructor
  · rw [newCalls_of_append w _ (before ++
      (newCalls w1 (updateForHandleNextTrackBody env w1 sess).world ++
        [.Update (updateForHandleNextTrackBody env w1 sess).sess]))]
    · rw [updated_append, updated_append, hbefore, b2, tx_sess]
      rfl
    · rw [tx_calls, b1, hcalls]
      simp [List.append_assoc]
  · rw [tx_sessions_ok env w1 sess hu, tx_sess]
    simp

/-- C29: for every outcome `(timer, nextTrack, err)` of `handleTrackEnd` and of
`handleSkipTrack`, under every behaviour of the store, the player and the
pusher, the timer is non-nil if and only if `nextTrack` is true, and
`nextTrack = true` implies that `err` is nil and that the transaction has
committed, the store holding the one session handed to `Update`: a next timer
is handed to the scheduler loop only by a fully successful cycle. -/
theorem C29_timer_iff_next_track (env : Env) (w : World) (sessionID : String) :
    (((handleTrackEnd env w sessionID).timer.isSome = true ↔
        (handleTrackEnd env w sessionID).nextTrack = true) ∧
      ((handleTrackEnd env w sessionID).nextTrack = true →
        (handleTrackEnd env w sessionID).err = none ∧
        ∃ s, updated (newCalls w (handleTrackEnd env w sessionID).world) = [s] ∧
          (handleTrackEnd env w sessionID).world.sessions s.ID = some s)) ∧
    (((handleSkipTrack env w sessionID).timer.isSome = true ↔
        (handleSkipTrack env w sessionID).nextTrack = true) ∧
      ((handleSkipTrack env w sessionID).nextTrack = true →
        (handleSkipTrack env w sessionID).err = none ∧
        ∃ s, updated (newCalls w (handleSkipTrack env w sessionID).world) = [s] ∧
          (handleSkipTrack env w sessionID).world.sessions s.ID = some s)) := by
  cases hf : env.FindFault with
  | some e =>
    simp [handleSkipTrack, handleTrackEnd, DoInTx, handleSkipTrackTx, handleTrackEndTx,
      World.FindByIDForUpdate, hf]
  | none =>
    cases hs : w.sessions sessionID with
    | none =>
      simp [handleSkipTrack, handleTrackEnd, DoInTx, handleSkipTrackTx, handleTrackEndTx,
        World.FindByIDForUpdate, hf, hs, World.DeleteTimer, World.log]
    | some sess =>
      rw [handleTrackEnd_found env w sessionID sess hf hs,
        handleSkipTrack_found env w sessionID sess hf hs]
      obtain ⟨a1, a2⟩ := cycleOutcome_shape w env (lockedWorld w sessionID) sess
      obtain ⟨b1, b2⟩ := cycleOutcome_shape w env (skipWorld w sessionID) sess
      refine ⟨⟨by rw [a1], fun h => ⟨(a2 h).1, ?_⟩⟩, ⟨by rw [b1], fun h => ⟨(b2 h).1, ?_⟩⟩⟩
      · have hr := (a2 h).2
        obtain ⟨c1, c2⟩ := cycle_committed env w (lockedWorld w sessionID) sess _
          (lockedWorld_calls w sessionID) rfl hr
        refine ⟨(UpdateForHandleNextTrackTx env (lockedWorld w sessionID) sess).sess, ?_, ?_⟩
        · simpa only [cycleOutcome, hr] using c1
        · simpa only [cycleOutcome, hr] using c2
      · have hr := (b2 h).2
        obtain ⟨c1, c2⟩ := cycle_committed env w (skipWorld w sessionID) sess _
          (skipWorld_calls w sessionID) rfl hr
        refine ⟨(UpdateForHandleNextTrackTx env (skipWorld w sessionID) sess).sess, ?_, ?_⟩
        · simpa only [cycleOutcome, hr] using c1
        · simpa only [cycleOutcome, hr] using c2

/-- Witness of C29: the expiry cycle of `sampleSession` with a player that
reports the new head `b` hands a timer to the loop, and its transaction has
committed. -/
theorem C29_timer_iff_next_track_witness :
    (handleTrackEnd (envPlaying "b") (World.holding sampleSession) "s").err = none ∧
    (handleTrackEnd (envPlaying "b") (World.holding sampleSession) "s").timer.isSome = true :=
  have h := (C29_timer_iff_next_track (envPlaying "b") (World.holding sampleSession) "s").1
  ⟨(h.2 (by decide)).1, h.1.mpr (by decide)⟩

theorem addToQueueEach_eq (env : RequestEnv) (uris : List String) :
    ∀ w : World, addToQueueEach env w uris =
      ({ w with calls := w.calls ++ addToQueueCalls env uris }, addToQueueErr env uris) := by
  induction uris with
  | nil => intro w; simp [addToQueueEach, addToQueueCalls, addToQueueErr]
  | cons u rest ih =>
    intro w
    cases h : env.AddToQueue u "" with
    | some e => simp [addToQueueEach, addToQueueCalls, addToQueueErr, h, World.log]
    | none => simp [addToQueueEach, addToQueueCalls, addToQueueErr, h, World.log, ih]

theorem addToQueueCalls_starts (env : RequestEnv) (uris : List String) :
    ∀ c ∈ addToQueueCalls env uris, c.startsPlayback = true := by
  induction uris with
  | nil => intro c h; simp [addToQueueCalls] at h
  | cons u rest ih =>
    intro c h
    simp only [addToQueueCalls, List.mem_cons] at h
    rcases h with rfl | h
    · rfl
    · cases hu : env.AddToQueue u "" with
      | some e => rw [hu] at h; simp at h
      | none => rw [hu] at h; exact ih c h

theorem addToQueueCalls_sub (env : RequestEnv) (uris : List String) :
    addToQueueCalls env uris <+: uris.map (fun u => Call.AddToQueue u "") := by
  induction uris with
  | nil => simp [addToQueueCalls]
  | cons u rest ih =>
    cases hu : env.AddToQueue u "" with
    | some e =>
      simp only [addToQueueCalls, hu, List.map_cons]
      exact ⟨rest.map (fun u => Call.AddToQueue u ""), rfl⟩
    | none =>
      simp only [addToQueueCalls, hu, List.map_cons]
      obtain ⟨t, ht⟩ := ih
      exact ⟨t, by simp [ht]⟩

theorem addToQueue_all_ok (env : RequestEnv) (uris : List String)
    (h : ∀ u ∈ uris, env.AddToQueue u "" = none) :
    addToQueueCalls env uris = uris.map (fun u => Call.AddToQueue u "") ∧
      addToQueueErr env uris = none := by
  induction uris with
  | nil => simp [addToQueueCalls, addToQueueErr]
  | cons u rest ih =>
    have hu := h u (List.mem_cons_self _ _)
    obtain ⟨i1, i2⟩ := ih (fun v hv => h v (List.mem_cons_of_mem _ hv))
    simp [addToQueueCalls, addToQueueErr, hu, i1, i2]

theorem addToQueue_some_fails (env : RequestEnv) (uris : List String)
    (h : ∃ u ∈ uris, env.AddToQueue u "" ≠ none) :
    ∃ e, addToQueueErr env uris = some e := by
  induction uris with
  | nil => simp at h
  | cons u rest ih =>
    cases hu : env.AddToQueue u "" with
    | some e =>
      exact ⟨.fmtW ("call add queue api trackURI=" ++ u) e, by simp [addToQueueErr, hu]⟩
    | none =>
      obtain ⟨v, hv, hne⟩ := h
      rcases List.mem_cons.mp hv with rfl | hv
      · exact absurd hu hne
      · obtain ⟨e, he⟩ := ih ⟨v, hv, hne⟩
        exact ⟨e, by simp [addToQueueErr, hu, he]⟩

theorem starts_only (cs : List Call) (h : ∀ c ∈ cs, c.startsPlayback = true) :
    cs.filter Call.startsPlayback = cs ∧ pushed cs = [] ∧ updated cs = [] ∧
      startedLoops cs = [] := by
  induction cs with
  | nil => exact ⟨rfl, rfl, rfl, rfl⟩
  | cons c rest ih =>
    obtain ⟨i1, i2, i3, i4⟩ := ih (fun d hd => h d (List.mem_cons_of_mem _ hd))
    have hc := h c (List.mem_cons_self _ _)
    cases c <;> simp_all [Call.startsPlayback, pushed, updated, startedLoops]

theorem drop_of_get? (tracks : List QueueTrack) (n : Nat) (track : QueueTrack)
    (h : tracks.get? n = some track) : tracks.drop n = track :: tracks.drop (n + 1) := by
  induction tracks generalizing n with
  | nil => simp at h
  | cons t rest ih =>
    cases n with
    | zero => simp at h; simp [h]
    | succ k =>
      simp only [List.get?_cons_succ] at h
      simpa using ih k h

/-- Counterexample to C23 as stated: `samplePaused` is in state `Pause` with a
non-empty queue, yet when `SetRepeatMode` fails with an error of the player
that is not `ErrActiveDeviceNotFound`, the play request returns that error
before it calls the player's `Play`. -/
theorem C23_counterexample :
    samplePaused.StateType = .Pause ∧
    samplePaused.QueueTracks ≠ [] ∧
    errorsIs (.sentinel "api") ErrActiveDeviceNotFound = false ∧
    (newCalls (World.holding samplePaused)
      (SessionUseCase.ChangePlaybackState
        (withRepeatError (requestEnv (envPlaying "a")) (.sentinel "api"))
        (World.holding samplePaused) "s" .Play).1).filter Call.startsPlayback = [] ∧
    newCalls (World.holding samplePaused)
      (SessionUseCase.ChangePlaybackState
        (withRepeatError (requestEnv (envPlaying "a")) (.sentinel "api"))
        (World.holding samplePaused) "s" .Play).1 =
      [.FindByID "s", .SetRepeatMode false ""] ∧
    (SessionUseCase.ChangePlaybackState
      (withRepeatError (requestEnv (envPlaying "a")) (.sentinel "api"))
      (World.holding samplePaused) "s" .Play).2 =
      .returned (some (.fmtW "play sessionID=s"
        (.fmtW "call set repeat off api" (.sentinel "api")))) := by
  refine ⟨rfl, by decide, by decide, by decide, by decide, by decide⟩

/-- C23, amended: for a session in state `Pause` with a non-empty queue, a play
request calls neither `PlayWithTracks` nor `AddToQueue`: every call it makes to
start playback is the player's `Play`, the queue is not sent again, and the
session handed to `Update`, if any, has the `QueueHead` and the `QueueTracks`
that were read. When `SetRepeatMode` and `SetShuffleMode` succeed it calls
`Play` exactly once. When `SetRepeatMode`, or after it `SetShuffleMode`, fails
with an error that is not `ErrActiveDeviceNotFound`, the request fails without
calling `Play`. -/
theorem C23_resume_does_not_resend_queue (env : RequestEnv) (w : World) (sessionID : String)
    (sess : Session)
    (hf : env.FindFault = none)
    (hs : w.sessions sessionID = some sess)
    (hst : sess.StateType = .Pause)
    (hq : sess.QueueTracks ≠ []) :
    (∀ c ∈ newCalls w (SessionUseCase.ChangePlaybackState env w sessionID .Play).1,
      c.startsPlayback = true → c = .Play "") ∧
    (env.SetRepeatMode false "" = none → env.SetShuffleMode false "" = none →
      (newCalls w (SessionUseCase.ChangePlaybackState env w sessionID .Play).1).filter
        Call.startsPlayback = [.Play ""]) ∧
    (∀ e, errorsIs e ErrActiveDeviceNotFound = false →
      env.SetRepeatMode false "" = some e ∨
        (env.SetRepeatMode false "" = none ∧ env.SetShuffleMode false "" = some e) →
      (newCalls w (SessionUseCase.ChangePlaybackState env w sessionID .Play).1).filter
        Call.startsPlayback = [] ∧
      (SessionUseCase.ChangePlaybackState env w sessionID .Play).2 =
        .returned (some (.fmtW ("play sessionID=" ++ sessionID)
          (.fmtW "call set repeat off api" e)))) ∧
    (∀ s ∈ updated (newCalls w (SessionUseCase.ChangePlaybackState env w sessionID .Play).1),
      s.QueueHead = sess.QueueHead ∧ s.QueueTracks = sess.QueueTracks) := by
  refine ⟨?_, ?_, ?_, ?_⟩
  · cases h1 : env.SetRepeatMode false "" <;> cases h2 : env.SetShuffleMode false "" <;>
      cases h3 : env.Play "" <;> cases h4 : env.Update { sess with StateType := .Play } <;>
      simp [SessionUseCase.ChangePlaybackState, SessionUseCase.play, World.FindByID, hf, hs, hq,
        h1, h2, h3, h4, Session.IsResume, hst, Session.MoveToPlay, World.Update, World.log,
        World.Push, newCalls, Call.startsPlayback]
  · intro h1 h2
    cases h3 : env.Play "" <;> cases h4 : env.Update { sess with StateType := .Play } <;>
      simp [SessionUseCase.ChangePlaybackState, SessionUseCase.play, World.FindByID, hf, hs, hq,
        h1, h2, h3, h4, Session.IsResume, hst, Session.MoveToPlay, World.Update, World.log,
        World.Push, newCalls, Call.startsPlayback]
  · intro e _ hfail
    rcases hfail with h1 | ⟨h1, h2⟩
    · simp [SessionUseCase.ChangePlaybackState, SessionUseCase.play, World.FindByID, hf, hs, hq,
        h1, World.log, newCalls, Call.startsPlayback]
    · simp [SessionUseCase.ChangePlaybackState, SessionUseCase.play, World.FindByID, hf, hs, hq,
        h1, h2, World.log, newCalls, Call.startsPlayback]
  · cases h1 : env.SetRepeatMode false "" <;> cases h2 : env.SetShuffleMode false "" <;>
      cases h3 : env.Play "" <;> cases h4 : env.Update { sess with StateType := .Play } <;>
      simp [SessionUseCase.ChangePlaybackState, SessionUseCase.play, World.FindByID, hf, hs, hq,
        h1, h2, h3, h4, Session.IsResume, hst, Session.MoveToPlay, World.Update, World.log,
        World.Push, newCalls, updated]

/-- Witness of C23: resuming the paused `samplePaused`. -/
theorem C23_resume_does_not_resend_queue_witness :
    (newCalls (World.holding samplePaused)
      (SessionUseCase.ChangePlaybackState (requestEnv (envPlaying "a"))
        (World.holding samplePaused) "s" .Play).1).filter Call.startsPlayback = [.Play ""] :=
  (C23_resume_does_not_resend_queue (requestEnv (envPlaying "a")) (World.holding samplePaused)
    "s" samplePaused rfl (by decide) rfl (by decide)).2.1 rfl rfl

theorem play_cold_value (env : RequestEnv) (w : World) (sessionID : String) (sess : Session)
    (first : String) (rest : List String)
    (hf : env.FindFault = none)
    (hs : w.sessions sessionID = some sess)
    (hres : sess.IsResume .Play = false)
    (huris : sess.TrackURIsOnAndAfterQueueHead = first :: rest)
    (hq : sess.QueueTracks ≠ [])
    (hrep : env.SetRepeatMode false "" = none)
    (hshuf : env.SetShuffleMode false "" = none) :
    SessionUseCase.ChangePlaybackState env w sessionID .Play =
      match env.PlayWithTracks "" [first] with
      | some e =>
        ({ w with calls := w.calls ++ [.FindByID sessionID, .SetRepeatMode false "",
            .SetShuffleMode false "", .PlayWithTracks "" [first]] },
          .returned (some (.fmtW ("play sessionID=" ++ sessionID)
            (.fmtW ("call play api with tracks " ++ formatStrings (first :: rest)) e))))
      | none =>
        match addToQueueErr env rest with
        | some e =>
          ({ w with calls := w.calls ++ ([.FindByID sessionID, .SetRepeatMode false "",
              .SetShuffleMode false "", .PlayWithTracks "" [first]] ++
              addToQueueCalls env rest) },
            .returned (some (.fmtW ("play sessionID=" ++ sessionID) e)))
        | none =>
          match env.Update { sess with StateType := .Play } with
          | some e =>
            ({ w with calls := w.calls ++ ([.FindByID sessionID, .SetRepeatMode false "",
                .SetShuffleMode false "", .PlayWithTracks "" [first]] ++
                addToQueueCalls env rest ++ [.Update { sess with StateType := .Play }]) },
              .returned (some (.fmtW ("play sessionID=" ++ sessionID)
                (.fmtW ("update session id=" ++ sessionID) e))))
          | none =>
            ({ sessions := fun id => if id = sess.ID then some { sess with StateType := .Play }
                  else w.sessions id,
               timers := w.timers,
               calls := w.calls ++ ([.FindByID sessionID, .SetRepeatMode false "",
                .SetShuffleMode false "", .PlayWithTracks "" [first]] ++
                addToQueueCalls env rest ++ [.Update { sess with StateType := .Play },
                  .StartTrackEndTrigger sessionID, .Push ⟨sessionID, .Play⟩]) },
              .returned none) := by
  cases hp : env.PlayWithTracks "" [first] with
  | some e =>
    simp [SessionUseCase.ChangePlaybackState, SessionUseCase.play, World.FindByID, hf, hs, hq,
      hrep, hshuf, hres, huris, hp, World.log]
  | none =>
    cases ha : addToQueueErr env rest with
    | some e =>
      simp [SessionUseCase.ChangePlaybackState, SessionUseCase.play, World.FindByID, hf, hs, hq,
        hrep, hshuf, hres, huris, hp, World.log, addToQueueEach_eq, ha]
    | none =>
      cases hu : env.Update { sess with StateType := .Play } with
      | some e =>
        simp [SessionUseCase.ChangePlaybackState, SessionUseCase.play, World.FindByID, hf, hs,
          hq, hrep, hshuf, hres, huris, hp, World.log, addToQueueEach_eq, ha,
          Session.MoveToPlay, World.Update, hu]
      | none =>
        simp [SessionUseCase.ChangePlaybackState, SessionUseCase.play, World.FindByID, hf, hs,
          hq, hrep, hshuf, hres, huris, hp, World.log, addToQueueEach_eq, ha,
          Session.MoveToPlay, World.Update, hu, World.Push]

theorem head_track_facts (sess : Session) (track : QueueTrack)
    (hhead : sess.QueueTracks.get? sess.QueueHead = some track) :
    sess.TrackURIsOnAndAfterQueueHead =
        track.URI :: (sess.QueueTracks.drop (sess.QueueHead + 1)).map (fun t => t.URI) ∧
      sess.QueueTracks ≠ [] := by
  constructor
  · simp [Session.TrackURIsOnAndAfterQueueHead, drop_of_get? _ _ _ hhead]
  · intro h
    rw [h] at hhead
    simp at hhead

/-- Counterexample to C24 as stated: `sampleStopped3` is in state `Stop` with a
non-empty queue, yet when `SetRepeatMode` fails, the device being offline, the
play request returns before it calls `PlayWithTracks` or `AddToQueue`. -/
theorem C24_counterexample :
    sampleStopped3.StateType = .Stop ∧
    sampleStopped3.QueueTracks ≠ [] ∧
    (newCalls (World.holding sampleStopped3)
      (SessionUseCase.ChangePlaybackState (withRepeatFailure (requestEnv (envPlaying "a")))
        (World.holding sampleStopped3) "s" .Play).1).filter Call.startsPlayback = [] ∧
    newCalls (World.holding sampleStopped3)
      (SessionUseCase.ChangePlaybackState (withRepeatFailure (requestEnv (envPlaying "a")))
        (World.holding sampleStopped3) "s" .Play).1 =
      [.FindByID "s", .SetRepeatMode false ""] := by
  refine ⟨rfl, by decide, by decide, by decide⟩

/-- C24, amended: for a session in state `Stop` with a track at `QueueHead`,
when `SetRepeatMode` and `SetShuffleMode` succeed, a play request calls
`PlayWithTracks` with exactly the one-element list of the URI of the track at
`QueueHead`, then `AddToQueue` once for each track after the head, in queue
order, up to the first call that fails, and nothing else to start playback;
when all these calls succeed every track after the head is sent; when any of
them fails the request fails and the session is not updated. -/
theorem C24_cold_start_sends_queue (env : RequestEnv) (w : World) (sessionID : String)
    (sess : Session) (track : QueueTrack)
    (hf : env.FindFault = none)
    (hs : w.sessions sessionID = some sess)
    (hst : sess.StateType = .Stop)
    (hhead : sess.QueueTracks.get? sess.QueueHead = some track)
    (hrep : env.SetRepeatMode false "" = none)
    (hshuf : env.SetShuffleMode false "" = none) :
    let rest := (sess.QueueTracks.drop (sess.QueueHead + 1)).map (fun t => t.URI)
    (∃ sent, (newCalls w (SessionUseCase.ChangePlaybackState env w sessionID .Play).1).filter
        Call.startsPlayback = .PlayWithTracks "" [track.URI] :: sent ∧
      sent <+: rest.map (fun u => Call.AddToQueue u "")) ∧
    (env.PlayWithTracks "" [track.URI] = none → (∀ u ∈ rest, env.AddToQueue u "" = none) →
      (newCalls w (SessionUseCase.ChangePlaybackState env w sessionID .Play).1).filter
        Call.startsPlayback =
        .PlayWithTracks "" [track.URI] :: rest.map (fun u => Call.AddToQueue u "")) ∧
    (env.PlayWithTracks "" [track.URI] ≠ none ∨ (∃ u ∈ rest, env.AddToQueue u "" ≠ none) →
      (∃ e, (SessionUseCase.ChangePlaybackState env w sessionID .Play).2 =
        .returned (some e)) ∧
      updated (newCalls w (SessionUseCase.ChangePlaybackState env w sessionID .Play).1) = [] ∧
      (SessionUseCase.ChangePlaybackState env w sessionID .Play).1.sessions = w.sessions) := by
  intro rest
  obtain ⟨huris, hq⟩ := head_track_facts sess track hhead
  have hres : sess.IsResume .Play = false := by simp [Session.IsResume, hst]
  have hv := play_cold_value env w sessionID sess track.URI rest hf hs hres huris hq hrep hshuf
  obtain ⟨s1, _, s3, _⟩ := starts_only _ (addToQueueCalls_starts env rest)
  refine ⟨?_, ?_, ?_⟩
  · cases hp : env.PlayWithTracks "" [track.URI] with
    | some e =>
      refine ⟨[], ?_, List.nil_prefix⟩
      simp [hv, hp, newCalls, Call.startsPlayback]
    | none =>
      refine ⟨addToQueueCalls env rest, ?_, addToQueueCalls_sub env rest⟩
      cases ha : addToQueueErr env rest with
      | some e => simp [hv, hp, ha, newCalls, Call.startsPlayback, List.filter_append, s1]
      | none =>
        cases hu : env.Update { sess with StateType := .Play } <;>
          simp [hv, hp, ha, hu, newCalls, Call.startsPlayback, List.filter_append, s1]
  · intro hp hall
    obtain ⟨a1, a2⟩ := addToQueue_all_ok env rest hall
    rw [a1] at s1
    cases hu : env.Update { sess with StateType := .Play } <;>
      simp [hv, hp, a1, a2, hu, newCalls, Call.startsPlayback, List.filter_append, s1]
  · intro hfail
    cases hp : env.PlayWithTracks "" [track.URI] with
    | some e => simp [hv, hp, newCalls, updated]
    | none =>
      have hex : ∃ u ∈ rest, env.AddToQueue u "" ≠ none := by
        rcases hfail with h | h
        · exact absurd hp h
        · exact h
      obtain ⟨e, ha⟩ := addToQueue_some_fails env rest hex
      simp [hv, hp, ha, newCalls, updated, updated_append, s3]

/-- Witness of C24: a cold start of `sampleStopped3`, all calls succeeding, and
one where `AddToQueue` fails for the track `b`. -/
theorem C24_cold_start_sends_queue_witness :
    (newCalls (World.holding sampleStopped3)
      (SessionUseCase.ChangePlaybackState (requestEnv (envPlaying "a"))
        (World.holding sampleStopped3) "s" .Play).1).filter Call.startsPlayback =
      [.PlayWithTracks "" ["a"], .AddToQueue "b" "", .AddToQueue "c" ""] ∧
    updated (newCalls (World.holding sampleStopped3)
      (SessionUseCase.ChangePlaybackState
        (withAddToQueueFailure (requestEnv (envPlaying "a")) "b")
        (World.holding sampleStopped3) "s" .Play).1) = [] :=
  ⟨(C24_cold_start_sends_queue (requestEnv (envPlaying "a")) (World.holding sampleStopped3)
      "s" sampleStopped3 ⟨0, "a", "s"⟩ rfl (by decide) rfl (by decide) rfl rfl).2.1 rfl
      (fun _ _ => rfl),
    ((C24_cold_start_sends_queue (withAddToQueueFailure (requestEnv (envPlaying "a")) "b")
      (World.holding sampleStopped3) "s" sampleStopped3 ⟨0, "a", "s"⟩ rfl (by decide) rfl
      (by decide) rfl rfl).2.2 (Or.inr ⟨"b", by decide, by decide⟩)).2.1⟩

/-- Counterexample to C25 as stated: the stopped session `sampleStopped3` with
`QueueHead` 3 has a non-empty queue and every call to the external player
succeeds, yet no track is left from the head on, the slice expression
`TrackURIsOnAndAfterQueueHead()[:1]` panics, and the play request calls
neither `Update` nor `Push`. -/
theorem C25_counterexample :
    ({ sampleStopped3 with QueueHead := 3 } : Session).QueueTracks ≠ [] ∧
    (SessionUseCase.ChangePlaybackState (requestEnv (envPlaying "a"))
      (World.holding { sampleStopped3 with QueueHead := 3 }) "s" .Play).2 = .panicked ∧
    newCalls (World.holding { sampleStopped3 with QueueHead := 3 })
      (SessionUseCase.ChangePlaybackState (requestEnv (envPlaying "a"))
        (World.holding { sampleStopped3 with QueueHead := 3 }) "s" .Play).1 =
      [.FindByID "s", .SetRepeatMode false "", .SetShuffleMode false ""] ∧
    updated (newCalls (World.holding { sampleStopped3 with QueueHead := 3 })
      (SessionUseCase.ChangePlaybackState (requestEnv (envPlaying "a"))
        (World.holding { sampleStopped3 with QueueHead := 3 }) "s" .Play).1) = [] ∧
    pushed (newCalls (World.holding { sampleStopped3 with QueueHead := 3 })
      (SessionUseCase.ChangePlaybackState (requestEnv (envPlaying "a"))
        (World.holding { sampleStopped3 with QueueHead := 3 }) "s" .Play).1) = [] := by
  refine ⟨by decide, by decide, by decide, by decide, by decide⟩

/-- C25, amended: for a session with a non-empty queue, paused or with `QueueHead`
indexing a queued track, when every call to the external player succeeds, a
play request calls `Update` exactly once, with the session read from the store
changed only in its `StateType`, which is `Play` (so `ID`, `Name`, `CreatorID`,
`DeviceID`, `QueueHead` and `QueueTracks` are those read); when that `Update`
succeeds the request succeeds, pushes exactly one play notification for the
session id and starts one scheduler loop; when it fails the request fails,
nothing is pushed and no scheduler loop is started. -/
theorem C25_play_updates_once_then_notifies (env : RequestEnv) (w : World)
    (sessionID : String) (sess : Session)
    (hf : env.FindFault = none)
    (hs : w.sessions sessionID = some sess)
    (hq : sess.QueueTracks ≠ [])
    (hhead : sess.StateType = .Pause ∨ sess.QueueHead < sess.QueueTracks.length)
    (hrep : env.SetRepeatMode false "" = none)
    (hshuf : env.SetShuffleMode false "" = none)
    (hplay : env.Play "" = none)
    (hpwt : ∀ uris, env.PlayWithTracks "" uris = none)
    (hadd : ∀ u, env.AddToQueue u "" = none) :
    updated (newCalls w (SessionUseCase.ChangePlaybackState env w sessionID .Play).1) =
      [{ sess with StateType := .Play }] ∧
    (∀ s ∈ updated (newCalls w (SessionUseCase.ChangePlaybackState env w sessionID .Play).1),
      s.StateType = .Play ∧ s.ID = sess.ID ∧ s.Name = sess.Name ∧
      s.CreatorID = sess.CreatorID ∧ s.DeviceID = sess.DeviceID ∧
      s.QueueHead = sess.QueueHead ∧ s.QueueTracks = sess.QueueTracks) ∧
    (env.Update { sess with StateType := .Play } = none →
      (SessionUseCase.ChangePlaybackState env w sessionID .Play).2 = .returned none ∧
      pushed (newCalls w (SessionUseCase.ChangePlaybackState env w sessionID .Play).1) =
        [⟨sessionID, .Play⟩] ∧
      startedLoops (newCalls w (SessionUseCase.ChangePlaybackState env w sessionID .Play).1) =
        [sessionID]) ∧
    (env.Update { sess with StateType := .Play } ≠ none →
      (∃ e, (SessionUseCase.ChangePlaybackState env w sessionID .Play).2 =
        .returned (some e)) ∧
      pushed (newCalls w (SessionUseCase.ChangePlaybackState env w sessionID .Play).1) = [] ∧
      startedLoops (newCalls w (SessionUseCase.ChangePlaybackState env w sessionID .Play).1) =
        [] ∧
      (SessionUseCase.ChangePlaybackState env w sessionID .Play).1.sessions = w.sessions) := by
  have hupd : updated (newCalls w
        (SessionUseCase.ChangePlaybackState env w sessionID .Play).1) =
        [{ sess with StateType := .Play }] ∧
      (env.Update { sess with StateType := .Play } = none →
        (SessionUseCase.ChangePlaybackState env w sessionID .Play).2 = .returned none ∧
        pushed (newCalls w (SessionUseCase.ChangePlaybackState env w sessionID .Play).1) =
          [⟨sessionID, .Play⟩] ∧
        startedLoops (newCalls w
          (SessionUseCase.ChangePlaybackState env w sessionID .Play).1) = [sessionID]) ∧
      (env.Update { sess with StateType := .Play } ≠ none →
        (∃ e, (SessionUseCase.ChangePlaybackState env w sessionID .Play).2 =
          .returned (some e)) ∧
        pushed (newCalls w (SessionUseCase.ChangePlaybackState env w sessionID .Play).1) =
          [] ∧
        startedLoops (newCalls w
          (SessionUseCase.ChangePlaybackState env w sessionID .Play).1) = [] ∧
        (SessionUseCase.ChangePlaybackState env w sessionID .Play).1.sessions =
          w.sessions) := by
    by_cases hst : sess.StateType = .Pause
    · cases h4 : env.Update { sess with StateType := .Play } <;>
        simp [SessionUseCase.ChangePlaybackState, SessionUseCase.play, World.FindByID, hf, hs,
          hq, hrep, hshuf, hplay, h4, Session.IsResume, hst, Session.MoveToPlay, World.Update,
          World.log, World.Push, newCalls, pushed, updated, startedLoops]
    · have hlt : sess.QueueHead < sess.QueueTracks.length := by
        rcases hhead with h | h
        · exact absurd h hst
        · exact h
      obtain ⟨huris, _⟩ := head_track_facts sess (sess.QueueTracks.get ⟨sess.QueueHead, hlt⟩)
        (List.get?_eq_get hlt)
      have hres : sess.IsResume .Play = false := by simp [Session.IsResume, hst]
      generalize (sess.QueueTracks.drop (sess.QueueHead + 1)).map (fun t => t.URI) = rest
        at huris
      generalize (sess.QueueTracks.get ⟨sess.QueueHead, hlt⟩).URI = first at huris
      have hv := play_cold_value env w sessionID sess first rest hf hs hres huris hq hrep hshuf
      obtain ⟨a1, a2⟩ := addToQueue_all_ok env rest (fun u _ => hadd u)
      obtain ⟨_, s2, s3, s4⟩ := starts_only _ (addToQueueCalls_starts env rest)
      cases h4 : env.Update { sess with StateType := .Play } <;>
        simp [hv, hpwt, a2, h4, newCalls, pushed, updated, startedLoops, pushed_append,
          updated_append, startedLoops_append, s2, s3, s4]
  refine ⟨hupd.1, ?_, hupd.2⟩
  intro s hmem
  rw [hupd.1] at hmem
  simp at hmem
  subst hmem
  exact ⟨rfl, rfl, rfl, rfl, rfl, rfl, rfl⟩

/-- Witness of C25: a cold start of `sampleStopped3` whose `Update` succeeds. -/
theorem C25_play_updates_once_then_notifies_witness :
    updated (newCalls (World.holding sampleStopped3)
      (SessionUseCase.ChangePlaybackState (requestEnv (envPlaying "a"))
        (World.holding sampleStopped3) "s" .Play).1) =
      [{ sampleStopped3 with StateType := .Play }] ∧
    pushed (newCalls (World.holding sampleStopped3)
      (SessionUseCase.ChangePlaybackState (requestEnv (envPlaying "a"))
        (World.holding sampleStopped3) "s" .Play).1) = [⟨"s", .Play⟩] :=
  ⟨(C25_play_updates_once_then_notifies (requestEnv (envPlaying "a"))
      (World.holding sampleStopped3) "s" sampleStopped3 rfl (by decide) (by decide)
      (Or.inr (by decide)) rfl rfl rfl (fun _ => rfl) (fun _ => rfl)).1,
    ((C25_play_updates_once_then_notifies (requestEnv (envPlaying "a"))
      (World.holding sampleStopped3) "s" sampleStopped3 rfl (by decide) (by decide)
      (Or.inr (by decide)) rfl rfl rfl (fun _ => rfl) (fun _ => rfl)).2.2.1 rfl).2.1⟩

end Relaym
